import Mathlib

/-!
# Branda backend: tenant context, data-access guard, intent routing

A shallow embedding of the parts of `project_code/src/backend` that carry the
tenant isolation and intent routing contracts:

* `services/contextService.js`  (`runInTenantContext`, `getCurrentTenantId`)
* `middlewares/tenantPlugin.js` (the Mongoose hooks of the tenant guard)
* `services/contextManager.js`, `services/redisService.js`,
  `models/conversationModel.js` (conversation store and cache)
* `services/orchestrator.js`    (`determineIntention`)

JavaScript values are modelled by `Option String` where the source documents
`string | null`; `none` stands for `null` / `undefined`.
-/

namespace Branda

/-! ## services/contextService.js -/

/-- The object handed to `tenantContext.run`: the literal `{ tenantId }`. -/
structure Store where
  tenantId : Option String
  deriving DecidableEq, Repr

/-- The store slot of the async resource that is executing: `tenantContext.getStore()`
reads it, and it is `none` (`undefined`) outside every `run`. -/
abbrev Slot := Option Store

/-- Source `getCurrentTenantId`: `store ? store.tenantId : null`. -/
def getCurrentTenantId (slot : Slot) : Option String :=
  match slot with
  | some store => store.tenantId
  | none => none

/-- The body of a callback, reduced to what matters for the tenant context: it
returns, calls `getCurrentTenantId()`, suspends on an `await`, or awaits a nested
`runInTenantContext(tenantId, inner)` and goes on with its result. -/
inductive Fn (ρ : Type) where
  | ret (result : ρ)
  | getTenant (k : Option String → Fn ρ)
  | await (k : Fn ρ)
  | inTenant (tenantId : Option String) (inner : Fn ρ) (k : ρ → Fn ρ)

/-- A suspended computation. Each continuation is an async resource of its own and
carries the store that was current when it was created. -/
inductive Cont (ρ : Type) where
  | leaf (captured : Slot) (code : Fn ρ)
  | frame (inner : Cont ρ) (captured : Slot) (k : ρ → Fn ρ)

/-- How a synchronous run of code ends. -/
inductive Outcome (ρ : Type) where
  | finished (result : ρ)
  | suspended (rest : Cont ρ)

/-- One synchronous run: how it ended, the values `getCurrentTenantId()` returned
during it (in call order), and the store slot it leaves behind. -/
structure Turn (ρ : Type) where
  outcome : Outcome ρ
  seen : List (Option String)
  slot : Slot

/-- Node's `AsyncLocalStorage.prototype.run(store, callback)`: the store is installed
for the synchronous extent of the callback and the previous one is put back when the
callback returns (a promise, if it suspended). The result is what the callback
returned, with the slot as `run` leaves it. -/
def AsyncLocalStorage.run {α : Type} (store : Store) (callback : Slot → α)
    (slot : Slot) : α × Slot :=
  let previous := slot
  let result := callback (some store)
  (result, previous)

/-- Source `runInTenantContext`: `tenantContext.run({ tenantId }, fn)`. -/
def runInTenantContext {α : Type} (tenantId : Option String) (fn : Slot → α)
    (slot : Slot) : α × Slot :=
  AsyncLocalStorage.run { tenantId := tenantId } fn slot

/-- Synchronous execution of a callback body up to its end or its first suspension.
An `await` creates a continuation that captures the current store. -/
def exec {ρ : Type} : Fn ρ → Slot → Turn ρ
  | .ret r, slot => ⟨.finished r, [], slot⟩
  | .getTenant k, slot =>
      let v := getCurrentTenantId slot
      let t := exec (k v) slot
      ⟨t.outcome, v :: t.seen, t.slot⟩
  | .await k, slot => ⟨.suspended (.leaf slot k), [], slot⟩
  | .inTenant tenantId inner k, slot =>
      let ran := runInTenantContext tenantId (exec inner) slot
      match ran.1.outcome with
      | .finished r =>
          let t2 := exec (k r) ran.2
          ⟨t2.outcome, ran.1.seen ++ t2.seen, t2.slot⟩
      | .suspended c => ⟨.suspended (.frame c ran.2 k), ran.1.seen, ran.2⟩

/-- The event loop resumes a continuation: the continuation's own async resource
becomes the executing one, so the slot is the captured store whatever the previous
turn left behind (`ambient`). -/
def resume {ρ : Type} : Cont ρ → Slot → Turn ρ
  | .leaf captured code, _ambient => exec code captured
  | .frame inner captured k, ambient =>
      let t := resume inner ambient
      match t.outcome with
      | .finished r =>
          let t2 := exec (k r) captured
          ⟨t2.outcome, t.seen ++ t2.seen, t2.slot⟩
      | .suspended c => ⟨.suspended (.frame c captured k), t.seen, captured⟩

/-- One more turn of a task: nothing if it has finished, else its continuation is
resumed and what it sees is appended to what the task has seen so far. -/
def Turn.next {ρ : Type} (t : Turn ρ) : Turn ρ :=
  match t.outcome with
  | .finished _ => t
  | .suspended c =>
      let r := resume c t.slot
      ⟨r.outcome, t.seen ++ r.seen, r.slot⟩

/-- The task after `n` further turns. -/
def settle {ρ : Type} : Nat → Turn ρ → Turn ρ
  | 0, t => t
  | n + 1, t => settle n t.next

/-- What the caller of an awaited computation does with its turn: go on with `k` in
the caller's own store, or stay suspended behind it. -/
def afterAwait {ρ : Type} (own : Slot) (k : ρ → Fn ρ) (t : Turn ρ) : Turn ρ :=
  match t.outcome with
  | .finished r =>
      let t2 := exec (k r) own
      ⟨t2.outcome, t.seen ++ t2.seen, t2.slot⟩
  | .suspended c => ⟨.suspended (.frame c own k), t.seen, own⟩

/-- A turn with earlier observations put in front of its own. -/
def Turn.after {ρ : Type} (earlier : List (Option String)) (t : Turn ρ) : Turn ρ :=
  ⟨t.outcome, earlier ++ t.seen, t.slot⟩

/-- The result of a body whose own `getCurrentTenantId()` calls all return `t`, and
whose nested scopes get the tenant id they were opened with. -/
def Fn.answer {ρ : Type} (t : Option String) : Fn ρ → ρ
  | .ret r => r
  | .getTenant k => answer t (k t)
  | .await k => answer t k
  | .inTenant b inner k => answer t (k (answer b inner))

/-- Number of suspensions of a body on the path fixed by `Fn.answer`. -/
def Fn.awaits {ρ : Type} (t : Option String) : Fn ρ → Nat
  | .ret _ => 0
  | .getTenant k => awaits t (k t)
  | .await k => awaits t k + 1
  | .inTenant b inner k => awaits b inner + awaits t (k (answer b inner))

/-- The values the `getCurrentTenantId()` calls of a body return under lexical
scoping, nested scopes included, in call order. -/
def Fn.reads {ρ : Type} (t : Option String) : Fn ρ → List (Option String)
  | .ret _ => []
  | .getTenant k => t :: reads t (k t)
  | .await k => reads t k
  | .inTenant b inner k => reads b inner ++ reads t (k (answer b inner))

/-- A body that opens no nested tenant scope of its own. -/
def Fn.plain {ρ : Type} : Fn ρ → Prop
  | .ret _ => True
  | .getTenant k => ∀ v, plain (k v)
  | .await k => plain k
  | .inTenant _ _ _ => False

/-- The task suspends exactly `n` more times and then finishes with result `r`,
having seen `s` in total. -/
def FinishesIn {ρ : Type} : Nat → Turn ρ → ρ → List (Option String) → Prop
  | 0, t, r, s => t.outcome = .finished r ∧ t.seen = s
  | n + 1, t, r, s => (∃ c, t.outcome = .suspended c) ∧ FinishesIn n t.next r s

/-- Two task states that differ at most in the slot their last turn left behind. -/
def Turn.agrees {ρ : Type} (a b : Turn ρ) : Prop :=
  a.outcome = b.outcome ∧ a.seen = b.seen

/-- Two tasks sharing one event loop; `slot` is the store slot as the most recent
turn of either task left it. -/
structure Loop (ρ : Type) where
  first : Turn ρ
  second : Turn ρ
  slot : Slot

/-- The two `runInTenantContext` calls of a `Promise.all([...])`, started one after
the other in the same synchronous block: each runs up to its first suspension. -/
def startBoth {ρ : Type} (t1 : Option String) (fn1 : Fn ρ) (t2 : Option String)
    (fn2 : Fn ρ) (slot : Slot) : Loop ρ :=
  let a := runInTenantContext t1 (exec fn1) slot
  let b := runInTenantContext t2 (exec fn2) a.2
  ⟨a.1, b.1, b.2⟩

/-- The event loop gives one turn to the first (`true`) or the second (`false`) task,
starting from the slot the previous turn left behind. -/
def Loop.step {ρ : Type} (l : Loop ρ) (pickFirst : Bool) : Loop ρ :=
  if pickFirst then
    let t := Turn.next ⟨l.first.outcome, l.first.seen, l.slot⟩
    ⟨t, l.second, t.slot⟩
  else
    let t := Turn.next ⟨l.second.outcome, l.second.seen, l.slot⟩
    ⟨l.first, t, t.slot⟩

/-- The loop after the turns of a schedule, in order. -/
def Loop.run {ρ : Type} (l : Loop ρ) (schedule : List Bool) : Loop ρ :=
  schedule.foldl Loop.step l

/-! ## middlewares/tenantPlugin.js -/

/-- A JavaScript error object, by its `name` and `message`. -/
structure JsError where
  name : String
  message : String
  deriving DecidableEq, Repr

/-- JavaScript `new Error(message)`: the error's `name` is `Error`. -/
def newError (message : String) : JsError :=
  { name := "Error", message := message }

/-- JavaScript truthiness of a `string | null` value: `null`, `undefined` and the
empty string are falsy. -/
def truthy : Option String → Bool
  | some s => s != ""
  | none => false

/-- What the save hook reads of a document: `this.tenantId` and the static
`this.constructor.tenantRequired` (`none` when the model does not define it). -/
structure TenantDoc where
  tenantId : Option String
  tenantRequired : Option Bool
  deriving DecidableEq, Repr

/-- A value of an update payload: a plain value, or the argument object of an
operator such as `$set` or `$push`. -/
inductive UpdateValue where
  | val (v : Option String)
  | obj (fields : List (String × Option String))
  deriving DecidableEq, Repr

/-- An update payload (`this._update`), by its top-level keys. -/
abbrev Update := List (String × UpdateValue)

/-- What the query hooks read and write of a Mongoose query: its filter
(`this._conditions`), `this._update` (`none` when undefined), the
`_skipTenantFilter` flag and the static `this.constructor.tenantRequired`. -/
structure Query where
  conditions : List (String × Option String)
  update : Option Update
  skipTenantFilter : Bool
  tenantRequired : Option Bool
  deriving DecidableEq, Repr

/-- Mongoose `query.where({ field: value })`: the filter gets `field = value`, in
place of an earlier plain value for the same field. -/
def Query.whereEq (q : Query) (field : String) (value : Option String) : Query :=
  { q with conditions := (field, value) :: q.conditions.filter (fun c => c.1 != field) }

/-- Truthiness of `this._update.tenantId`: the key may be missing (`undefined`). -/
def UpdateValue.truthy : Option UpdateValue → Bool
  | some (.val v) => Branda.truthy v
  | some (.obj _) => true
  | none => false

/-- JavaScript `this._update.tenantId !== tenantId` against a `string | null`. -/
def UpdateValue.strictNe : Option UpdateValue → Option String → Bool
  | some (.val v), t => v != t
  | some (.obj _), _ => true
  | none, _ => true

/-- Source `schema.pre('save', ...)` of the plugin. -/
def tenantPlugin.preSave (doc : TenantDoc) : Except JsError Unit :=
  if !truthy doc.tenantId && doc.tenantRequired != some false then
    throw (newError "tenantId est requis")
  else
    pure ()

/-- Source `schema.pre('find', ...)` of the plugin. -/
def tenantPlugin.preFind (slot : Slot) (q : Query) : Query :=
  if q.tenantRequired != some false && !q.skipTenantFilter then
    let tenantId := getCurrentTenantId slot
    if truthy tenantId then q.whereEq "tenantId" tenantId else q
  else
    q

/-- Source `schema.pre('findOne', ...)` of the plugin. -/
def tenantPlugin.preFindOne (slot : Slot) (q : Query) : Query :=
  if q.tenantRequired != some false && !q.skipTenantFilter then
    let tenantId := getCurrentTenantId slot
    if truthy tenantId then q.whereEq "tenantId" tenantId else q
  else
    q

/-- Source `schema.pre('updateOne', ...)` of the plugin. -/
def tenantPlugin.preUpdateOne (slot : Slot) (q : Query) : Except JsError Query :=
  if q.tenantRequired != some false && !q.skipTenantFilter then
    let tenantId := getCurrentTenantId slot
    if truthy tenantId then
      let q := q.whereEq "tenantId" tenantId
      match q.update with
      | some update =>
          if UpdateValue.truthy (update.lookup "tenantId")
              && UpdateValue.strictNe (update.lookup "tenantId") tenantId then
            throw (newError "Modification du tenantId non autorisée")
          else
            pure q
      | none => pure q
    else
      pure q
  else
    pure q

/-- Mongoose `Model.find()` without arguments: a fresh query on the model, whose static
`tenantRequired` is given. The query does not carry that static: in a query hook
`this.constructor` is the query class of Mongoose, on which no `tenantRequired` is
defined, so the hooks read `undefined` (`none`) whatever the model sets. -/
def Model.find (_tenantRequired : Option Bool) : Query :=
  { conditions := [], update := none, skipTenantFilter := false, tenantRequired := none }

/-- Source `schema.statics.skipTenantFilter`. -/
def tenantPlugin.skipTenantFilter (tenantRequired : Option Bool) : Query :=
  let query := Model.find tenantRequired
  { query with skipTenantFilter := true }

/-- The hooks registered on a Mongoose schema, in registration order. -/
structure Schema where
  preSave : List (TenantDoc → Except JsError Unit)
  preFind : List (Slot → Query → Query)
  preFindOne : List (Slot → Query → Query)
  preUpdateOne : List (Slot → Query → Except JsError Query)

/-- Source `tenantPlugin(schema)`: registers the four hooks on the schema. -/
def tenantPlugin (schema : Schema) : Schema :=
  { preSave := schema.preSave ++ [tenantPlugin.preSave],
    preFind := schema.preFind ++ [tenantPlugin.preFind],
    preFindOne := schema.preFindOne ++ [tenantPlugin.preFindOne],
    preUpdateOne := schema.preUpdateOne ++ [tenantPlugin.preUpdateOne] }

/-- Whether a document, seen through its field accessor, satisfies a filter. -/
def Query.matches {δ : Type} (field : δ → String → Option String) (q : Query) (d : δ) :
    Bool :=
  q.conditions.all (fun c => field d c.1 == c.2)

/-- Execution of a `find`: the schema's `find` hooks run on the query, then the
collection is filtered. -/
def Schema.execFind {δ : Type} (schema : Schema) (field : δ → String → Option String)
    (slot : Slot) (docs : List δ) (q : Query) : List δ :=
  let q := schema.preFind.foldl (fun q hook => hook slot q) q
  docs.filter (q.matches field)

/-- Execution of a `findOne`: the schema's `findOne` hooks run on the query, then the
first matching document is returned (`none` for `null`). -/
def Schema.execFindOne {δ : Type} (schema : Schema) (field : δ → String → Option String)
    (slot : Slot) (docs : List δ) (q : Query) : Option δ :=
  let q := schema.preFindOne.foldl (fun q hook => hook slot q) q
  docs.find? (q.matches field)

/-- What an update payload would write into the tenant id field: the plain top-level
`tenantId` value, which Mongoose wraps into `$set`, or the `tenantId` entry of an
explicit `$set` operator. -/
def Update.setsTenantId (u : Update) : Option (Option String) :=
  match u.lookup "tenantId" with
  | some (.val v) => some v
  | _ =>
    match u.lookup "$set" with
    | some (.obj fields) => fields.lookup "tenantId"
    | _ => none

/-! ## models/conversationModel.js, services/redisService.js, services/contextManager.js -/

/-- A message of a conversation (`messageSchema`), without its timestamp. -/
structure Message where
  role : String
  content : String
  deriving DecidableEq, Repr

/-- A conversation document (`conversationSchema`); `lastActivity` is a clock reading. -/
structure Conversation where
  id : String
  tenantId : Option String
  userId : String
  title : String
  messages : List Message
  lastActivity : Nat
  isActive : Bool
  deriving DecidableEq, Repr

/-- The fields of a conversation a filter can test. -/
def Conversation.field (c : Conversation) (name : String) : Option String :=
  if name = "_id" then some c.id
  else if name = "tenantId" then c.tenantId
  else if name = "userId" then some c.userId
  else none

/-- The hooks of `conversationSchema`: `conversationModel.js` registers none, and no
file of the backend applies `tenantPlugin` to it. -/
def conversationSchema : Schema :=
  { preSave := [], preFind := [], preFindOne := [], preUpdateOne := [] }

/-- One Redis key holding a chat history, with the TTL it was written with. -/
structure CacheEntry where
  key : String
  value : List Message
  ttl : Nat
  deriving DecidableEq, Repr

/-- The Redis server as `redisService.js` sees it: reachable or not, and its keys. -/
structure Redis where
  up : Bool
  entries : List CacheEntry
  deriving DecidableEq, Repr

/-- Source constant of `redisService.js`: the key namespace of chat histories. -/
def CHAT_HISTORY_PREFIX : String := "chatHistory:"

/-- Source constant `CHAT_HISTORY_TTL`: one hour, in seconds. -/
def CHAT_HISTORY_TTL : Nat := 3600

/-- The key both `getChatHistory` and `setChatHistory` build. -/
def chatHistoryKey (userId conversationId : String) : String :=
  CHAT_HISTORY_PREFIX ++ userId ++ ":" ++ conversationId

/-- Source `getChatHistory`: `getValue(key, true)`, which is `null` for a missing key
and also when the client fails. -/
def getChatHistory (redis : Redis) (userId conversationId : String) :
    Option (List Message) :=
  if redis.up then
    (redis.entries.find? (fun e => e.key == chatHistoryKey userId conversationId)).map
      (fun e => e.value)
  else
    none

/-- Source `setChatHistory`: `setValue(key, history, CHAT_HISTORY_TTL)`, which swallows
a client failure. -/
def setChatHistory (redis : Redis) (userId conversationId : String)
    (history : List Message) : Redis :=
  if redis.up then
    { redis with
      entries :=
        { key := chatHistoryKey userId conversationId, value := history,
          ttl := CHAT_HISTORY_TTL }
          :: redis.entries.filter (fun e => e.key != chatHistoryKey userId conversationId) }
  else
    redis

/-- The cache and the durable store together. -/
structure World where
  redis : Redis
  mongoUp : Bool
  conversations : List Conversation
  deriving DecidableEq, Repr

/-- The error of a MongoDB operation when the server cannot be reached. -/
def mongoUnavailable : JsError :=
  { name := "MongoNetworkError", message := "connection failed" }

/-- Mongoose `Model.findById(id)` on a model of the given schema: a `findOne` on
`{ _id: id }`, run through the schema's `findOne` hooks. -/
def Model.findById (schema : Schema) (slot : Slot) (w : World) (id : String) :
    Except JsError (Option Conversation) :=
  if w.mongoUp then
    pure (schema.execFindOne Conversation.field slot w.conversations
      { conditions := [("_id", some id)], update := none, skipTenantFilter := false,
        tenantRequired := none })
  else
    throw mongoUnavailable

/-- Source `Conversation.findById`, on the model compiled from `conversationSchema`. -/
def Conversation.findById (slot : Slot) (w : World) (id : String) :
    Except JsError (Option Conversation) :=
  Model.findById conversationSchema slot w id

/-- Mongoose `conversation.save()`: schema validation (`tenantId` is `required`),
the schema's save hooks, then the insert. -/
def Conversation.save (w : World) (c : Conversation) : Except JsError World :=
  if c.tenantId = none then
    throw { name := "ValidationError", message := "Path tenantId is required." }
  else
    match conversationSchema.preSave.foldl
        (fun r hook => r.bind fun _ => hook { tenantId := c.tenantId, tenantRequired := none })
        (Except.ok ()) with
    | .error e => throw e
    | .ok _ =>
        if w.mongoUp then pure { w with conversations := w.conversations ++ [c] }
        else throw mongoUnavailable

/-- Mongoose `Conversation.findByIdAndUpdate(id, { $push: { messages: message },
$set: { lastActivity: now } })`: the document with that id gets the message appended;
no document with that id is not an error. -/
def Conversation.findByIdAndUpdate (w : World) (id : String) (message : Message)
    (now : Nat) : Except JsError World :=
  if w.mongoUp then
    pure { w with
      conversations := w.conversations.map fun c =>
        if c.id = id then { c with messages := c.messages ++ [message], lastActivity := now }
        else c }
  else
    throw mongoUnavailable

/-- Source `getConversationHistory`; `slot` is the tenant context it runs in. -/
def getConversationHistory (slot : Slot) (w : World) (userId conversationId : String) :
    List Message × World :=
  match getChatHistory w.redis userId conversationId with
  | some cachedHistory => (cachedHistory, w)
  | none =>
    match Conversation.findById slot w conversationId with
    | .error _ => ([], w)
    | .ok none => ([], w)
    | .ok (some conversation) =>
        (conversation.messages,
          { w with redis := setChatHistory w.redis userId conversationId conversation.messages })

/-- Source `addMessageToHistory`; `now` is the clock reading of `new Date()`. The
world is returned also when the call throws. -/
def addMessageToHistory (slot : Slot) (w : World) (now : Nat) (userId : String)
    (tenantId : Option String) (conversationId : String) (message : Message) :
    Except JsError (List Message) × World :=
  (runInTenantContext tenantId (fun slot =>
    let got := getConversationHistory slot w userId conversationId
    let history := got.1 ++ [message]
    let w := { got.2 with redis := setChatHistory got.2.redis userId conversationId history }
    match Conversation.findByIdAndUpdate w conversationId message now with
    | .error e => ((.error e : Except JsError (List Message)), w)
    | .ok w => (.ok history, w)) slot).1

/-- Source `createConversation`; `newId` is the `_id` Mongoose generates for the new
document and `title = none` stands for the omitted argument. -/
def createConversation (slot : Slot) (w : World) (now : Nat) (newId : String)
    (userId : String) (tenantId : Option String) (title : Option String) :
    Except JsError Conversation × World :=
  (runInTenantContext tenantId (fun _slot =>
    let conversation : Conversation :=
      { id := newId, tenantId := tenantId, userId := userId,
        title := title.getD "Nouvelle conversation", messages := [],
        lastActivity := now, isActive := true }
    match Conversation.save w conversation with
    | .error e => ((.error e : Except JsError Conversation), w)
    | .ok w => (.ok conversation, w)) slot).1

/-! ## models: saving a document of a tenant-scoped model -/

/-- A tenant-scoped model as Mongoose compiles it from a file of `models/`: whether its
schema declares the path `tenantId` with `required: true`, the hooks registered on the
schema, and the static `tenantRequired` of the model (`none` when it defines none). -/
structure EntityType where
  tenantIdRequired : Bool
  schema : Schema
  tenantRequired : Option Bool

/-- A document about to be saved: what `this.tenantId` holds, the text of an ObjectId or
nothing (`none`), and the paths other than `tenantId` that Mongoose's validation of the
document refuses (a missing `userId`, a value that cannot be cast, ...). -/
structure Entity where
  tenantId : Option String
  otherInvalidPaths : List String
  deriving DecidableEq, Repr

/-- What the model files of the repository with a `tenantId` path declare
(accountingEntry, conversation, conversationSummary, employee, performance, product,
sale, schedule): `tenantId` is `required: true`, no hook is registered (`tenantPlugin` is
applied nowhere) and no static `tenantRequired` is set. `userModel.js` declares the same
and registers one save hook, which hashes the password and does not read `tenantId`. -/
def tenantScopedModel : EntityType :=
  { tenantIdRequired := true,
    schema := { preSave := [], preFind := [], preFindOne := [], preUpdateOne := [] },
    tenantRequired := none }

/-- Mongoose's `ValidationError` of a document, by the paths it refuses. -/
def validationError (paths : List String) : JsError :=
  { name := "ValidationError", message := "Validation failed: " ++ ", ".intercalate paths }

/-- Mongoose `document.validate()`: the paths the validation refuses. The `required`
validator refuses `tenantId` when the schema requires it and the document holds none. -/
def Entity.invalidPaths (type : EntityType) (doc : Entity) : List String :=
  (if type.tenantIdRequired && doc.tenantId.isNone then ["tenantId"] else [])
    ++ doc.otherInvalidPaths.filter (fun path => path != "tenantId")

/-- The save hooks of a schema, run in registration order on a document; the first error
ends the run. -/
def runSaveHooks (hooks : List (TenantDoc → Except JsError Unit)) (doc : TenantDoc) :
    Except JsError Unit :=
  hooks.foldl (fun r hook => r.bind fun _ => hook doc) (Except.ok ())

/-- Mongoose `document.save()` on a new document: the validation runs first (it is the
built-in first save hook), then the save hooks registered on the schema, then the
insert, which fails when the database cannot be reached (`up = false`). -/
def Entity.save (type : EntityType) (up : Bool) (doc : Entity) : Except JsError Unit :=
  if doc.invalidPaths type ≠ [] then
    throw (validationError (doc.invalidPaths type))
  else
    match runSaveHooks type.schema.preSave
        { tenantId := doc.tenantId, tenantRequired := type.tenantRequired } with
    | .error e => throw e
    | .ok _ => if up then pure () else throw mongoUnavailable

/-! ## services/orchestrator.js: `determineIntention` -/

/-- A value a JavaScript call may hand back where a string is expected; a plain object
is given by its JSON text, what `JSON.stringify` makes of it. -/
inductive JsValue where
  | undefined
  | null
  | str (s : String)
  | num (n : Int)
  | bool (b : Bool)
  | object (json : String)
  deriving DecidableEq, Repr

/-- The built-in string methods the mapping calls, `String.prototype.toLowerCase` and
`String.prototype.trim`, taken as given. -/
structure StringOps where
  toLowerCase : String → String
  trim : String → String

/-- Whether `needle` occurs in `hay` at some position. -/
def includesChars : List Char → List Char → Bool
  | [], needle => needle.isEmpty
  | c :: cs, needle => needle.isPrefixOf (c :: cs) || includesChars cs needle

/-- JavaScript `s.includes(needle)`. -/
def includes (s needle : String) : Bool :=
  includesChars s.toList needle.toList

/-- The prompt built by `determineIntention` around the user's message. -/
def intentionPrompt (message : String) : String :=
  "Détermine à quelle catégorie appartient la question suivante:\n    \nMessage: \""
    ++ message
    ++ "\"\n\nCatégories:\n"
    ++ "- comptable: questions liées à la comptabilité, finances, chiffre d'affaires, dépenses, etc.\n"
    ++ "- business: questions liées aux produits, ventes, clients, stocks, etc.\n"
    ++ "- marketing: questions liées au marketing, publicité, réseaux sociaux, etc.\n"
    ++ "- rh: questions liées aux employés, recrutement, planning, performance, etc.\n"
    ++ "- info: questions générales ou demandes d'information sur l'entreprise\n"
    ++ "- autre: questions qui ne correspondent à aucune catégorie ci-dessus\n\n"
    ++ "Réponds uniquement avec le nom de la catégorie, sans explication."

/-- The label-mapping step of `determineIntention` (source lines 103 to 113), on the
text the completion call returned. -/
def mapIntention (ops : StringOps) (response : String) : String :=
  let intention := ops.trim (ops.toLowerCase response)
  if includes intention "comptable" then "comptable"
  else if includes intention "business" then "business"
  else if includes intention "marketing" then "marketing"
  else if includes intention "rh" then "rh"
  else if includes intention "info" then "info"
  else "fallback"

/-- Source `determineIntention`. `generateChatResponse` is the completion call on the
one-message conversation holding the prompt: it may throw, or resolve to any value.
Calling `toLowerCase` on a value that is not a string throws a `TypeError`; the
`catch` turns every exception into `fallback`. -/
def determineIntention (ops : StringOps)
    (generateChatResponse : List Message → Except JsError JsValue)
    (message : String) (_history : List Message) : Except JsError String :=
  tryCatch
    (do
      let prompt := intentionPrompt message
      let response ← generateChatResponse [{ role := "user", content := prompt }]
      match response with
      | .str text => pure (mapIntention ops text)
      | _ =>
          throw { name := "TypeError", message := "response.toLowerCase is not a function" })
    (fun _error => pure "fallback")

/-- The closed label set of the router. -/
def intentionLabels : List String :=
  ["comptable", "business", "marketing", "rh", "info", "fallback"]

/-- The mapping as the specification words it: the first label, in the order
comptable, business, marketing, rh, info, whose name occurs in the lower-cased and
trimmed output, and `fallback` when none does. -/
def mapIntentionSpec (ops : StringOps) (response : String) : String :=
  ((["comptable", "business", "marketing", "rh", "info"].find?
    (fun label => includes (ops.trim (ops.toLowerCase response)) label)).getD "fallback")

/-- Lower-casing of the ASCII letters of a string, other characters kept. -/
def asciiToLowerCase (s : String) : String :=
  ⟨s.toList.map Char.toLower⟩

/-- Removal of leading and trailing ASCII whitespace. -/
def asciiTrim (s : String) : String :=
  ⟨((s.toList.dropWhile Char.isWhitespace).reverse.dropWhile Char.isWhitespace).reverse⟩

/-- String methods that agree with the JavaScript ones on ASCII text, for evaluating
the mapping on concrete outputs. -/
def asciiOps : StringOps :=
  { toLowerCase := asciiToLowerCase, trim := asciiTrim }

/-- The message list the durable store holds for a conversation id (empty when no
conversation has that id). -/
def storedMessages (w : World) (conversationId : String) : List Message :=
  match w.conversations.find? (fun c => c.id == conversationId) with
  | some c => c.messages
  | none => []

/-- The cache agrees with the durable store on a conversation, as its user reads it:
a cached history, if there is one, is the stored message list. -/
def coherent (w : World) (userId conversationId : String) : Prop :=
  ∀ h, getChatHistory w.redis userId conversationId = some h →
    h = storedMessages w conversationId

/-- Sequential calls of `addMessageToHistory` on one conversation, each awaited before
the next: the result of the last call (`none` when there was no call) and the world
they leave. -/
def addMessagesInOrder (slot : Slot) (now : Nat) (userId : String)
    (tenantId : Option String) (conversationId : String) :
    World → List Message → Option (Except JsError (List Message)) × World
  | w, [] => (none, w)
  | w, [m] =>
      let r := addMessageToHistory slot w now userId tenantId conversationId m
      (some r.1, r.2)
  | w, m :: rest =>
      addMessagesInOrder slot now userId tenantId conversationId
        (addMessageToHistory slot w now userId tenantId conversationId m).2 rest

/-- A conversation of user `alice` of tenant `tenantA`, for concrete runs. -/
def sampleConversation (messages : List Message) : Conversation :=
  { id := "conv1", tenantId := some "tenantA", userId := "alice", title := "Budget",
    messages := messages, lastActivity := 0, isActive := true }

/-- A world with a reachable, empty cache and `sampleConversation` as only document. -/
def sampleWorld (messages : List Message) : World :=
  { redis := { up := true, entries := [] }, mongoUp := true,
    conversations := [sampleConversation messages] }

/-- A world whose cache already holds the (empty) history of `sampleConversation` for
`alice` and whose durable store cannot be reached. -/
def storeDownWorld : World :=
  { redis := { up := true,
               entries := [{ key := "chatHistory:alice:conv1", value := [], ttl := 3600 }] },
    mongoUp := false,
    conversations := [sampleConversation []] }

/-- A world with a reachable cache and a reachable store, both empty. -/
def emptyWorld : World :=
  { redis := { up := true, entries := [] }, mongoUp := true, conversations := [] }

/-! ## services/redisService.js: the response cache -/

/-- One Redis key holding a cached AI response text. -/
structure ResponseEntry where
  key : String
  value : String
  ttl : Nat
  deriving DecidableEq, Repr

/-- The Redis server as the response cache functions see it. -/
structure ResponseCache where
  up : Bool
  entries : List ResponseEntry
  deriving DecidableEq, Repr

/-- Source constant `AI_CACHE_PREFIX`, written before each key. -/
def aiCacheKey (promptKey : String) : String :=
  "aiResponse:" ++ promptKey

/-- Source constant `AI_CACHE_TTL`: ten minutes, in seconds. -/
def AI_CACHE_TTL : Nat := 60 * 10

/-- Source `getCachedAIResponse`: `getValue(key)`, `null` for a missing key and when
the client fails. -/
def getCachedAIResponse (cache : ResponseCache) (promptKey : String) : Option String :=
  if cache.up then
    (cache.entries.find? (fun e => e.key == aiCacheKey promptKey)).map (fun e => e.value)
  else
    none

/-- The text `setValue` stores for a value:
`typeof value === "object" ? JSON.stringify(value) : String(value)`, where `null` counts
as an object. -/
def valueToStore : JsValue → String
  | .undefined => "undefined"
  | .null => "null"
  | .str s => s
  | .num n => toString n
  | .bool b => if b then "true" else "false"
  | .object json => json

/-- Source `cacheAIResponse`: `setValue(key, response, AI_CACHE_TTL)`, which stores the
text of the value and swallows a client failure. -/
def cacheAIResponse (cache : ResponseCache) (promptKey : String) (response : JsValue) :
    ResponseCache :=
  if cache.up then
    { cache with
      entries :=
        { key := aiCacheKey promptKey, value := valueToStore response, ttl := AI_CACHE_TTL }
          :: cache.entries.filter (fun e => e.key != aiCacheKey promptKey) }
  else
    cache

/-! ## services/openaiService.js -/

/-- What `axios.post` resolved to, reduced to `response.data.choices[0].message.content`;
`none` when that chain of properties cannot be followed (a `TypeError`). -/
structure AxiosReply where
  content : Option JsValue
  deriving DecidableEq, Repr

/-- The surroundings of `openaiService.js`: the `NODE_ENV === "test"` flag, the
configured key and base URL, the number of retries, and the HTTP call itself, by request
and attempt number. `postChat` serves `generateChatResponse` and `postPrompt` serves
`generateResponse`. -/
structure OpenAiEnv where
  isTestEnv : Bool
  apiKey : Option String
  apiBase : Option String
  retries : Nat
  postChat : List Message → Nat → Except JsError AxiosReply
  postPrompt : String → Nat → Except JsError AxiosReply

/-- Source `isConfigValid`. -/
def isConfigValid (env : OpenAiEnv) : Bool :=
  if env.isTestEnv then true else truthy env.apiKey && truthy env.apiBase

/-- Source constant `fallbackResponse` of `handleFallback`: the degraded-mode text. -/
def fallbackResponse : String :=
  "Je suis désolé, mais je rencontre actuellement des difficultés à traiter votre demande. Notre service est temporairement en mode limité. Veuillez réessayer dans quelques instants ou contacter le support si le problème persiste."

/-- Source `handleFallback`: logs, and returns the fixed degraded-mode text. -/
def handleFallback (_prompt : String) (_error : JsError) : String :=
  fallbackResponse

/-- The retry loop `while (attempts <= config.retries)` of both generators: `left` is
the number of iterations the loop condition still allows, `attempts` the counter. The
loop ends with the first reply, or rethrows the error of the attempt that exhausts the
retries; `none` is the loop running out with no reply. -/
def postWithRetries {α : Type} (post : Nat → Except JsError α) (retries : Nat) :
    Nat → Nat → Except JsError (Option α)
  | 0, _ => pure none
  | left + 1, attempts =>
      match post (attempts + 1) with
      | .ok response => pure (some response)
      | .error error =>
          if attempts + 1 > retries then throw error
          else postWithRetries post retries left (attempts + 1)

/-- JavaScript `s.substring(0, n)`. -/
def substringTo (s : String) (n : Nat) : String :=
  ⟨s.toList.take n⟩

/-- The content of the last message, or the empty string for no message. -/
def lastMessageContent (messages : List Message) : String :=
  match messages.getLast? with
  | some m => m.content
  | none => ""

/-- Source `generateChatResponse`: every exception inside is turned into the
degraded-mode text. -/
def generateChatResponse (env : OpenAiEnv) (messages : List Message) :
    Except JsError JsValue :=
  tryCatch
    (if !isConfigValid env then
      throw (newError "Configuration OpenAI invalide. Veuillez définir OPENROUTER_KEY et OPENROUTER_API_BASE.")
    else if env.isTestEnv then
      pure (.str ("Mock chat response for: "
        ++ substringTo (lastMessageContent messages) 50 ++ "..."))
    else do
      let response ← postWithRetries (env.postChat messages) env.retries (env.retries + 1) 0
      match response with
      | some reply =>
          match reply.content with
          | some content => pure content
          | none =>
              throw { name := "TypeError", message := "Cannot read properties of undefined" }
      | none =>
          throw { name := "TypeError", message := "Cannot read properties of undefined" })
    (fun error => pure (.str (handleFallback (lastMessageContent messages) error)))

/-! ## Async functions over mutable services -/

/-- A JavaScript async function that works on a mutable service of state `σ`: it ends
with a value or with an exception, and what it did to the service stays done in both
cases. -/
def Step (σ α : Type) : Type := σ → Except JsError α × σ

/-- Returning a value. -/
def Step.pure {σ α : Type} (a : α) : Step σ α := fun s => (.ok a, s)

/-- Sequencing: an exception of the first part skips the rest. -/
def Step.bind {σ α β : Type} (x : Step σ α) (f : α → Step σ β) : Step σ β := fun s =>
  match x s with
  | (.ok a, s1) => f a s1
  | (.error e, s1) => (.error e, s1)

instance {σ : Type} : Monad (Step σ) where
  pure := Step.pure
  bind := Step.bind

/-- JavaScript `throw`. -/
def Step.throw {σ α : Type} (e : JsError) : Step σ α := fun s => (.error e, s)

/-- JavaScript `try { body } catch (error) { handler }`. -/
def Step.attempt {σ α : Type} (body : Step σ α) (handler : JsError → Step σ α) : Step σ α :=
  fun s =>
    match body s with
    | (.ok a, s1) => (.ok a, s1)
    | (.error e, s1) => handler e s1

/-- A call that reads the service. -/
def Step.read {σ α : Type} (f : σ → α) : Step σ α := fun s => (.ok (f s), s)

/-- A call that changes the service and returns nothing of interest. -/
def Step.modify {σ : Type} (f : σ → σ) : Step σ Unit := fun s => (.ok (), f s)

/-- A call that does not touch the service. -/
def Step.ofExcept {σ α : Type} (x : Except JsError α) : Step σ α := fun s => (x, s)

/-- Source `generateResponse`: the response cache is asked first and is given every
fresh completion; the content of the reply is returned as it is, whatever its type;
every exception inside is turned into the degraded-mode text. -/
def generateResponse (env : OpenAiEnv) (prompt : String) : Step ResponseCache JsValue :=
  Step.attempt
    (do
      let cachedResponse ← Step.read fun cache => getCachedAIResponse cache prompt
      if truthy cachedResponse then
        pure (.str (cachedResponse.getD ""))
      else if !isConfigValid env then
        Step.throw (newError "Configuration OpenAI invalide. Veuillez définir OPENROUTER_KEY et OPENROUTER_API_BASE.")
      else if env.isTestEnv then do
        let mockResult := "Mock response for prompt: " ++ substringTo prompt 50 ++ "..."
        Step.modify fun cache => cacheAIResponse cache prompt (.str mockResult)
        pure (.str mockResult)
      else do
        let response ← Step.ofExcept
          (postWithRetries (env.postPrompt prompt) env.retries (env.retries + 1) 0)
        match response with
        | some reply =>
            match reply.content with
            | some result => do
                Step.modify fun cache => cacheAIResponse cache prompt result
                pure result
            | none =>
                Step.throw
                  { name := "TypeError", message := "Cannot read properties of undefined" }
        | none =>
            Step.throw { name := "TypeError", message := "Cannot read properties of undefined" })
    (fun error => pure (.str (handleFallback prompt error)))

/-! ## agents -/

/-- The `profile` of `userData` and the profiles of a user document, by the fields
`infoBot` reads. -/
structure Profile where
  nom : Option String
  secteur : Option String
  nombreEmployes : Option String
  objectifs : Option String
  nomFoyer : Option String
  membres : Option (List String)
  deriving DecidableEq, Repr

/-- The `userData` argument, by the fields the orchestrator and the bots read. -/
structure UserData where
  tenantId : Option String
  conversationId : Option String
  profile : Option Profile
  deriving DecidableEq, Repr

/-- The argument bundle of a bot: `{ userId, message, history, userData }`; `none` is
`null` or `undefined`. -/
structure Bundle where
  userId : String
  message : String
  history : Option (List Message)
  userData : Option UserData
  deriving DecidableEq, Repr

/-- Reading a property of `userData`: a `TypeError` when it is `null`. -/
def derefUserData (userData : Option UserData) : Except JsError UserData :=
  match userData with
  | some u => pure u
  | none => throw { name := "TypeError", message := "Cannot read properties of null" }

/-- A revenue lookup as `getRevenueInfo` prints it: the total through `toFixed(2)` and
the number of sales. -/
structure RevenueFigures where
  total : String
  count : Nat

/-- One line of the expense breakdown: category, amount through `toFixed(2)`, share
through `toFixed(1)`. -/
structure ExpenseLine where
  category : String
  amount : String
  share : String

/-- An expense lookup as `getExpensesInfo` prints it. -/
structure ExpenseFigures where
  total : String
  byCategory : List ExpenseLine

/-- A profit computation as `getProfitInfo` prints it. -/
structure ProfitFigures where
  profit : String
  margin : String
  revenue : String
  expenses : String

/-- A product as the product lists print it; `price` through `toFixed(2)`. -/
structure ProductLine where
  name : String
  price : String
  stock : String
  category : Option String

/-- One of the best-selling products as `getSalesInfo` prints it. -/
structure TopLine where
  name : String
  quantity : String
  revenue : String

/-- The sales of a period as `getSalesInfo` uses them: their number, total and average
through `toFixed(2)`, and the best-selling products computed from their items (which
fails when an item is malformed). -/
structure SalesReport where
  count : Nat
  total : String
  average : String
  top : Except JsError (List TopLine)

/-- An employee as `rhBot` prints it. -/
structure EmployeeCard where
  firstName : String
  lastName : String
  position : Option String
  email : Option String
  phone : Option String
  isActive : Bool

/-- The two profiles `infoBot` selects from a user document. -/
structure UserProfiles where
  businessProfile : Option Profile
  familyProfile : Option Profile

/-- What the bots take from their surroundings. The database lookups may fail; sums,
dates and number formatting are done by the lookup, which hands back the texts the
bot interpolates. The two `...Of` functions are the capture groups of the regular
expressions `catégorie\s+(\w+)` and `informations sur ([\w\s]+)` (the latter trimmed). -/
structure BotEnv where
  ops : StringOps
  openai : OpenAiEnv
  revenue : Option String → String → Except JsError RevenueFigures
  expenses : Option String → String → Except JsError ExpenseFigures
  profit : Option String → String → Except JsError ProfitFigures
  outOfStock : Option String → Except JsError (List ProductLine)
  categoryOf : String → Option String
  products : Option String → Option String → Except JsError (List ProductLine)
  sales : Option String → String → Except JsError SalesReport
  employees : Option String → Bool → Except JsError (List EmployeeCard)
  employeeNameOf : String → Option String
  employee : Option String → String → Except JsError (Option EmployeeCard)
  user : String → Option String → Except JsError (Option UserProfiles)

/-- The period wording the accounting and sales answers print, chosen as the source
chooses it from the message. -/
def periodLabel (message : String) : String :=
  if includes message "aujourd'hui" then "aujourd'hui"
  else if includes message "cette semaine" then "cette semaine"
  else if includes message "ce mois" then "ce mois-ci"
  else "ce mois-ci"

/-- Source `getRevenueInfo` of `comptableBot.js`. -/
def comptableBot.getRevenueInfo (env : BotEnv) (_userId : String) (tenantId : Option String)
    (message : String) : Except JsError String := do
  let sales ← env.revenue tenantId (periodLabel message)
  pure ("Votre chiffre d'affaires " ++ periodLabel message ++ " est de " ++ sales.total
    ++ " €. Cela représente un total de " ++ toString sales.count ++ " ventes.")

/-- Source `getExpensesInfo` of `comptableBot.js`. -/
def comptableBot.getExpensesInfo (env : BotEnv) (_userId : String)
    (tenantId : Option String) (message : String) : Except JsError String := do
  let expenses ← env.expenses tenantId (periodLabel message)
  let response := "Vos dépenses totales " ++ periodLabel message ++ " s'élèvent à "
    ++ expenses.total ++ " €.\n\n"
  if expenses.byCategory.length > 0 then
    pure (response ++ "Répartition par catégorie :\n"
      ++ String.join (expenses.byCategory.map fun line =>
          "- " ++ line.category ++ ": " ++ line.amount ++ " € (" ++ line.share ++ "%)\n"))
  else
    pure response

/-- Source `getProfitInfo` of `comptableBot.js`. -/
def comptableBot.getProfitInfo (env : BotEnv) (_userId : String) (tenantId : Option String)
    (message : String) : Except JsError String := do
  let figures ← env.profit tenantId (periodLabel message)
  pure ("Votre bénéfice " ++ periodLabel message ++ " est de " ++ figures.profit
    ++ " €, soit une marge de " ++ figures.margin
    ++ "%.\n\nCe résultat est basé sur un chiffre d'affaires de " ++ figures.revenue
    ++ " € et des dépenses de " ++ figures.expenses ++ " €.")

/-- Source `handle` of `comptableBot.js`. -/
def comptableBot.handle (env : BotEnv) (b : Bundle) : Except JsError String :=
  tryCatch
    (let lowerMessage := env.ops.toLowerCase b.message
    if includes lowerMessage "chiffre d'affaires" || includes lowerMessage "ca"
        || includes lowerMessage "revenus" then do
      let userData ← derefUserData b.userData
      comptableBot.getRevenueInfo env b.userId userData.tenantId lowerMessage
    else if includes lowerMessage "dépense" || includes lowerMessage "coût"
        || includes lowerMessage "frais" then do
      let userData ← derefUserData b.userData
      comptableBot.getExpensesInfo env b.userId userData.tenantId lowerMessage
    else if includes lowerMessage "bénéfice" || includes lowerMessage "profit"
        || includes lowerMessage "marge" then do
      let userData ← derefUserData b.userData
      comptableBot.getProfitInfo env b.userId userData.tenantId lowerMessage
    else
      pure "Je peux vous aider avec votre comptabilité. Vous pouvez me demander des informations sur votre chiffre d'affaires, vos dépenses, vos bénéfices, etc.")
    (fun _error =>
      pure "Je suis désolé, mais je rencontre des difficultés à accéder aux informations comptables. Veuillez réessayer ultérieurement.")

/-- Source `getProductInfo` of `businessDataBot.js`. -/
def businessDataBot.getProductInfo (env : BotEnv) (_userId : String)
    (tenantId : Option String) (message : String) : Except JsError String :=
  if includes message "rupture" || includes message "épuisé" then do
    let outOfStockProducts ← env.outOfStock tenantId
    if outOfStockProducts.length = 0 then
      pure "Bonne nouvelle ! Aucun produit n'est actuellement en rupture de stock."
    else
      pure ("Vous avez " ++ toString outOfStockProducts.length
        ++ " produit(s) en rupture de stock :\n\n"
        ++ String.join (outOfStockProducts.map fun product =>
            "- " ++ product.name ++ " (" ++ product.category.getD "Sans catégorie" ++ ")\n"))
  else do
    let categoryFilter := env.categoryOf message
    let products ← env.products tenantId categoryFilter
    if products.length = 0 then
      match categoryFilter with
      | some category => pure ("Aucun produit trouvé dans la catégorie \"" ++ category ++ "\".")
      | none => pure "Aucun produit n'est actuellement enregistré dans votre inventaire."
    else
      let header :=
        match categoryFilter with
        | some category => "Voici les produits de la catégorie \"" ++ category ++ "\" :\n\n"
        | none => "Voici la liste de vos produits :\n\n"
      pure (header ++ String.join (products.map fun product =>
        "- " ++ product.name ++ " : " ++ product.price ++ " € | Stock: " ++ product.stock
          ++ " unité(s)"
          ++ (match product.category with
              | some category => " | Catégorie: " ++ category
              | none => "")
          ++ "\n"))

/-- The numbered lines of the best-selling products. -/
def topLines : Nat → List TopLine → String
  | _, [] => ""
  | index, product :: rest =>
      toString (index + 1) ++ ". " ++ product.name ++ " : " ++ product.quantity
        ++ " unité(s) vendues pour " ++ product.revenue ++ " €\n" ++ topLines (index + 1) rest

/-- Source `getSalesInfo` of `businessDataBot.js`. -/
def businessDataBot.getSalesInfo (env : BotEnv) (_userId : String)
    (tenantId : Option String) (message : String) : Except JsError String := do
  let sales ← env.sales tenantId (periodLabel message)
  if includes message "meilleure" || includes message "top"
      || includes message "plus vendu" then do
    let topProducts ← sales.top
    if topProducts.length = 0 then
      pure "Aucune vente n'a été enregistrée pour cette période."
    else
      pure ("Voici vos produits les plus vendus " ++ periodLabel message ++ " :\n\n"
        ++ topLines 0 topProducts)
  else if sales.count = 0 then
    pure "Aucune vente n'a été enregistrée pour cette période."
  else
    pure ("Vous avez réalisé " ++ toString sales.count ++ " vente(s) " ++ periodLabel message
      ++ " pour un total de " ++ sales.total ++ " €. Le panier moyen est de "
      ++ sales.average ++ " €.")

/-- Source `handle` of `businessDataBot.js`. -/
def businessDataBot.handle (env : BotEnv) (b : Bundle) : Except JsError String :=
  tryCatch
    (let lowerMessage := env.ops.toLowerCase b.message
    if includes lowerMessage "produit" || includes lowerMessage "stock" then do
      let userData ← derefUserData b.userData
      businessDataBot.getProductInfo env b.userId userData.tenantId lowerMessage
    else if includes lowerMessage "vente" || includes lowerMessage "client"
        || includes lowerMessage "commande" then do
      let userData ← derefUserData b.userData
      businessDataBot.getSalesInfo env b.userId userData.tenantId lowerMessage
    else
      pure "Je peux vous aider avec vos données commerciales. Vous pouvez me demander des informations sur vos produits, vos ventes, vos clients, etc.")
    (fun _error =>
      pure "Je suis désolé, mais je rencontre des difficultés à accéder aux données commerciales. Veuillez réessayer ultérieurement.")

/-- JavaScript `value || fallback` on a `string | undefined` value. -/
def orDefault (value : Option String) (fallback : String) : String :=
  if truthy value then value.getD "" else fallback

/-- Source `handle` of `rhBot.js`. -/
def rhBot.handle (env : BotEnv) (b : Bundle) : Except JsError String :=
  tryCatch
    (do
      let lowerMessage := env.ops.toLowerCase b.message
      let userData ← derefUserData b.userData
      let tenantId := userData.tenantId
      if includes lowerMessage "liste des employés" || includes lowerMessage "combien d'employés"
          || includes lowerMessage "qui sont mes employés" then do
        let activeOnly := !includes lowerMessage "tous"
        let employees ← env.employees tenantId activeOnly
        if employees.length = 0 then
          pure (if activeOnly then "Vous n'avez aucun employé actif actuellement."
            else "Aucun employé enregistré.")
        else
          pure ("Vous avez " ++ toString employees.length ++ " employé(s)"
            ++ (if activeOnly then " actif(s)" else "") ++ " :\n\n"
            ++ String.join (employees.map fun e =>
                "- " ++ e.firstName ++ " " ++ e.lastName ++ " ("
                  ++ orDefault e.position "poste non défini" ++ ")"
                  ++ (if e.isActive then "" else " (Inactif)") ++ "\n"))
      else
        match env.employeeNameOf lowerMessage with
        | some employeeName => do
            let employee ← env.employee tenantId employeeName
            match employee with
            | none => pure ("Je n'ai pas trouvé d'employé nommé " ++ employeeName ++ ".")
            | some e =>
                pure ("Voici les informations pour " ++ e.firstName ++ " " ++ e.lastName
                  ++ ":\n- Poste: " ++ orDefault e.position "Non défini"
                  ++ "\n- Email: " ++ orDefault e.email "Non fourni"
                  ++ "\n- Téléphone: " ++ orDefault e.phone "Non fourni"
                  ++ "\n- Statut: " ++ (if e.isActive then "Actif" else "Inactif"))
        | none =>
            if includes lowerMessage "planning" || includes lowerMessage "horaire" then
              pure "La fonctionnalité de consultation des plannings n'est pas encore entièrement disponible via le chat."
            else if includes lowerMessage "performance" || includes lowerMessage "évaluation" then
              pure "La fonctionnalité de consultation des performances n'est pas encore entièrement disponible via le chat."
            else
              pure "Je peux vous aider avec les ressources humaines. Vous pouvez me demander la liste de vos employés, des informations sur un employé spécifique, etc.")
    (fun _error =>
      pure "Je suis désolé, mais je rencontre des difficultés à accéder aux informations RH. Veuillez réessayer ultérieurement.")

/-- The answer `infoBot` builds from a profile it has found. -/
def infoBot.describe (userProfile : Profile) : String :=
  if truthy userProfile.nom then
    "Voici les informations de base sur votre entreprise:\n"
      ++ "- Nom: " ++ orDefault userProfile.nom "Non défini" ++ "\n"
      ++ "- Secteur: " ++ orDefault userProfile.secteur "Non défini" ++ "\n"
      ++ "- Nombre d'employés: " ++ userProfile.nombreEmployes.getD "Non défini" ++ "\n"
      ++ "- Objectifs: " ++ orDefault userProfile.objectifs "Non définis" ++ "\n"
  else if truthy userProfile.nomFoyer then
    "Voici les informations de base sur votre foyer:\n"
      ++ "- Nom du foyer: " ++ orDefault userProfile.nomFoyer "Non défini" ++ "\n"
      ++ (match userProfile.membres with
          | some membres =>
              if membres.length > 0 then "- Membres: " ++ ", ".intercalate membres ++ "\n"
              else ""
          | none => "")
  else
    "Je n'ai pas trouvé d'informations spécifiques à afficher."

/-- Source `handle` of `infoBot.js`. -/
def infoBot.handle (env : BotEnv) (b : Bundle) : Except JsError String :=
  tryCatch
    (do
      let userData ← derefUserData b.userData
      let tenantId := userData.tenantId
      match userData.profile with
      | some userProfile => pure (infoBot.describe userProfile)
      | none => do
          let user ← env.user b.userId tenantId
          match user with
          | none => pure "Je n'ai pas pu trouver vos informations de profil."
          | some user =>
              match user.businessProfile.orElse fun _ => user.familyProfile with
              | none => pure "Aucune information de profil n'a été trouvée."
              | some userProfile => pure (infoBot.describe userProfile))
    (fun _error =>
      pure "Je suis désolé, mais je rencontre des difficultés à accéder aux informations générales. Veuillez réessayer ultérieurement.")

/-- Source `getSocialMediaAdvice` of `marketingBot.js`. -/
def marketingBot.getSocialMediaAdvice (env : OpenAiEnv) (message : String) :
    Step ResponseCache JsValue :=
  Step.attempt
    (generateResponse env
      ("En tant qu'expert en marketing digital, donne des conseils pratiques et concrets sur les réseaux sociaux en réponse à cette question: \""
        ++ message
        ++ "\". \n  Limite ta réponse à 3-4 paragraphes maximum avec des conseils actionnables. Sois spécifique et évite les généralités."))
    (fun _error =>
      pure (.str "Pour améliorer votre présence sur les réseaux sociaux, je vous recommande de publier régulièrement du contenu de qualité qui intéresse votre audience, d'interagir avec vos abonnés, et d'analyser les performances de vos publications pour optimiser votre stratégie."))

/-- Source `getAdvertisingAdvice` of `marketingBot.js`. -/
def marketingBot.getAdvertisingAdvice (env : OpenAiEnv) (message : String) :
    Step ResponseCache JsValue :=
  Step.attempt
    (generateResponse env
      ("En tant qu'expert en publicité, donne des conseils pratiques et concrets sur les campagnes publicitaires en réponse à cette question: \""
        ++ message
        ++ "\". \n  Limite ta réponse à 3-4 paragraphes maximum avec des conseils actionnables. Sois spécifique et évite les généralités."))
    (fun _error =>
      pure (.str "Pour optimiser vos campagnes publicitaires, je vous recommande de définir clairement votre audience cible, de créer des messages publicitaires percutants, de tester différentes versions de vos annonces, et de suivre régulièrement vos indicateurs de performance pour ajuster votre stratégie."))

/-- Source `getMarketingStrategyAdvice` of `marketingBot.js`. -/
def marketingBot.getMarketingStrategyAdvice (env : OpenAiEnv) (message : String) :
    Step ResponseCache JsValue :=
  Step.attempt
    (generateResponse env
      ("En tant que consultant en stratégie marketing, donne des conseils pratiques et concrets sur la stratégie marketing en réponse à cette question: \""
        ++ message
        ++ "\". \n  Limite ta réponse à 3-4 paragraphes maximum avec des conseils actionnables. Sois spécifique et évite les généralités."))
    (fun _error =>
      pure (.str "Pour développer une stratégie marketing efficace, je vous recommande d'analyser votre marché et votre concurrence, de définir clairement votre proposition de valeur, de segmenter votre audience, et de mettre en place un mix marketing cohérent (produit, prix, distribution, communication)."))

/-- Source `handle` of `marketingBot.js`. -/
def marketingBot.handle (env : BotEnv) (b : Bundle) : Step ResponseCache JsValue :=
  Step.attempt
    (let lowerMessage := env.ops.toLowerCase b.message
    if includes lowerMessage "réseau social" || includes lowerMessage "facebook"
        || includes lowerMessage "instagram" || includes lowerMessage "twitter"
        || includes lowerMessage "linkedin" || includes lowerMessage "tiktok" then
      marketingBot.getSocialMediaAdvice env.openai b.message
    else if includes lowerMessage "publicité" || includes lowerMessage "pub"
        || includes lowerMessage "annonce" || includes lowerMessage "campagne" then
      marketingBot.getAdvertisingAdvice env.openai b.message
    else if includes lowerMessage "stratégie" || includes lowerMessage "plan marketing"
        || includes lowerMessage "promotion" || includes lowerMessage "marketing" then
      marketingBot.getMarketingStrategyAdvice env.openai b.message
    else
      pure (.str "Je peux vous aider avec vos questions marketing. N'hésitez pas à me demander des conseils sur les réseaux sociaux, la publicité, ou votre stratégie marketing globale."))
    (fun _error =>
      pure (.str "Je suis désolé, mais je rencontre des difficultés à traiter votre demande marketing. Veuillez réessayer ultérieurement."))

/-- Source `handle` of `fallbackBot.js`: a fixed answer. -/
def fallbackBot.handle (_env : BotEnv) (_b : Bundle) : Except JsError String :=
  tryCatch
    (pure "Désolé, je n\"ai pas bien compris votre demande. Pourriez-vous reformuler ? Je peux vous aider avec des questions sur vos produits, ventes, employés, comptabilité ou marketing.")
    (fun _error =>
      pure "Je suis désolé, une erreur s\"est produite. Pourriez-vous reformuler votre demande ?")

/-! ## services/orchestrator.js: `runBot` -/

/-- The six imported bot modules, each by its `handle`; what a handler resolves to is
whatever value it returns. -/
structure Bots where
  comptableBot : Bundle → Step ResponseCache JsValue
  businessDataBot : Bundle → Step ResponseCache JsValue
  marketingBot : Bundle → Step ResponseCache JsValue
  rhBot : Bundle → Step ResponseCache JsValue
  infoBot : Bundle → Step ResponseCache JsValue
  fallbackBot : Bundle → Step ResponseCache JsValue

/-- The `switch (botType)` of `runBot`. -/
def Bots.dispatch (bots : Bots) (botType : String) : Bundle → Step ResponseCache JsValue :=
  if botType = "comptable" then bots.comptableBot
  else if botType = "business" then bots.businessDataBot
  else if botType = "marketing" then bots.marketingBot
  else if botType = "rh" then bots.rhBot
  else if botType = "info" then bots.infoBot
  else bots.fallbackBot

/-- A handler that builds a text and does not touch the response cache. -/
def textHandler (handle : Bundle → Except JsError String) : Bundle → Step ResponseCache JsValue :=
  fun b => Step.ofExcept ((handle b).map JsValue.str)

/-- The bot modules of the repository. -/
def agents (env : BotEnv) : Bots :=
  { comptableBot := textHandler (comptableBot.handle env),
    businessDataBot := textHandler (businessDataBot.handle env),
    marketingBot := marketingBot.handle env,
    rhBot := textHandler (rhBot.handle env),
    infoBot := textHandler (infoBot.handle env),
    fallbackBot := textHandler (fallbackBot.handle env) }

/-- A message of the payload of a summary job: the content is whatever value was put
there. -/
structure JobMessage where
  role : String
  content : JsValue
  deriving DecidableEq, Repr

/-- A message of the history, as it goes into the payload of a summary job. -/
def Message.toJob (m : Message) : JobMessage :=
  { role := m.role, content := .str m.content }

/-- The payload of a summary job as `runBot` builds it. -/
structure SummaryJob where
  userId : String
  tenantId : Option String
  conversationId : Option String
  messages : List JobMessage
  deriving DecidableEq, Repr

/-- The `summary_generate` queue: reachable or not, and the jobs it holds. -/
structure JobQueue where
  up : Bool
  jobs : List SummaryJob
  deriving DecidableEq, Repr

/-- Source `addSummaryJob` (`addJob` on the summary queue): the job is added, or the
failure of the queue is rethrown. -/
def addSummaryJob (queue : JobQueue) (data : SummaryJob) : Except JsError JobQueue :=
  if queue.up then pure { queue with jobs := queue.jobs ++ [data] }
  else throw (newError "Redis client non disponible pour BullMQ")

/-- What a run of `runBot` did besides answering, in order. -/
inductive BotEvent where
  | classifierCalled
  | botCalled (botType : String)
  | enqueueCalled
  deriving DecidableEq, Repr

/-- The services `runBot` works on, and the record of its calls. -/
structure BotWorld where
  responses : ResponseCache
  queue : JobQueue
  events : List BotEvent
  deriving DecidableEq, Repr

/-- A call on the response cache, made from `runBot`. -/
def onResponses {α : Type} (x : Step ResponseCache α) : Step BotWorld α := fun w =>
  ((x w.responses).1, { w with responses := (x w.responses).2 })

/-- The recording of one call. -/
def record (event : BotEvent) : Step BotWorld Unit :=
  Step.modify fun w => { w with events := w.events ++ [event] }

/-- Reading `history.length`: a `TypeError` when `history` is `null`. -/
def derefHistory (history : Option (List Message)) : Except JsError (List Message) :=
  match history with
  | some h => pure h
  | none => throw { name := "TypeError", message := "Cannot read properties of null" }

/-- The fixed apology of the `catch` of `runBot`. -/
def runBotApology : String :=
  "Je suis désolé, mais je rencontre actuellement des difficultés à traiter votre demande. Veuillez réessayer dans quelques instants."

/-- The `try` block of `runBot`, over any six bot modules. `llm` is the completion call
of the classifier. -/
def runBotSteps (bots : Bots) (ops : StringOps)
    (llm : List Message → Except JsError JsValue) (userId message : String)
    (history : Option (List Message)) (userData : Option UserData) : Step BotWorld JsValue := do
  let cacheKey := userId ++ ":" ++ message
  let cachedResponse ← Step.read fun w => getCachedAIResponse w.responses cacheKey
  if truthy cachedResponse then
    pure (.str (cachedResponse.getD ""))
  else do
    record .classifierCalled
    let botType ← Step.ofExcept (determineIntention ops llm message (history.getD []))
    record (.botCalled botType)
    let response ← onResponses (bots.dispatch botType
      { userId := userId, message := message, history := history, userData := userData })
    Step.modify fun w =>
      { w with responses := cacheAIResponse w.responses cacheKey response }
    let history ← Step.ofExcept (derefHistory history)
    if history.length > 5 then do
      let userData ← Step.ofExcept (derefUserData userData)
      record .enqueueCalled
      let queue ← Step.read fun w => w.queue
      let queue ← Step.ofExcept (addSummaryJob queue
        { userId := userId, tenantId := userData.tenantId,
          conversationId := userData.conversationId,
          messages := history.map Message.toJob ++ [{ role := "user", content := .str message },
            { role := "assistant", content := response }] })
      Step.modify fun w => { w with queue := queue }
      pure response
    else
      pure response

/-- Source `runBot`, over any six bot modules: the `try` block, and the `catch` that
answers with the fixed apology. -/
def runBotWith (bots : Bots) (ops : StringOps)
    (llm : List Message → Except JsError JsValue) (userId message : String)
    (history : Option (List Message)) (userData : Option UserData) : Step BotWorld JsValue :=
  Step.attempt (runBotSteps bots ops llm userId message history userData)
    (fun _error => pure (.str runBotApology))

/-- Source `runBot`: the orchestrator with the bot modules of the repository. -/
def runBot (env : BotEnv) (llm : List Message → Except JsError JsValue)
    (userId message : String) (history : Option (List Message))
    (userData : Option UserData) : Step BotWorld JsValue :=
  runBotWith (agents env) env.ops llm userId message history userData

/-- The number of turns in a history, a turn being, in the words of the specification's
glossary, one user message plus the resulting assistant reply: the user messages are
counted. -/
def turnCount (history : List Message) : Nat :=
  history.countP fun m => m.role == "user"

/-- Surroundings for concrete runs: no database lookup succeeds, the content of every
completion for a prompt is `content`, and the completion call of the classifier times
out. -/
def sampleBotEnvWith (content : JsValue) : BotEnv :=
  { ops := asciiOps,
    openai :=
      { isTestEnv := false, apiKey := some "key", apiBase := some "https://openrouter.ai/api/v1",
        retries := 2,
        postChat := fun _ _ => .error { name := "AxiosError", message := "timeout" },
        postPrompt := fun _ _ => .ok { content := some content } },
    revenue := fun _ _ => .error mongoUnavailable,
    expenses := fun _ _ => .error mongoUnavailable,
    profit := fun _ _ => .error mongoUnavailable,
    outOfStock := fun _ => .error mongoUnavailable,
    categoryOf := fun _ => none,
    products := fun _ _ => .error mongoUnavailable,
    sales := fun _ _ => .error mongoUnavailable,
    employees := fun _ _ => .error mongoUnavailable,
    employeeNameOf := fun _ => none,
    employee := fun _ _ => .error mongoUnavailable,
    user := fun _ _ => .error mongoUnavailable }

/-- Surroundings for concrete runs in which every completion for a prompt is the text
`completion`. -/
def sampleBotEnv (completion : String) : BotEnv :=
  sampleBotEnvWith (.str completion)

/-- A bundle of user `alice` of tenant `tenantA` with an empty history. -/
def sampleBundle (message : String) : Bundle :=
  { userId := "alice", message := message, history := some [],
    userData := some { tenantId := some "tenantA", conversationId := some "conv1",
                       profile := none } }

/-- Reachable, empty response cache. -/
def emptyResponses : ResponseCache :=
  { up := true, entries := [] }

/-- Three turns: six messages, user and assistant in alternation. -/
def threeTurns : List Message :=
  [{ role := "user", content := "q1" }, { role := "assistant", content := "a1" },
   { role := "user", content := "q2" }, { role := "assistant", content := "a2" },
   { role := "user", content := "q3" }, { role := "assistant", content := "a3" }]

/-- The `userData` of `sampleBundle`. -/
def sampleUserData : UserData :=
  { tenantId := some "tenantA", conversationId := some "conv1", profile := none }

/-- A world with an empty, reachable response cache, no job and no recorded call. -/
def sampleBotWorld (queueUp : Bool) : BotWorld :=
  { responses := emptyResponses, queue := { up := queueUp, jobs := [] }, events := [] }

/-- A classifier completion that always names the label `marketing`. -/
def marketingCompletion : List Message → Except JsError JsValue :=
  fun _ => .ok (.str "marketing")

/-- A classifier completion that always times out. -/
def failingCompletion : List Message → Except JsError JsValue :=
  fun _ => .error { name := "AxiosError", message := "timeout" }

/-! ## services/summaryManager.js: `generateSummary` -/

/-- A JSON value as `JSON.parse` builds it: a number by a decimal mantissa and exponent,
an object by its properties, each key once. -/
inductive Json where
  | null
  | bool (b : Bool)
  | num (mantissa exponent : Int)
  | str (s : String)
  | arr (items : List Json)
  | obj (fields : List (String × Json))

/-- JavaScript truthiness of a JSON value. -/
def Json.truthy : Json → Bool
  | .null => false
  | .bool b => b
  | .num mantissa _ => mantissa != 0
  | .str s => s != ""
  | .arr _ => true
  | .obj _ => true

/-- JavaScript truthiness of what a property read gave, `none` being `undefined`. -/
def truthyValue : Option Json → Bool
  | some value => value.truthy
  | none => false

/-- JavaScript `value.key`, for a key that no prototype defines (`summary`, `keyPoints`,
`entities`, `type`, `value`): a `TypeError` on `null`, the property of an object that has
it, and `undefined` (`none`) for everything else. -/
def Json.get (value : Json) (key : String) : Except JsError (Option Json) :=
  match value with
  | .null => throw { name := "TypeError", message := "Cannot read properties of null" }
  | .obj fields => pure (fields.lookup key)
  | _ => pure none

/-- The built-ins `generateSummary` calls on the text of the model, taken as given:
`JSON.parse` (`none` for a `SyntaxError`), and the first capture group of each of its
three regular expressions (`none` for no match). -/
structure SummaryEnv where
  parse : String → Option Json
  summaryMatch : String → Option String
  keyPointsMatch : String → Option String
  entitiesMatch : String → Option String

/-- JavaScript `JSON.parse(text)`. -/
def jsonParse (env : SummaryEnv) (text : String) : Except JsError Json :=
  match env.parse text with
  | some value => pure value
  | none => throw { name := "SyntaxError", message := "Unexpected token in JSON" }

/-- JavaScript `String(value)`, the conversion `JSON.parse` applies to its argument. -/
def jsString : JsValue → String
  | .undefined => "undefined"
  | .null => "null"
  | .str s => s
  | .num n => toString n
  | .bool b => if b then "true" else "false"
  | .object _ => "[object Object]"

/-- What `generateSummary` returns. `summary` is whatever truthy value the model put
there, a string by the JSDoc. -/
structure SummaryResult where
  summary : Json
  keyPoints : List Json
  entities : List Json

/-- The result of the outer `catch` of `generateSummary`. -/
def degradedSummary : SummaryResult :=
  { summary := .str "Erreur lors de la génération du résumé.", keyPoints := [], entities := [] }

/-- The transcript `generateSummary` puts in its prompt. -/
def conversationText (messages : List Message) : String :=
  "\n".intercalate (messages.map fun msg => msg.role ++ ": " ++ msg.content)

/-- The prompt of `generateSummary`. -/
def summaryPrompt (conversationText : String) : String :=
  "Analyse la conversation suivante et fournis un résumé concis, les points clés, et les entités importantes.\n\nConversation:\n"
    ++ conversationText
    ++ "\n\nRéponds **uniquement** au format JSON suivant, sans texte avant ou après:\n\x7b\n"
    ++ "  \"summary\": \"[Ton résumé concis ici]\",\n"
    ++ "  \"keyPoints\": [\"Point clé 1\", \"Point clé 2\", ...],\n"
    ++ "  \"entities\": [\n"
    ++ "    \x7b\"type\": \"TypeEntité1\", \"value\": \"ValeurEntité1\"\x7d,\n"
    ++ "    \x7b\"type\": \"TypeEntité2\", \"value\": \"ValeurEntité2\"\x7d,\n"
    ++ "    ...\n  ]\n\x7d"

/-- Reading `messages.map`: a `TypeError` when `messages` is `null` or `undefined`. -/
def derefMessages (messages : Option (List Message)) : Except JsError (List Message) :=
  match messages with
  | some ms => pure ms
  | none => throw { name := "TypeError", message := "Cannot read properties of undefined" }

/-- JavaScript `match ? JSON.parse(match[1]) : []`, on the capture of a match. -/
def parseCapture (env : SummaryEnv) (capture : Option String) : Except JsError Json :=
  match capture with
  | some text => jsonParse env text
  | none => pure (.arr [])

/-- The inner `catch` of `generateSummary`: the object scraped from a text that did not
parse. A captured array text goes through `JSON.parse`, which may throw again. -/
def scrapeResponse (env : SummaryEnv) (responseJson : JsValue) : Except JsError Json :=
  match responseJson with
  | .str text => do
      let summaryMatch := env.summaryMatch text
      let keyPointsMatch := env.keyPointsMatch text
      let entitiesMatch := env.entitiesMatch text
      let keyPoints ← parseCapture env keyPointsMatch
      let entities ← parseCapture env entitiesMatch
      pure (.obj [("summary", .str (summaryMatch.getD "Impossible d\"extraire le résumé.")),
        ("keyPoints", keyPoints), ("entities", entities)])
  | _ => throw { name := "TypeError", message := "responseJson.match is not a function" }

/-- JavaScript `Array.isArray(x) ? x : []`. -/
def arrayOrEmpty : Option Json → List Json
  | some (.arr items) => items
  | _ => []

/-- The callback `e => e.type && e.value` of the entity filter, by the truthiness of what
it returns. -/
def hasTypeAndValue (e : Json) : Except JsError Bool := do
  let type ← e.get "type"
  if truthyValue type then
    let value ← e.get "value"
    pure (truthyValue value)
  else
    pure false

/-- JavaScript `entities.filter(e => e.type && e.value)`: the callback runs on every
element in order, and its exception ends the filter. -/
def filterEntities : List Json → Except JsError (List Json)
  | [] => pure []
  | e :: rest => do
      let keep ← hasTypeAndValue e
      let kept ← filterEntities rest
      pure (if keep then e :: kept else kept)

/-- The validation of the parsed response in `generateSummary` (source lines 61 to
70). -/
def validateParsed (parsedResponse : Json) : Except JsError SummaryResult := do
  let summaryField ← parsedResponse.get "summary"
  let summary :=
    if truthyValue summaryField then summaryField.getD .null else .str "Résumé non généré."
  let keyPointsField ← parsedResponse.get "keyPoints"
  let keyPoints := arrayOrEmpty keyPointsField
  let entitiesField ← parsedResponse.get "entities"
  let entities ← match entitiesField with
    | some (.arr items) => filterEntities items
    | _ => pure []
  pure { summary := summary, keyPoints := keyPoints, entities := entities }

/-- Source `generateSummary`. `generateChatResponse` is the completion call; its options
argument plays no role here. The body never reads `conversationId`, so the parameter
takes whatever a caller passes in that position; `messages` is `none` when the caller
passes no second argument. -/
def generateSummary {ι : Type} (env : SummaryEnv)
    (generateChatResponse : List Message → Except JsError JsValue)
    (_conversationId : ι) (messages : Option (List Message)) :
    Except JsError SummaryResult :=
  tryCatch
    (do
      let messages ← derefMessages messages
      let prompt := summaryPrompt (conversationText messages)
      let responseJson ← generateChatResponse [{ role := "user", content := prompt }]
      let parsedResponse ← tryCatch (jsonParse env (jsString responseJson))
        (fun _parseError => scrapeResponse env responseJson)
      validateParsed parsedResponse)
    (fun _error => pure degradedSummary)

/-- Whether the entity filter keeps an element that it can read. -/
def entityKept (e : Json) : Bool :=
  match hasTypeAndValue e with
  | .ok keep => keep
  | .error _ => false

/-- The text of a summary whose list of entities holds `null`. -/
def nullEntityText : String :=
  "\x7b\"summary\":\"Point sur les ventes\",\"keyPoints\":[\"ventes\"],\"entities\":[null]\x7d"

/-- A text that is not JSON but carries the three fields. -/
def nearJsonText : String :=
  "Voici: \"summary\": \"Point sur les ventes\", \"keyPoints\": [\"ventes\"], \"entities\": []"

/-- The built-ins on the sample texts: `JSON.parse` on `nullEntityText`, on `null` and on
the two array texts captured from `nearJsonText`, a `SyntaxError` on every other text;
the captures of the three regular expressions on `nearJsonText`, no match elsewhere. -/
def sampleSummaryEnv : SummaryEnv :=
  { parse := fun text =>
      if text = nullEntityText then
        some (.obj [("summary", .str "Point sur les ventes"),
          ("keyPoints", .arr [.str "ventes"]), ("entities", .arr [.null])])
      else if text = "null" then some .null
      else if text = "[\"ventes\"]" then some (.arr [.str "ventes"])
      else if text = "[]" then some (.arr [])
      else none,
    summaryMatch := fun text =>
      if text = nearJsonText then some "Point sur les ventes" else none,
    keyPointsMatch := fun text => if text = nearJsonText then some "[\"ventes\"]" else none,
    entitiesMatch := fun text => if text = nearJsonText then some "[]" else none }

/-- The result `generateSummary` builds from a parsed value that has no property. -/
def placeholderSummary : SummaryResult :=
  { summary := .str "Résumé non généré.", keyPoints := [], entities := [] }

/-! ## models/conversationSummaryModel.js, services/summaryManager.js: `saveSummary`, `getSummary` -/

/-- A `ConversationSummary` document, by the fields the services write and read.
`summary` is kept as the value that was written. -/
structure SummaryDoc where
  id : String
  tenantId : Option String
  userId : Option String
  conversationId : Option String
  summary : Json
  keyPoints : List Json
  entities : List Json
  lastMessageTimestamp : Option Nat
  updatedAt : Option Nat

/-- The fields of a summary document a filter can test. -/
def SummaryDoc.field (d : SummaryDoc) (name : String) : Option String :=
  if name = "_id" then some d.id
  else if name = "tenantId" then d.tenantId
  else if name = "userId" then d.userId
  else if name = "conversationId" then d.conversationId
  else none

/-- The hooks of `conversationSummarySchema`: `conversationSummaryModel.js` registers
none. -/
def conversationSummarySchema : Schema :=
  { preSave := [], preFind := [], preFindOne := [], preUpdateOne := [] }

/-- The database with its two collections of the chat: the conversations (with the
cache, in `world`) and the summaries. `world.mongoUp` is the reachability of both. -/
structure Stores where
  world : World
  summaries : List SummaryDoc

/-- What Mongoose makes of the values written to a summary, from the schema of
`conversationSummaryModel.js`, taken as given: the casting of the `$set` of an update
run with `runValidators`, and the casting and validation of a document that is saved.
Either may reject the value. -/
structure SchemaCasts where
  update : SummaryResult → Except JsError SummaryResult
  save : SummaryDoc → Except JsError SummaryDoc

/-- The filter `{ conversationId: convObjectId, tenantId }` of `saveSummary` and
`getSummary`. An ObjectId is compared as the string that denotes it. -/
def summaryFilter (conversationId : String) (tenantId : Option String) : Query :=
  { conditions := [("conversationId", some conversationId), ("tenantId", tenantId)],
    update := none, skipTenantFilter := false, tenantRequired := none }

/-- Whether a summary document satisfies the filter of `saveSummary` and `getSummary`. -/
def SummaryDoc.isFor (conversationId : String) (tenantId : Option String) (d : SummaryDoc) :
    Bool :=
  Query.matches SummaryDoc.field (summaryFilter conversationId tenantId) d

/-- Replacement of the first element that satisfies `p`. -/
def updateFirst {α : Type} (p : α → Bool) (f : α → α) : List α → List α
  | [] => []
  | a :: rest => if p a then f a :: rest else a :: updateFirst p f rest

/-- Mongoose `ConversationSummary.findOneAndUpdate(filter, update, { new: true, upsert:
true, runValidators: true })` with the filter and the update of `saveSummary`: the first
document matching the filter gets the `$set` fields, and when there is none a document
is inserted with the fields of the filter, of `$set` and of `$setOnInsert`. `newId` is
the `_id` of an inserted document and `now` the clock reading for `updatedAt`. -/
def ConversationSummary.findOneAndUpdate (casts : SchemaCasts) (s : Stores) (now : Nat)
    (newId : String) (conversationId : String) (tenantId : Option String)
    (fields : SummaryResult) (lastMessageTimestamp : Nat) :
    Except JsError (SummaryDoc × Stores) :=
  if s.world.mongoUp then do
    let cast ← casts.update fields
    match s.summaries.find? (SummaryDoc.isFor conversationId tenantId) with
    | some found =>
        let doc : SummaryDoc :=
          { found with
            summary := cast.summary, keyPoints := cast.keyPoints, entities := cast.entities,
            lastMessageTimestamp := some lastMessageTimestamp, tenantId := tenantId,
            updatedAt := some now }
        let summaries :=
          updateFirst (SummaryDoc.isFor conversationId tenantId) (fun _ => doc) s.summaries
        pure (doc, { s with summaries := summaries })
    | none =>
        let doc : SummaryDoc :=
          { id := newId, tenantId := tenantId, userId := none,
            conversationId := some conversationId,
            summary := cast.summary, keyPoints := cast.keyPoints, entities := cast.entities,
            lastMessageTimestamp := some lastMessageTimestamp, updatedAt := some now }
        pure (doc, { s with summaries := s.summaries ++ [doc] })
  else
    throw mongoUnavailable

/-- Mongoose `Conversation.findOne({ _id: convObjectId, tenantId })`. -/
def Conversation.findOne (slot : Slot) (w : World) (id : String) (tenantId : Option String) :
    Except JsError (Option Conversation) :=
  if w.mongoUp then
    pure (conversationSchema.execFindOne Conversation.field slot w.conversations
      { conditions := [("_id", some id), ("tenantId", tenantId)], update := none,
        skipTenantFilter := false, tenantRequired := none })
  else
    throw mongoUnavailable

/-- The messages `saveSummary` summarises (source lines 97 to 104): the ones it was
given, or, when it was given none, the ones of the stored conversation of the tenant;
an error when that conversation is not found. -/
def saveSummary.messagesToSummarise (slot : Slot) (w : World) (tenantId : Option String)
    (conversationId : String) (messages : Option (List Message)) :
    Except JsError (List Message) :=
  if messages.isNone || (messages.getD []).length = 0 then do
    let conversation ← Conversation.findOne slot w conversationId tenantId
    match conversation with
    | none =>
        throw (newError ("Conversation " ++ conversationId ++ " non trouvée pour le tenant "
          ++ tenantId.getD "null" ++ "."))
    | some conversation => pure conversation.messages
  else
    pure (messages.getD [])

/-- Source `saveSummary`: the saved document, or `null` (`none`) when anything inside
threw. `isValid` is `mongoose.Types.ObjectId.isValid` on strings, `timestampOf` the
`timestamp` field of a message, `now` the clock reading of `new Date()`. -/
def saveSummary (env : SummaryEnv) (generateChatResponse : List Message → Except JsError JsValue)
    (casts : SchemaCasts) (isValid : String → Bool) (timestampOf : Message → Option Nat)
    (slot : Slot) (s : Stores) (now : Nat) (newId : String) (tenantId : Option String)
    (conversationId : String) (messages : Option (List Message)) :
    Option SummaryDoc × Stores :=
  let attempt : Except JsError (SummaryDoc × Stores) := do
    if !isValid conversationId then
      throw (newError "ID de conversation invalide pour la sauvegarde du résumé.")
    let messages ← saveSummary.messagesToSummarise slot s.world tenantId conversationId messages
    let fields ← generateSummary env generateChatResponse conversationId (some messages)
    ConversationSummary.findOneAndUpdate casts s now newId conversationId tenantId fields
      ((messages.getLast?.bind timestampOf).getD now)
  match attempt with
  | .ok (result, s) => (some result, s)
  | .error _ => (none, s)

/-- The summary documents of a conversation of a tenant. -/
def summariesOf (s : Stores) (tenantId : Option String) (conversationId : String) :
    List SummaryDoc :=
  s.summaries.filter (SummaryDoc.isFor conversationId tenantId)

/-- Mongoose's `CastError` on a path. -/
def castError (path : String) : JsError :=
  { name := "CastError", message := "Cast to string failed at path " ++ path }

/-- Mongoose's cast of a value to the schema type `String` (`castString`): `null` stays,
a string stays, a number or a boolean becomes its text, an object with a non-empty
string `_id` becomes that id, and every other object and every array is refused
(`none`). `numberText` is the text of a number. -/
def castString (numberText : Int → Int → String) : Json → Option Json
  | .null => some .null
  | .str s => some (.str s)
  | .num mantissa exponent => some (.str (numberText mantissa exponent))
  | .bool b => some (.str (if b then "true" else "false"))
  | .arr _ => none
  | .obj fields =>
      match fields.lookup "_id" with
      | some (.str id) => if id != "" then some (.str id) else none
      | _ => none

/-- Mongoose's cast of the elements of an array of `String`; one refused element
refuses the array. -/
def castStrings (numberText : Int → Int → String) : List Json → Option (List Json)
  | [] => some []
  | item :: rest =>
      match castString numberText item, castStrings numberText rest with
      | some text, some texts => some (text :: texts)
      | _, _ => none

/-- The `required` validator of a `String` path: a string that is not empty. -/
def requiredString : Json → Bool
  | .str s => s != ""
  | _ => false

/-- The `required` validator of an ObjectId path on what was given for it: a text that
denotes an ObjectId. -/
def requiredObjectId (isValid : String → Bool) : Option String → Bool
  | some id => isValid id
  | none => false

/-- The paths Mongoose's validation refuses on a summary document that is saved, read
off `conversationSummarySchema`: `tenantId`, `userId` and `conversationId` are required
ObjectIds, `summary` is a required `String`, `keyPoints` is an array of `String`, and
`entities`, declared as `[{ type: String, value: String }]`, is an array of `String`
too, `type` being the key by which Mongoose reads the type of a path. -/
def SummaryDoc.invalidPaths (numberText : Int → Int → String) (isValid : String → Bool)
    (doc : SummaryDoc) : List String :=
  (if requiredObjectId isValid doc.tenantId then [] else ["tenantId"])
    ++ (if requiredObjectId isValid doc.userId then [] else ["userId"])
    ++ (if requiredObjectId isValid doc.conversationId then [] else ["conversationId"])
    ++ (match castString numberText doc.summary with
        | some summary => if requiredString summary then [] else ["summary"]
        | none => ["summary"])
    ++ (if (castStrings numberText doc.keyPoints).isSome then [] else ["keyPoints"])
    ++ (if (castStrings numberText doc.entities).isSome then [] else ["entities"])

/-- What Mongoose makes of the values written to a summary, read off
`conversationSummarySchema`. An update with `runValidators` throws the `CastError` of
the first of `summary`, `keyPoints` and `entities` that cannot be cast, and the
`ValidationError` of a `summary` that is not a non-empty string; a save throws a
`ValidationError` with the refused paths. `numberText` is the text of a number and
`isValid` tells the texts that denote an ObjectId. -/
def conversationSummaryCasts (numberText : Int → Int → String) (isValid : String → Bool) :
    SchemaCasts :=
  { update := fun fields =>
      match castString numberText fields.summary with
      | none => throw (castError "summary")
      | some summary =>
        match castStrings numberText fields.keyPoints with
        | none => throw (castError "keyPoints")
        | some keyPoints =>
          match castStrings numberText fields.entities with
          | none => throw (castError "entities")
          | some entities =>
              if requiredString summary then
                pure { summary := summary, keyPoints := keyPoints, entities := entities }
              else throw (validationError ["summary"]),
    save := fun doc =>
      if doc.invalidPaths numberText isValid ≠ [] then
        throw (validationError (doc.invalidPaths numberText isValid))
      else
        pure { doc with
          summary := (castString numberText doc.summary).getD doc.summary,
          keyPoints := (castStrings numberText doc.keyPoints).getD doc.keyPoints,
          entities := (castStrings numberText doc.entities).getD doc.entities } }

/-- A sample for the text of a number: mantissa, `e`, exponent. -/
def sampleNumberText (mantissa exponent : Int) : String :=
  toString mantissa ++ "e" ++ toString exponent

/-- A reachable database with no conversation and no summary. -/
def emptyStores : Stores :=
  { world := emptyWorld, summaries := [] }

/-- A sample for `mongoose.Types.ObjectId.isValid` on strings: the strings of 24
hexadecimal digits, the textual form of an ObjectId. -/
def hexObjectId (id : String) : Bool :=
  id.length == 24
    && id.toList.all fun c =>
      c.isDigit || ('a' ≤ c && c ≤ 'f') || ('A' ≤ c && c ≤ 'F')

/-- A completion call that always answers with `nearJsonText`. -/
def nearJsonCompletion : List Message → Except JsError JsValue :=
  fun _ => .ok (.str nearJsonText)

/-! ## workers/summaryWorker.js -/

/-- The fields of `job.data` that `processSummaryJob` reads. -/
structure SummaryJobData where
  userId : String
  tenantId : Option String
  conversationId : String

/-- What `processSummaryJob` returns. `summaryLength` is `summary.length`, read on the
object `generateSummary` returned, which has no such property (`none`). -/
structure SummaryJobResult where
  success : Bool
  conversationId : String
  summaryId : String
  summaryLength : Option Nat

/-- The object `generateSummary` returns, as a value. -/
def SummaryResult.toJson (r : SummaryResult) : Json :=
  .obj [("summary", r.summary), ("keyPoints", .arr r.keyPoints), ("entities", .arr r.entities)]

/-- Mongoose `ConversationSummary.findOne({ conversationId })`, through the `findOne`
hooks of the schema. -/
def ConversationSummary.findOne (slot : Slot) (s : Stores) (conversationId : String) :
    Except JsError (Option SummaryDoc) :=
  if s.world.mongoUp then
    pure (conversationSummarySchema.execFindOne SummaryDoc.field slot s.summaries
      { conditions := [("conversationId", some conversationId)], update := none,
        skipTenantFilter := false, tenantRequired := none })
  else
    throw mongoUnavailable

/-- Mongoose `summaryDoc.save()`: casting and validation, then the document replaces
the stored one with its `_id`, or is inserted. -/
def ConversationSummary.save (casts : SchemaCasts) (s : Stores) (doc : SummaryDoc) :
    Except JsError (SummaryDoc × Stores) := do
  let doc ← casts.save doc
  if s.world.mongoUp then
    if s.summaries.any (fun d => d.id == doc.id) then
      pure (doc, { s with summaries := s.summaries.map fun d => if d.id = doc.id then doc else d })
    else
      pure (doc, { s with summaries := s.summaries ++ [doc] })
  else
    throw mongoUnavailable

/-- Source `processSummaryJob`. The summariser is called as `generateSummary(history)`:
the history goes to its first parameter and it gets no second argument. `now` is the
clock reading of `new Date()` and `newId` the `_id` of a document created here. The
stores are returned also when the job throws. -/
def processSummaryJob (env : SummaryEnv)
    (generateChatResponse : List Message → Except JsError JsValue) (casts : SchemaCasts)
    (slot : Slot) (s : Stores) (now : Nat) (newId : String) (data : SummaryJobData) :
    Except JsError SummaryJobResult × Stores :=
  (runInTenantContext data.tenantId (fun slot =>
    let got := getConversationHistory slot s.world data.userId data.conversationId
    let history := got.1
    let s : Stores := { s with world := got.2 }
    if history.length = 0 then
      ((.error (newError ("Aucun historique trouvé pour la conversation "
          ++ data.conversationId)) : Except JsError SummaryJobResult), s)
    else
      match generateSummary env generateChatResponse history (none : Option (List Message))
        with
      | .error e => (.error e, s)
      | .ok summary =>
        match ConversationSummary.findOne slot s data.conversationId with
        | .error e => (.error e, s)
        | .ok (some summaryDoc) =>
            match ConversationSummary.save casts s
                { summaryDoc with summary := summary.toJson, updatedAt := some now } with
            | .error e => (.error e, s)
            | .ok (saved, s) =>
                (.ok { success := true, conversationId := data.conversationId,
                       summaryId := saved.id, summaryLength := none }, s)
        | .ok none =>
            match ConversationSummary.save casts s
                { id := newId, userId := some data.userId, tenantId := data.tenantId,
                  conversationId := some data.conversationId, summary := summary.toJson,
                  keyPoints := [], entities := [], lastMessageTimestamp := none,
                  updatedAt := some now } with
            | .error e => (.error e, s)
            | .ok (saved, s) =>
                (.ok { success := true, conversationId := data.conversationId,
                       summaryId := saved.id, summaryLength := none }, s)) slot).1

/-- A reachable database holding the conversation `conv1` of `alice` with the given
messages, and no summary. -/
def sampleStores (messages : List Message) : Stores :=
  { world := sampleWorld messages, summaries := [] }

/-- A conversation whose ids are texts of ObjectIds, for concrete runs. -/
def hexConversation (messages : List Message) : Conversation :=
  { id := "64b7f0c2a1d3e4f5a6b7c8d9", tenantId := some "64b7f0c2a1d3e4f5a6b7c8d0",
    userId := "64b7f0c2a1d3e4f5a6b7c8d2", title := "Budget", messages := messages,
    lastActivity := 0, isActive := true }

/-- A reachable database holding `hexConversation` with the given messages, an empty
cache and no summary. -/
def hexStores (messages : List Message) : Stores :=
  { world := { redis := { up := true, entries := [] }, mongoUp := true,
               conversations := [hexConversation messages] },
    summaries := [] }

/-- The summary job for `hexConversation`. -/
def hexJob : SummaryJobData :=
  { userId := "64b7f0c2a1d3e4f5a6b7c8d2", tenantId := some "64b7f0c2a1d3e4f5a6b7c8d0",
    conversationId := "64b7f0c2a1d3e4f5a6b7c8d9" }

/-! ## services/contextManager.js: `generateContextualSuggestions` -/

/-- JavaScript `mongoose.Types.ObjectId.isValid(id)`: `false` for `null` and `undefined`
(`none`), and `isValid` on strings. -/
def objectIdIsValid (isValid : String → Bool) : Option String → Bool
  | none => false
  | some id => isValid id

/-- Source `getSummary(tenantId, conversationId)`: the summary document of the
conversation for the tenant, `null` (`none`) for an invalid id, when there is none and
when the lookup throws. `conversationId` is `none` when the caller passes no second
argument. -/
def getSummary (isValid : String → Bool) (slot : Slot) (s : Stores)
    (tenantId : Option String) (conversationId : Option String) : Option SummaryDoc :=
  if !objectIdIsValid isValid conversationId then
    none
  else if s.world.mongoUp then
    conversationSummarySchema.execFindOne SummaryDoc.field slot s.summaries
      (summaryFilter (conversationId.getD "") tenantId)
  else
    none

/-- Source `getDefaultSuggestions`. -/
def getDefaultSuggestions : List String :=
  ["Quel est mon chiffre d'affaires aujourd'hui ?",
   "Combien de clients ai-je servis cette semaine ?",
   "Quels sont mes produits les plus vendus ?"]

/-- JavaScript `value === text` for what a property read gave. -/
def isText (value : Option Json) (text : String) : Bool :=
  match value with
  | some (.str s) => s == text
  | _ => false

/-- The text a template literal puts for a value: a string as it is; `stringOf` is the
conversion of every other value, taken as given. -/
def interpolate (stringOf : Option Json → String) : Option Json → String
  | some (.str s) => s
  | value => stringOf value

/-- The `forEach` over `summary.entities`: the suggestions pushed, in order. Reading a
property of a `null` entity throws. -/
def entitySuggestions (stringOf : Option Json → String) : List Json → Except JsError (List String)
  | [] => pure []
  | entity :: rest => do
      let type ← entity.get "type"
      let value ← entity.get "value"
      let pushed :=
        if isText type "produit" then
          ["Quelles sont les ventes pour " ++ interpolate stringOf value ++ " ?"]
        else if isText type "client" then
          ["Montrez-moi l'historique du client " ++ interpolate stringOf value]
        else if isText type "employé" then
          ["Quel est le planning de " ++ interpolate stringOf value ++ " ?"]
        else []
      let others ← entitySuggestions stringOf rest
      pure (pushed ++ others)

/-- JavaScript `keyPoints.some(point => point.toLowerCase().includes(word))`: the
points are tried in order up to the first that has the word; a point that is not a
string has no `toLowerCase`. -/
def somePointIncludes (ops : StringOps) (word : String) : List Json → Except JsError Bool
  | [] => pure false
  | .str point :: rest =>
      if includes (ops.toLowerCase point) word then pure true
      else somePointIncludes ops word rest
  | _ :: _ => throw { name := "TypeError", message := "point.toLowerCase is not a function" }

/-- The loop that completes the suggestions with default ones (source lines 159 to
166). -/
def fillWithDefaults (suggestions : List String) : List String :=
  if suggestions.length < 3 then
    getDefaultSuggestions.foldl
      (fun suggestions suggestion =>
        if suggestions.length < 3 && !suggestions.contains suggestion then
          suggestions ++ [suggestion]
        else suggestions)
      suggestions
  else
    suggestions

/-- What `generateContextualSuggestions` does once it has a summary (source lines 131
to 170). -/
def suggestionsFromSummary (ops : StringOps) (stringOf : Option Json → String)
    (summary : SummaryDoc) : Except JsError (List String) := do
  let suggestions ← entitySuggestions stringOf summary.entities
  let vente ← somePointIncludes ops "vente" summary.keyPoints
  let suggestions :=
    if vente then suggestions ++ ["Quel est mon chiffre d'affaires ce mois-ci ?"]
    else suggestions
  let stock ← somePointIncludes ops "stock" summary.keyPoints
  let suggestions :=
    if stock then suggestions ++ ["Quels produits sont en rupture de stock ?"]
    else suggestions
  let employe ← somePointIncludes ops "employé" summary.keyPoints
  let suggestions :=
    if employe then suggestions ++ ["Montrez-moi les performances de l'équipe"]
    else suggestions
  pure ((fillWithDefaults suggestions).take 3)

/-- Source `generateContextualSuggestions`. The summary is fetched with
`getSummary(conversationId)`: the conversation id goes to the `tenantId` parameter of
`getSummary` and its `conversationId` parameter gets nothing. -/
def generateContextualSuggestions (ops : StringOps) (stringOf : Option Json → String)
    (isValid : String → Bool) (slot : Slot) (s : Stores) (_userId : String)
    (conversationId : String) : Except JsError (List String) :=
  tryCatch
    (match getSummary isValid slot s (some conversationId) none with
    | none => pure getDefaultSuggestions
    | some summary => suggestionsFromSummary ops stringOf summary)
    (fun _error => pure getDefaultSuggestions)

/-- A reachable database whose only summary, for the conversation
`64b7f0c2a1d3e4f5a6b7c8d9` of `tenantA`, has the given entities and key points. -/
def storesWithSummary (entities keyPoints : List Json) : Stores :=
  { world := emptyWorld,
    summaries :=
      [{ id := "s1", tenantId := some "tenantA", userId := none,
         conversationId := some "64b7f0c2a1d3e4f5a6b7c8d9", summary := .str "Point sur les ventes",
         keyPoints := keyPoints, entities := entities, lastMessageTimestamp := none,
         updatedAt := none }] }

/-! ## workers: the tenant context of the job handlers -/

/-- Source `processSummaryJob`, by its tenant scoping: the function is
`return runInTenantContext(tenantId, async () => { ... })` with `tenantId` taken from
`job.data`, and `processing` stands for the whole callback. The result is the task as
its first synchronous run leaves it. -/
def processSummaryJob.task {ρ : Type} (tenantId : Option String) (processing : Fn ρ)
    (slot : Slot) : Turn ρ :=
  (runInTenantContext tenantId (exec processing) slot).1

/-- The processor of `openaiWorker` (`new Worker('openai_chat', async (job) => { ... })`),
by its tenant scoping: `processing` stands for the whole function, which BullMQ calls as
it is. No `runInTenantContext` is entered and `job.data.tenantId` is not read. -/
def openaiWorker.task {ρ : Type} (_tenantId : Option String) (processing : Fn ρ)
    (slot : Slot) : Turn ρ :=
  exec processing slot

/-- A processing that asks for the tenant id, waits for a network call, asks again, and
returns both answers. -/
def readTenantTwice : Fn (List (Option String)) :=
  Fn.getTenant fun first => Fn.await (Fn.getTenant fun second => Fn.ret [first, second])

/-! ## controllers/chatController.js: `handleChat`; workers/openaiWorker.js -/

/-- The authenticated user of a request (`req.user`), by the fields `handleChat` reads. -/
structure ChatUser where
  id : String
  tenantId : Option String
  email : Option String
  role : Option String
  deriving DecidableEq, Repr

/-- The body of a chat request: `message`, and `conversationId`, which is `none` when it
is missing or `null`. -/
structure ChatBody where
  message : Option String
  conversationId : Option String
  deriving DecidableEq, Repr

/-- The `userData` `handleChat` puts into a chat job. -/
structure ChatUserData where
  id : String
  tenantId : Option String
  email : Option String
  role : Option String
  deriving DecidableEq, Repr

/-- The `job.data` of a chat job: the fields `handleChat` writes, and `prompt` and
`model`, which the processor of `openaiWorker` reads and `handleChat` does not write
(`none` for `undefined`). -/
structure ChatJobData where
  userId : String
  tenantId : Option String
  conversationId : String
  message : String
  userData : ChatUserData
  prompt : Option (List Message)
  model : Option String
  deriving DecidableEq, Repr

/-- A job of the `openai_chat` queue. -/
structure ChatJob where
  id : String
  data : ChatJobData
  deriving DecidableEq, Repr

/-- The `openai_chat` queue: reachable or not, and the jobs waiting in it. -/
structure ChatQueue where
  up : Bool
  jobs : List ChatJob
  deriving DecidableEq, Repr

/-- Source `addChatJob` (`addJob` on the chat queue): the job is added and returned, or
the failure of the queue is rethrown. `jobId` is the id BullMQ gives the job. -/
def addChatJob (queue : ChatQueue) (jobId : String) (data : ChatJobData) :
    Except JsError (ChatJob × ChatQueue) :=
  if queue.up then
    pure ({ id := jobId, data := data }, { queue with jobs := queue.jobs ++ [{ id := jobId, data := data }] })
  else
    throw (newError "Redis client non disponible pour BullMQ")

/-- What `handleChat` answers: `res.status(400).json(...)`, `res.status(202).json(...)`,
or the error it hands to `next`. -/
inductive ChatResponse where
  | badRequest (message : String)
  | accepted (message : String) (jobId : String) (conversationId : String)
  | passedToNext (error : JsError)
  deriving DecidableEq, Repr

/-- The services a chat request and its job work on. -/
structure ChatSystem where
  world : World
  queue : ChatQueue
  responses : ResponseCache
  deriving DecidableEq, Repr

/-- Joi's verdict on a body for `chatMessageSchema`: `message` is required and must be a
non-empty string, `conversationId` may be a string, `null` or missing. The error carries
the text of `error.details[0].message`. -/
def chatMessageSchema.validate (body : ChatBody) : Except String (String × Option String) :=
  match body.message with
  | none => .error "\"message\" is required"
  | some message =>
      if message = "" then .error "\"message\" is not allowed to be empty"
      else .ok (message, body.conversationId)

/-- JavaScript truthiness of an array: every array is truthy, the empty one too. -/
def arrayTruthy {α : Type} (_array : List α) : Bool := true

/-- Source `handleChat`. `isValid` is `mongoose.Types.ObjectId.isValid` on strings, `now`
the clock reading, `newId` the `_id` of a conversation created here and `jobId` the id
of the job. The user message is not added to the history here: that call is commented
out in the source. -/
def handleChat (isValid : String → Bool) (slot : Slot) (sys : ChatSystem) (now : Nat)
    (newId jobId : String) (user : ChatUser) (body : ChatBody) : ChatResponse × ChatSystem :=
  match chatMessageSchema.validate body with
  | .error detail => (.badRequest ("Validation échouée: " ++ detail), sys)
  | .ok (message, providedConvId) =>
    let resolved : Except JsError String × World :=
      if truthy providedConvId && isValid (providedConvId.getD "") then
        let got := getConversationHistory slot sys.world user.id (providedConvId.getD "")
        if !arrayTruthy got.1 then
          match createConversation slot got.2 now newId user.id user.tenantId none with
          | (.ok currentConversation, w) => (.ok currentConversation.id, w)
          | (.error e, w) => (.error e, w)
        else
          (.ok (providedConvId.getD ""), got.2)
      else
        match createConversation slot sys.world now newId user.id user.tenantId none with
        | (.ok currentConversation, w) => (.ok currentConversation.id, w)
        | (.error e, w) => (.error e, w)
    match resolved with
    | (.error e, w) => (.passedToNext e, { sys with world := w })
    | (.ok conversationId, w) =>
        match addChatJob sys.queue jobId
            { userId := user.id, tenantId := user.tenantId, conversationId := conversationId,
              message := message,
              userData := { id := user.id, tenantId := user.tenantId, email := user.email,
                            role := user.role },
              prompt := none, model := none } with
        | .error e => (.passedToNext e, { sys with world := w })
        | .ok (job, queue) =>
            (.accepted "Votre message est en cours de traitement." job.id conversationId,
              { sys with world := w, queue := queue })

/-- What the processor of `openaiWorker` calls outside the repository, taken as given:
the key of a prompt (`md5` of `JSON.stringify(prompt)`), the HTTP call with the JSON it
resolves to, `JSON.stringify` and `JSON.parse`. -/
structure OpenAiApi where
  promptKey : List Message → String
  call : List Message → Option String → Except JsError Json
  stringify : Json → String
  parse : String → Option Json

/-- JavaScript `response && response.choices && response.choices[0]`, by its
truthiness. -/
def hasFirstChoice (response : Json) : Bool :=
  match response with
  | .obj fields =>
      match fields.lookup "choices" with
      | some (.arr (first :: _)) => first.truthy
      | some (.str s) => s != ""
      | some (.obj choices) => truthyValue (choices.lookup "0")
      | _ => false
  | _ => false

/-- The processor of `openaiWorker`, on the response cache. It reads `prompt` and
`model` of `job.data`; with no `prompt`, `generatePromptKey` hands `undefined` to
`hash.update`, which throws. It reads and writes no conversation. -/
def openaiWorker.processor (api : OpenAiApi) (job : ChatJob) : Step ResponseCache Json :=
  match job.data.prompt with
  | none =>
      Step.throw { name := "TypeError",
                   message := "The \"data\" argument must be of type string or an instance of Buffer, TypedArray, or DataView. Received undefined" }
  | some prompt => do
      let promptKey := api.promptKey prompt
      let cachedResponse ← Step.read fun cache => getCachedAIResponse cache promptKey
      if truthy cachedResponse then
        match api.parse (cachedResponse.getD "") with
        | some value => pure value
        | none => Step.throw { name := "SyntaxError", message := "Unexpected token in JSON" }
      else do
        let response ← Step.ofExcept (api.call prompt job.data.model)
        if hasFirstChoice response then
          Step.modify fun cache => cacheAIResponse cache promptKey (.str (api.stringify response))
        pure response

/-- The chat worker takes the first waiting job and runs the processor on it; `none`
when no job waits. -/
def openaiWorker.run (api : OpenAiApi) (sys : ChatSystem) :
    Option (Except JsError Json) × ChatSystem :=
  match sys.queue.jobs with
  | [] => (none, sys)
  | job :: rest =>
      let ran := openaiWorker.processor api job sys.responses
      (some ran.1, { sys with queue := { sys.queue with jobs := rest }, responses := ran.2 })

/-- Reachable services with no conversation, no job and no cached response. -/
def emptyChatSystem : ChatSystem :=
  { world := emptyWorld, queue := { up := true, jobs := [] }, responses := emptyResponses }

/-- The user `alice` of `tenantA`. -/
def alice : ChatUser :=
  { id := "alice", tenantId := some "tenantA", email := some "alice@example.com",
    role := some "user" }

/-- An API whose completion has one choice. -/
def sampleApi : OpenAiApi :=
  { promptKey := fun _ => "key",
    call := fun _ _ => .ok (.obj [("choices", .arr [.obj [("message", .str "Bonjour Alice")]])]),
    stringify := fun _ => "completion",
    parse := fun _ => none }

/-! ## models/scheduleModel.js, controllers/scheduleController.js: `getScheduleConflicts` -/

/-- A shift of a schedule (`shiftSchema`), by its two required paths; a date is its time
value. -/
structure Shift where
  startTime : Int
  endTime : Int
  deriving DecidableEq, Repr

/-- A fetched schedule document, by the paths `scheduleSchema` declares that matter
here: the employee, the day and the shifts. The schema declares no path `startDate` or
`endDate`. -/
structure Schedule where
  id : String
  employeeId : String
  date : Int
  shifts : List Shift
  deriving DecidableEq, Repr

/-- JavaScript `schedule.startDate` on a fetched document: `scheduleSchema` declares no
such path, so the document has no such property and the read gives `undefined`
(`none`). -/
def Schedule.startDate (_schedule : Schedule) : Option Int := none

/-- JavaScript `schedule.endDate` on a fetched document: `undefined` (`none`), as for
`startDate`. -/
def Schedule.endDate (_schedule : Schedule) : Option Int := none

/-- JavaScript `a > b` on two values that are a date or `undefined`: `undefined` converts
to `NaN`, and every comparison with `NaN` is false. -/
def jsGreater : Option Int → Option Int → Bool
  | some a, some b => a > b
  | _, _ => false

/-- An entry of `conflicts`. -/
structure Conflict where
  employeeId : String
  schedule1_id : String
  schedule1_start : Option Int
  schedule1_end : Option Int
  schedule2_id : String
  schedule2_start : Option Int
  schedule2_end : Option Int
  deriving DecidableEq, Repr

/-- An employee as `Employee.find(...).select("firstName lastName position")` gives
it. -/
structure EmployeeRecord where
  id : String
  firstName : String
  lastName : String
  position : Option String
  deriving DecidableEq, Repr

/-- An entry of `enrichedConflicts`. -/
structure EnrichedConflict where
  conflict : Conflict
  employeeName : String
  employeePosition : Option String
  deriving DecidableEq, Repr

/-- The query string of the request (`req.query`). -/
structure ConflictsQuery where
  startDate : Option String
  endDate : Option String
  employeeId : Option String
  deriving DecidableEq, Repr

/-- The two database calls of `getScheduleConflicts`, taken as given: what
`Schedule.find(query).sort(...)` returns for the tenant, the two dates of the period and
the optional employee; and the employees with the given ids. -/
structure ScheduleEnv where
  findSchedules : Option String → String → String → Option String →
    Except JsError (List Schedule)
  findEmployees : List String → Except JsError (List EmployeeRecord)

/-- What `getScheduleConflicts` answers. -/
inductive ConflictsResponse where
  | badRequest (message : String)
  | json (conflicts : List EnrichedConflict)
  | passedToNext (error : JsError)
  deriving DecidableEq, Repr

/-- One step of the grouping loop: the schedule goes to the end of the list of its
employee, a new employee going to the end of the groups. -/
def pushSchedule (employeeSchedules : List (String × List Schedule)) (schedule : Schedule) :
    List (String × List Schedule) :=
  if employeeSchedules.any (fun group => group.1 == schedule.employeeId) then
    employeeSchedules.map fun group =>
      if group.1 = schedule.employeeId then (group.1, group.2 ++ [schedule]) else group
  else
    employeeSchedules ++ [(schedule.employeeId, [schedule])]

/-- The `forEach` that groups the schedules by employee, in fetch order. -/
def groupByEmployee (schedules : List Schedule) : List (String × List Schedule) :=
  schedules.foldl pushSchedule []

/-- The inner `for` loop of `getScheduleConflicts`: each schedule is compared with the
next one of the same employee only, through `s1.endDate > s2.startDate`. -/
def adjacentConflicts (empId : String) : List Schedule → List Conflict
  | s1 :: s2 :: rest =>
      (if jsGreater s1.endDate s2.startDate then
        [{ employeeId := empId,
           schedule1_id := s1.id, schedule1_start := s1.startDate, schedule1_end := s1.endDate,
           schedule2_id := s2.id, schedule2_start := s2.startDate, schedule2_end := s2.endDate }]
      else [])
        ++ adjacentConflicts empId (s2 :: rest)
  | _ => []

/-- The `conflicts` array after the outer `for ... in` loop. -/
def findConflicts (schedules : List Schedule) : List Conflict :=
  (groupByEmployee schedules).flatMap fun group => adjacentConflicts group.1 group.2

/-- The enrichment of a conflict with the name and position of its employee. -/
def enrichConflict (employees : List EmployeeRecord) (conflict : Conflict) : EnrichedConflict :=
  match (employees.filter fun emp => emp.id == conflict.employeeId).getLast? with
  | some employee =>
      { conflict := conflict,
        employeeName := employee.firstName ++ " " ++ employee.lastName,
        employeePosition := employee.position }
  | none =>
      { conflict := conflict, employeeName := "Employé inconnu", employeePosition := some "" }

/-- Source `getScheduleConflicts`. -/
def getScheduleConflicts (env : ScheduleEnv) (tenantId : Option String)
    (query : ConflictsQuery) : ConflictsResponse :=
  if !truthy query.startDate || !truthy query.endDate then
    .badRequest "Dates de début et de fin requises"
  else
    let attempt : Except JsError (List EnrichedConflict) := do
      let schedules ← env.findSchedules tenantId (query.startDate.getD "")
        (query.endDate.getD "") (if truthy query.employeeId then query.employeeId else none)
      let conflicts := findConflicts schedules
      let conflictingEmployeeIds := (conflicts.map fun c => c.employeeId).eraseDups
      let employees ← env.findEmployees conflictingEmployeeIds
      pure (conflicts.map (enrichConflict employees))
    match attempt with
    | .ok enrichedConflicts => .json enrichedConflicts
    | .error error => .passedToNext error

/-- Two schedules whose time intervals overlap: a shift of one and a shift of the other
have a moment in common. -/
def intervalsOverlap (a b : Schedule) : Bool :=
  a.shifts.any fun x => b.shifts.any fun y => x.startTime < y.endTime && y.startTime < x.endTime

/-- Whether a list of conflicts reports the pair of two schedules, in either order. -/
def reportsPair (conflicts : List EnrichedConflict) (a b : Schedule) : Bool :=
  conflicts.any fun c =>
    (c.conflict.schedule1_id == a.id && c.conflict.schedule2_id == b.id)
      || (c.conflict.schedule1_id == b.id && c.conflict.schedule2_id == a.id)

/-- Whether an answer reports the pair of two schedules. -/
def reportedIn (response : ConflictsResponse) (a b : Schedule) : Bool :=
  match response with
  | .json conflicts => reportsPair conflicts a b
  | _ => false

/-- A long shift of Marie on day 5, from 8 to 18 o'clock (in hours, for short). -/
def longShift : Schedule :=
  { id := "day", employeeId := "marie", date := 5, shifts := [{ startTime := 8, endTime := 18 }] }

/-- A meeting of Marie on the same day, from 9 to 10. -/
def morningMeeting : Schedule :=
  { id := "meeting", employeeId := "marie", date := 5,
    shifts := [{ startTime := 9, endTime := 10 }] }

/-- A training of Marie on the same day, from 11 to 12. -/
def training : Schedule :=
  { id := "training", employeeId := "marie", date := 5,
    shifts := [{ startTime := 11, endTime := 12 }] }

/-- A database whose `Schedule.find` returns the three schedules of Marie. -/
def marieEnv : ScheduleEnv :=
  { findSchedules := fun _ _ _ _ => .ok [longShift, morningMeeting, training],
    findEmployees := fun _ =>
      .ok [{ id := "marie", firstName := "Marie", lastName := "Curie",
             position := some "Vendeuse" }] }

/-! ## middlewares/authMiddleware.js, models/saleModel.js, controllers/saleController.js: `createSale` -/

/-- The object `protect` puts in `req.user` (`authMiddleware.js`, source lines 87 to 93),
without `iat` and `exp`: the subject of the token as `id`, the role and the tenant id of
the user. The sale routes run behind `protect`. -/
structure AuthUser where
  id : String
  role : String
  tenantId : Option String
  deriving DecidableEq, Repr

/-- JavaScript `req.user._id`: the object built by `protect` has the property `id` and
no property `_id`, so the read gives `undefined` (`none`). -/
def AuthUser._id (_user : AuthUser) : Option String := none

/-- A number of the request body, as its JSON text gives it: `mantissa` times ten to
the power `exponent`. -/
structure Amount where
  mantissa : Int
  exponent : Int
  deriving DecidableEq, Repr

/-- A product document, by the fields `createSale` reads and writes; `id` is the text of
its ObjectId. -/
structure Product where
  id : String
  tenantId : Option String
  name : String
  stock : Int
  deriving DecidableEq, Repr

/-- An item of a sale as Joi's `saleItemSchema` lets it through; the quantity is the
integer Joi insists on. -/
structure SaleItem where
  productId : String
  productName : String
  quantity : Int
  unitPrice : Amount
  totalPrice : Amount
  deriving DecidableEq, Repr

/-- The body of a sale request, by the fields `createSale` computes with. The date, the
customer, the payment method, the notes and the status go into the sale as they are;
`otherFieldsValid` tells whether `createSaleSchema` accepts them (and finds no unknown
key). -/
structure SaleBody where
  items : List SaleItem
  totalAmount : Amount
  otherFieldsValid : Bool
  deriving DecidableEq, Repr

/-- A sale document: `tenantId` and `userId` are what the controller passes to
`new Sale(...)`, `none` for `null` or `undefined`. -/
structure Sale where
  tenantId : Option String
  userId : Option String
  items : List SaleItem
  totalAmount : Amount
  deriving DecidableEq, Repr

/-- The products and the sales of the database. -/
structure Shop where
  products : List Product
  sales : List Sale
  deriving DecidableEq, Repr

/-- What `createSale` calls outside the controller, taken as given: the text of Joi's
first error; `mongoose.Types.ObjectId.isValid` on strings and the text of the ObjectId a
valid string is cast to; the floating-point test
`Math.abs(calculatedTotal - value.totalAmount) > 0.01` on the total prices of the items
and the total of the body, with the two texts of `toFixed(2)`; and the paths other than
`tenantId` and `userId` that the validation of `saleModel` refuses. -/
structure SaleEnv where
  joiDetail : SaleBody → String
  isValid : String → Bool
  toObjectId : String → String
  totalMismatch : List Amount → Amount → Bool
  calculatedTotalText : List Amount → String
  toFixed2 : Amount → String
  otherInvalidPaths : Sale → List String

/-- What `createSale` answers: 400, 404, 201 with the saved sale, or the error handed to
`next`. A 400 for the total carries the two totals. -/
inductive SaleResponse where
  | badRequest (message : String) (totals : Option (String × String))
  | notFound (message : String)
  | created (sale : Sale)
  | passedToNext (error : JsError)
  deriving DecidableEq, Repr

/-- The verdict of `saleItemSchema`: both strings required, hence not empty, the
quantity an integer of at least 1, the prices not negative. -/
def saleItemSchema.accepts (item : SaleItem) : Bool :=
  item.productId != "" && item.productName != "" && decide (1 ≤ item.quantity)
    && decide (0 ≤ item.unitPrice.mantissa) && decide (0 ≤ item.totalPrice.mantissa)

/-- The verdict of `createSaleSchema`: at least one item, every item accepted, the total
not negative, the other fields accepted. -/
def createSaleSchema.accepts (body : SaleBody) : Bool :=
  decide (1 ≤ body.items.length) && body.items.all saleItemSchema.accepts
    && decide (0 ≤ body.totalAmount.mantissa) && body.otherFieldsValid

/-- An entry of `stockUpdates`: `updateOne` with filter `{ _id, tenantId }` and update
`{ $inc: { stock: -quantity } }`. -/
structure StockUpdate where
  productId : String
  tenantId : Option String
  inc : Int
  deriving DecidableEq, Repr

/-- Mongoose `Product.findOne({ _id: productId, tenantId })`: the id of the filter is
cast to an ObjectId before the comparison. -/
def Product.findOne (env : SaleEnv) (products : List Product) (productId : String)
    (tenantId : Option String) : Option Product :=
  products.find? fun p => p.id == env.toObjectId productId && p.tenantId == tenantId

/-- The loop over the items (source lines 153 to 178): every item is checked against the
stock the product has in the database, and its update is put aside; the first item that
fails ends the request with its answer. -/
def checkItems (env : SaleEnv) (tenantId : Option String) (products : List Product) :
    List SaleItem → Except SaleResponse (List StockUpdate)
  | [] => pure []
  | item :: rest =>
      if !env.isValid item.productId then
        throw (.badRequest ("ID de produit invalide: " ++ item.productId) none)
      else
        match Product.findOne env products item.productId tenantId with
        | none =>
            throw (.notFound ("Produit non trouvé: " ++ item.productName ++ " (ID: "
              ++ item.productId ++ ")"))
        | some product =>
            if product.stock < item.quantity then
              throw (.badRequest ("Stock insuffisant pour " ++ product.name
                ++ ". Stock actuel: " ++ toString product.stock ++ ", Quantité demandée: "
                ++ toString item.quantity) none)
            else do
              let others ← checkItems env tenantId products rest
              pure ({ productId := item.productId, tenantId := tenantId,
                      inc := -item.quantity } :: others)

/-- One `updateOne` of the bulk write: the first product matching the filter gets the
increment. -/
def applyStockUpdate (env : SaleEnv) (products : List Product) (update : StockUpdate) :
    List Product :=
  updateFirst
    (fun p => p.id == env.toObjectId update.productId && p.tenantId == update.tenantId)
    (fun p => { p with stock := p.stock + update.inc }) products

/-- Mongoose `Product.bulkWrite(stockUpdates)`: the updates are applied in order. -/
def Product.bulkWrite (env : SaleEnv) (products : List Product)
    (stockUpdates : List StockUpdate) : List Product :=
  stockUpdates.foldl (applyStockUpdate env) products

/-- The paths the validation of `saleModel` refuses on a sale: `tenantId` and `userId`
are both declared `required: true`. -/
def Sale.invalidPaths (env : SaleEnv) (sale : Sale) : List String :=
  (if sale.tenantId.isNone then ["tenantId"] else [])
    ++ (if sale.userId.isNone then ["userId"] else [])
    ++ env.otherInvalidPaths sale

/-- Mongoose `newSale.save({ session })`: the validation, then the insert. -/
def Sale.save (env : SaleEnv) (sale : Sale) : Except JsError Sale :=
  if Sale.invalidPaths env sale ≠ [] then throw (validationError (Sale.invalidPaths env sale))
  else pure sale

/-- Source `createSale`, in a transaction: the database changes only when the
transaction is committed, and every other way out aborts it. -/
def createSale (env : SaleEnv) (shop : Shop) (user : AuthUser) (body : SaleBody) :
    SaleResponse × Shop :=
  let tenantId := user.tenantId
  let userId := user._id
  if !createSaleSchema.accepts body then
    (.badRequest ("Validation échouée: " ++ env.joiDetail body) none, shop)
  else if env.totalMismatch (body.items.map fun item => item.totalPrice) body.totalAmount then
    (.badRequest "Le montant total fourni ne correspond pas à la somme des articles calculée."
      (some (env.calculatedTotalText (body.items.map fun item => item.totalPrice),
        env.toFixed2 body.totalAmount)), shop)
  else
    match checkItems env tenantId shop.products body.items with
    | .error response => (response, shop)
    | .ok stockUpdates =>
        match Sale.save env
            { tenantId := tenantId, userId := userId, items := body.items,
              totalAmount := body.totalAmount } with
        | .error error => (.passedToNext error, shop)
        | .ok savedSale =>
            (.created savedSale,
              { products :=
                  if stockUpdates.length > 0 then
                    Product.bulkWrite env shop.products stockUpdates
                  else shop.products,
                sales := shop.sales ++ [savedSale] })

/-- Surroundings that accept every id as it is, find no mismatch of the totals and no
other invalid path. -/
def openSaleEnv : SaleEnv :=
  { joiDetail := fun _ => "invalid", isValid := fun _ => true, toObjectId := fun id => id,
    totalMismatch := fun _ _ => false, calculatedTotalText := fun _ => "15.00",
    toFixed2 := fun _ => "15.00", otherInvalidPaths := fun _ => [] }

/-- A shop of one tenant with five units of coffee. -/
def coffeeShop : Shop :=
  { products := [{ id := "64b7f0c2a1d3e4f5a6b7c8d1", tenantId := some "64b7f0c2a1d3e4f5a6b7c8d0",
                   name := "Café", stock := 5 }],
    sales := [] }

/-- A sale of coffee, three units at 2.50. -/
def threeCoffees : SaleItem :=
  { productId := "64b7f0c2a1d3e4f5a6b7c8d1", productName := "Café", quantity := 3,
    unitPrice := { mantissa := 250, exponent := -2 },
    totalPrice := { mantissa := 750, exponent := -2 } }

/-- An authenticated user of the tenant of `coffeeShop`. -/
def cashier : AuthUser :=
  { id := "64b7f0c2a1d3e4f5a6b7c8d2", role := "user", tenantId := some "64b7f0c2a1d3e4f5a6b7c8d0" }

/-- The state an append that failed on an unreachable store leaves, once the store can
be reached again: the conversation exists with an empty message list and the
cache holds the message that never reached the store. -/
def staleCacheWorld : World :=
  { (addMessageToHistory none storeDownWorld 1 "alice" (some "tenantA") "conv1"
      { role := "user", content := "Perdu" }).2 with mongoUp := true }

/-! ## Theorems -/

/-! ### Tenant context -/

theorem resume_ambient {ρ : Type} (c : Cont ρ) (a b : Slot) : resume c a = resume c b := by
  induction c with
  | leaf captured code => rfl
  | frame inner captured k ih => simp only [resume, ih]

theorem exec_inTenant {ρ : Type} (b : Option String) (inner : Fn ρ) (k : ρ → Fn ρ)
    (slot : Slot) :
    exec (.inTenant b inner k) slot
      = afterAwait slot k (exec inner (some { tenantId := b })) := by
  simp only [exec, runInTenantContext, AsyncLocalStorage.run, afterAwait]

theorem resume_frame {ρ : Type} (c : Cont ρ) (captured : Slot) (k : ρ → Fn ρ) (a : Slot) :
    resume (.frame c captured k) a = afterAwait captured k (resume c a) := by
  simp only [resume, afterAwait]

theorem next_after {ρ : Type} (p : List (Option String)) (t : Turn ρ) :
    (t.after p).next = t.next.after p := by
  cases h : t.outcome with
  | finished r => simp [Turn.next, Turn.after, h]
  | suspended c => simp [Turn.next, Turn.after, h, List.append_assoc]

theorem finishesIn_after {ρ : Type} (p : List (Option String)) :
    ∀ (n : Nat) (t : Turn ρ) (r : ρ) (s : List (Option String)),
      FinishesIn n t r s → FinishesIn n (t.after p) r (p ++ s) := by
  intro n
  induction n with
  | zero =>
      intro t r s h
      obtain ⟨h1, h2⟩ := h
      exact ⟨h1, by simp [Turn.after, h2]⟩
  | succ n ih =>
      intro t r s h
      obtain ⟨⟨c, hc⟩, h2⟩ := h
      refine ⟨⟨c, hc⟩, ?_⟩
      rw [next_after]
      exact ih _ _ _ h2

theorem next_afterAwait {ρ : Type} (own : Slot) (k : ρ → Fn ρ) (t : Turn ρ) (c : Cont ρ)
    (hc : t.outcome = .suspended c) :
    (afterAwait own k t).next = afterAwait own k t.next := by
  have e : resume c own = resume c t.slot := resume_ambient c _ _
  cases hr : (resume c t.slot).outcome with
  | finished r =>
      simp [afterAwait, Turn.next, hc, resume_frame, e, hr, List.append_assoc]
  | suspended c2 =>
      simp [afterAwait, Turn.next, hc, resume_frame, e, hr]

theorem finishesIn_afterAwait {ρ : Type} (own : Slot) (k : ρ → Fn ρ) (n : Nat) (r2 : ρ)
    (s2 : List (Option String)) :
    ∀ (m : Nat) (t : Turn ρ) (r : ρ) (s : List (Option String)),
      FinishesIn m t r s → FinishesIn n (exec (k r) own) r2 s2 →
      FinishesIn (m + n) (afterAwait own k t) r2 (s ++ s2) := by
  intro m
  induction m with
  | zero =>
      intro t r s h h2
      obtain ⟨h1, hs⟩ := h
      have e : afterAwait own k t = (exec (k r) own).after s := by
        simp [afterAwait, Turn.after, h1, hs]
      rw [e, Nat.zero_add]
      exact finishesIn_after s n _ _ _ h2
  | succ m ih =>
      intro t r s h h2
      obtain ⟨⟨c, hc⟩, h3⟩ := h
      rw [Nat.succ_add]
      refine ⟨⟨.frame c own k, by simp [afterAwait, hc]⟩, ?_⟩
      rw [next_afterAwait own k t c hc]
      exact ih _ _ _ h3 h2

theorem exec_finishesIn {ρ : Type} (fn : Fn ρ) :
    ∀ slot : Slot,
      FinishesIn (fn.awaits (getCurrentTenantId slot)) (exec fn slot)
        (fn.answer (getCurrentTenantId slot)) (fn.reads (getCurrentTenantId slot)) := by
  induction fn with
  | ret r => intro slot; exact ⟨rfl, rfl⟩
  | getTenant k ih =>
      intro slot
      have h := finishesIn_after [getCurrentTenantId slot] _ _ _ _
        (ih (getCurrentTenantId slot) slot)
      simpa [exec, Turn.after, Fn.awaits, Fn.answer, Fn.reads] using h
  | await k ih =>
      intro slot
      refine ⟨⟨.leaf slot k, rfl⟩, ?_⟩
      have e : (exec (Fn.await k) slot).next = exec k slot := by
        simp [exec, Turn.next, resume]
      rw [e]
      exact ih slot
  | inTenant b inner k ih1 ih2 =>
      intro slot
      rw [exec_inTenant]
      exact finishesIn_afterAwait slot k _ _ _ _ _ _ _
        (ih1 (some { tenantId := b })) (ih2 _ slot)

theorem settle_finished {ρ : Type} (n : Nat) (t : Turn ρ) (r : ρ)
    (h : t.outcome = .finished r) : settle n t = t := by
  induction n with
  | zero => rfl
  | succ n ih =>
      have e : t.next = t := by simp [Turn.next, h]
      simp only [settle, e, ih]

theorem settle_add {ρ : Type} (m n : Nat) :
    ∀ t : Turn ρ, settle (m + n) t = settle n (settle m t) := by
  induction m with
  | zero => intro t; simp [settle]
  | succ m ih => intro t; rw [Nat.succ_add]; exact ih t.next

theorem finishesIn_settle {ρ : Type} :
    ∀ (m : Nat) (t : Turn ρ) (r : ρ) (s : List (Option String)),
      FinishesIn m t r s → (settle m t).outcome = .finished r ∧ (settle m t).seen = s := by
  intro m
  induction m with
  | zero => intro t r s h; exact h
  | succ m ih => intro t r s h; exact ih _ _ _ h.2

theorem finishesIn_settle_le {ρ : Type} (m n : Nat) (t : Turn ρ) (r : ρ)
    (s : List (Option String)) (h : FinishesIn m t r s) (hmn : m ≤ n) :
    (settle n t).outcome = .finished r ∧ (settle n t).seen = s := by
  obtain ⟨j, rfl⟩ := Nat.exists_eq_add_of_le hmn
  have h2 := finishesIn_settle m t r s h
  rw [settle_add, settle_finished j _ r h2.1]
  exact h2

theorem seen_prefix_next {ρ : Type} (t : Turn ρ) : t.seen <+: t.next.seen := by
  cases h : t.outcome with
  | finished r => simp [Turn.next, h]
  | suspended c => simp [Turn.next, h]

theorem finishesIn_prefix {ρ : Type} :
    ∀ (m : Nat) (t : Turn ρ) (r : ρ) (s : List (Option String)),
      FinishesIn m t r s → ∀ n, (settle n t).seen <+: s := by
  intro m
  induction m with
  | zero =>
      intro t r s h n
      rw [settle_finished n t r h.1, h.2]
  | succ m ih =>
      intro t r s h n
      cases n with
      | zero => exact (seen_prefix_next t).trans (ih _ _ _ h.2 0)
      | succ n => exact ih _ _ _ h.2 n

theorem reads_plain {ρ : Type} (t : Option String) (fn : Fn ρ) :
    fn.plain → ∀ v ∈ fn.reads t, v = t := by
  induction fn with
  | ret r => intro _ v hv; simp [Fn.reads] at hv
  | getTenant k ih =>
      intro hp v hv
      simp only [Fn.reads, List.mem_cons] at hv
      rcases hv with rfl | hv
      · rfl
      · exact ih t (hp t) v hv
  | await k ih => intro hp v hv; exact ih hp v hv
  | inTenant b inner k _ _ => intro hp; exact hp.elim

theorem next_agrees {ρ : Type} (a b : Turn ρ) (h : a.agrees b) : a.next.agrees b.next := by
  obtain ⟨ho, hs⟩ := h
  cases hb : b.outcome with
  | finished r =>
      have ha : a.outcome = .finished r := ho.trans hb
      simp [Turn.next, Turn.agrees, ha, hb, hs]
  | suspended c =>
      have ha : a.outcome = .suspended c := ho.trans hb
      simp [Turn.next, Turn.agrees, ha, hb, hs, resume_ambient c a.slot b.slot]

theorem settle_agrees {ρ : Type} (n : Nat) :
    ∀ a b : Turn ρ, a.agrees b → (settle n a).agrees (settle n b) := by
  induction n with
  | zero => intro a b h; exact h
  | succ n ih => intro a b h; exact ih _ _ (next_agrees a b h)

theorem runInTenantContext_agrees {ρ : Type} (t : Option String) (fn : Fn ρ) (slot : Slot) :
    (runInTenantContext t (exec fn) slot).1.agrees (exec fn (some { tenantId := t })) :=
  ⟨rfl, rfl⟩

/-- What `n` turns of a task started by `runInTenantContext(t, fn)` give, stated once
for the tenant context theorems. -/
theorem settle_runInTenantContext {ρ : Type} (t : Option String) (fn : Fn ρ) (slot : Slot) :
    (∀ n, fn.awaits t ≤ n →
        (settle n (runInTenantContext t (exec fn) slot).1).outcome = .finished (fn.answer t)
        ∧ (settle n (runInTenantContext t (exec fn) slot).1).seen = fn.reads t)
    ∧ ∀ n, (settle n (runInTenantContext t (exec fn) slot).1).seen <+: fn.reads t := by
  have hf := exec_finishesIn fn (some { tenantId := t })
  simp only [getCurrentTenantId] at hf
  constructor
  · intro n hn
    have h := settle_agrees n _ _ (runInTenantContext_agrees t fn slot)
    have h2 := finishesIn_settle_le _ n _ _ _ hf hn
    exact ⟨h.1.trans h2.1, h.2.trans h2.2⟩
  · intro n
    have h := settle_agrees n _ _ (runInTenantContext_agrees t fn slot)
    rw [h.2]
    exact finishesIn_prefix _ _ _ _ hf n

theorem agrees_trans {ρ : Type} {a b c : Turn ρ} (h1 : a.agrees b) (h2 : b.agrees c) :
    a.agrees c :=
  ⟨h1.1.trans h2.1, h1.2.trans h2.2⟩

theorem loop_run_agrees {ρ : Type} (schedule : List Bool) :
    ∀ l : Loop ρ,
      (l.run schedule).first.agrees (settle (schedule.count true) l.first)
      ∧ (l.run schedule).second.agrees (settle (schedule.count false) l.second) := by
  induction schedule with
  | nil => intro l; exact ⟨⟨rfl, rfl⟩, ⟨rfl, rfl⟩⟩
  | cons b rest ih =>
      intro l
      have h := ih (l.step b)
      cases b with
      | true =>
          have e : (Loop.step l true).first.agrees l.first.next := by
            simpa [Loop.step] using next_agrees ⟨l.first.outcome, l.first.seen, l.slot⟩
              l.first ⟨rfl, rfl⟩
          refine ⟨?_, ?_⟩
          · have h1 := agrees_trans h.1 (settle_agrees (rest.count true) _ _ e)
            simpa [Loop.run, settle] using h1
          · simpa [Loop.run, Loop.step] using h.2
      | false =>
          have e : (Loop.step l false).second.agrees l.second.next := by
            simpa [Loop.step] using next_agrees ⟨l.second.outcome, l.second.seen, l.slot⟩
              l.second ⟨rfl, rfl⟩
          refine ⟨?_, ?_⟩
          · simpa [Loop.run, Loop.step] using h.1
          · have h1 := agrees_trans h.2 (settle_agrees (rest.count false) _ _ e)
            simpa [Loop.run, settle] using h1

/-- C1: `runInTenantContext(t, fn)` runs `fn` so that every `getCurrentTenantId()` call
of `fn`, also after any number of asynchronous suspensions, returns `t`, and once `fn`
has been resumed after each of its suspensions the call yields the result of `fn`. -/
theorem runInTenantContext_binds_tenant {ρ : Type} (t : Option String) (fn : Fn ρ)
    (slot : Slot) :
    (∀ n, fn.awaits t ≤ n →
        (settle n (runInTenantContext t (exec fn) slot).1).outcome = .finished (fn.answer t))
    ∧ (fn.plain →
        ∀ n, ∀ v ∈ (settle n (runInTenantContext t (exec fn) slot).1).seen, v = t)
    ∧ (settle (fn.awaits t) (runInTenantContext t (exec fn) slot).1).seen = fn.reads t := by
  have h := settle_runInTenantContext t fn slot
  refine ⟨fun n hn => (h.1 n hn).1, ?_, (h.1 _ (Nat.le_refl _)).2⟩
  intro hp n v hv
  exact reads_plain t fn hp v ((h.2 n).subset hv)

/-- Witness for C1: a callback that reads the tenant id, suspends, reads it again and
returns both readings, run for tenant `acme`. -/
theorem runInTenantContext_binds_tenant_witness :
    (settle 1 (runInTenantContext (some "acme")
        (exec (Fn.getTenant fun x => Fn.await (Fn.getTenant fun y => Fn.ret [x, y])))
        none).1).outcome = .finished [some "acme", some "acme"]
    ∧ (∀ n, ∀ v ∈ (settle n (runInTenantContext (some "acme")
        (exec (Fn.getTenant fun x => Fn.await (Fn.getTenant fun y => Fn.ret [x, y])))
        none).1).seen, v = some "acme")
    ∧ (settle 1 (runInTenantContext (some "acme")
        (exec (Fn.getTenant fun x => Fn.await (Fn.getTenant fun y => Fn.ret [x, y])))
        none).1).seen = [some "acme", some "acme"] :=
  ⟨(runInTenantContext_binds_tenant (some "acme")
      (Fn.getTenant fun x => Fn.await (Fn.getTenant fun y => Fn.ret [x, y])) none).1 1
      (by simp [Fn.awaits]),
   (runInTenantContext_binds_tenant (some "acme")
      (Fn.getTenant fun x => Fn.await (Fn.getTenant fun y => Fn.ret [x, y])) none).2.1
      (by simp [Fn.plain]),
   (runInTenantContext_binds_tenant (some "acme")
      (Fn.getTenant fun x => Fn.await (Fn.getTenant fun y => Fn.ret [x, y])) none).2.2⟩

/-- C2: inside `runInTenantContext(a, ...)` a nested `runInTenantContext(b, inner)`
makes `getCurrentTenantId()` return `b` for the calls of `inner` only; the calls the
outer callback makes after the inner call has returned get `a` again. -/
theorem nested_context_shadows_then_restores {ρ : Type} (a b : Option String)
    (inner : Fn ρ) (k : ρ → Fn ρ) (slot : Slot)
    (hin : inner.plain) (hk : ∀ r, (k r).plain) :
    (settle (inner.awaits b + (k (inner.answer b)).awaits a)
        (runInTenantContext a (exec (.inTenant b inner k)) slot).1).outcome
      = .finished ((k (inner.answer b)).answer a)
    ∧ (settle (inner.awaits b + (k (inner.answer b)).awaits a)
        (runInTenantContext a (exec (.inTenant b inner k)) slot).1).seen
      = List.replicate (inner.reads b).length b
          ++ List.replicate ((k (inner.answer b)).reads a).length a := by
  have h := (settle_runInTenantContext a (.inTenant b inner k) slot).1
    (inner.awaits b + (k (inner.answer b)).awaits a) (Nat.le_refl _)
  refine ⟨h.1, ?_⟩
  have e1 : inner.reads b = List.replicate (inner.reads b).length b :=
    List.eq_replicate_iff.mpr ⟨rfl, reads_plain b inner hin⟩
  have e2 : (k (inner.answer b)).reads a
      = List.replicate ((k (inner.answer b)).reads a).length a :=
    List.eq_replicate_iff.mpr ⟨rfl, reads_plain a _ (hk _)⟩
  rw [h.2]
  simp only [Fn.reads]
  rw [← e1, ← e2]

/-- Witness for C2: the nested scenario of `tests/tenantIsolation.js` (test 2), the
inner callback suspending once before it reads the tenant id. -/
theorem nested_context_shadows_then_restores_witness :
    (settle 1 (runInTenantContext (some "tenant1")
        (exec (Fn.inTenant (some "tenant2")
          (Fn.await (Fn.getTenant fun v => Fn.ret [v]))
          (fun r => Fn.getTenant fun v => Fn.ret (r ++ [v]))))
        none).1).outcome = .finished [some "tenant2", some "tenant1"]
    ∧ (settle 1 (runInTenantContext (some "tenant1")
        (exec (Fn.inTenant (some "tenant2")
          (Fn.await (Fn.getTenant fun v => Fn.ret [v]))
          (fun r => Fn.getTenant fun v => Fn.ret (r ++ [v]))))
        none).1).seen = [some "tenant2", some "tenant1"] :=
  nested_context_shadows_then_restores (some "tenant1") (some "tenant2")
    (Fn.await (Fn.getTenant fun v => Fn.ret [v]))
    (fun r => Fn.getTenant fun v => Fn.ret (r ++ [v])) none
    (by simp [Fn.plain]) (by simp [Fn.plain])

/-- C3: outside every `runInTenantContext` scope `getCurrentTenantId()` returns `null`
(no exception): with no store at all, in the caller right after a
`runInTenantContext` call has returned, and in top-level code that awaited a whole
tenant scope before asking. -/
theorem getCurrentTenantId_outside_context (t : Option String) (fn : Fn (Option String)) :
    getCurrentTenantId none = none
    ∧ getCurrentTenantId (runInTenantContext t (exec fn) none).2 = none
    ∧ (settle (fn.awaits t)
        (exec (.inTenant t fn fun _ => .getTenant .ret) none)).outcome = .finished none := by
  refine ⟨rfl, rfl, ?_⟩
  have h := exec_finishesIn (Fn.inTenant t fn fun _ => Fn.getTenant Fn.ret) none
  have h2 := finishesIn_settle _ _ _ _ h
  simpa [getCurrentTenantId, Fn.awaits, Fn.answer] using h2.1

/-- C4: two `runInTenantContext` calls started together, for tenant ids `t1` and `t2`,
whose callbacks suspend and are resumed in any interleaving: each task only ever sees
its own tenant id, and each finishes with its own result once it has had its turns,
whichever task finishes first. -/
theorem concurrent_contexts_isolated {ρ : Type} (t1 t2 : Option String) (fn1 fn2 : Fn ρ)
    (slot : Slot) (schedule : List Bool) :
    (fn1.plain → ∀ v ∈ ((startBoth t1 fn1 t2 fn2 slot).run schedule).first.seen, v = t1)
    ∧ (fn2.plain → ∀ v ∈ ((startBoth t1 fn1 t2 fn2 slot).run schedule).second.seen, v = t2)
    ∧ (fn1.awaits t1 ≤ schedule.count true →
        ((startBoth t1 fn1 t2 fn2 slot).run schedule).first.outcome
          = .finished (fn1.answer t1))
    ∧ (fn2.awaits t2 ≤ schedule.count false →
        ((startBoth t1 fn1 t2 fn2 slot).run schedule).second.outcome
          = .finished (fn2.answer t2)) := by
  have hl := loop_run_agrees schedule (startBoth t1 fn1 t2 fn2 slot)
  have h1 := settle_runInTenantContext t1 fn1 slot
  have h2 := settle_runInTenantContext t2 fn2 (runInTenantContext t1 (exec fn1) slot).2
  refine ⟨?_, ?_, ?_, ?_⟩
  · intro hp v hv
    rw [hl.1.2] at hv
    exact reads_plain t1 fn1 hp v ((h1.2 _).subset hv)
  · intro hp v hv
    rw [hl.2.2] at hv
    exact reads_plain t2 fn2 hp v ((h2.2 _).subset hv)
  · intro hn
    rw [hl.1.1]
    exact (h1.1 _ hn).1
  · intro hn
    rw [hl.2.1]
    exact (h2.1 _ hn).1

/-- Witness for C4: the parallel scenario of `tests/tenantIsolation.js` (test 3); the
second task (the shorter timer) is resumed first. -/
theorem concurrent_contexts_isolated_witness :
    (∀ v ∈ ((startBoth (some "tenant1") (Fn.await (Fn.getTenant fun v => Fn.ret v))
        (some "tenant2") (Fn.await (Fn.getTenant fun v => Fn.ret v)) none).run
        [false, true]).first.seen, v = some "tenant1")
    ∧ (∀ v ∈ ((startBoth (some "tenant1") (Fn.await (Fn.getTenant fun v => Fn.ret v))
        (some "tenant2") (Fn.await (Fn.getTenant fun v => Fn.ret v)) none).run
        [false, true]).second.seen, v = some "tenant2")
    ∧ ((startBoth (some "tenant1") (Fn.await (Fn.getTenant fun v => Fn.ret v))
        (some "tenant2") (Fn.await (Fn.getTenant fun v => Fn.ret v)) none).run
        [false, true]).first.outcome = .finished (some "tenant1")
    ∧ ((startBoth (some "tenant1") (Fn.await (Fn.getTenant fun v => Fn.ret v))
        (some "tenant2") (Fn.await (Fn.getTenant fun v => Fn.ret v)) none).run
        [false, true]).second.outcome = .finished (some "tenant2") :=
  ⟨(concurrent_contexts_isolated (some "tenant1") (some "tenant2")
      (Fn.await (Fn.getTenant fun v => Fn.ret v))
      (Fn.await (Fn.getTenant fun v => Fn.ret v)) none [false, true]).1
      (by simp [Fn.plain]),
   (concurrent_contexts_isolated (some "tenant1") (some "tenant2")
      (Fn.await (Fn.getTenant fun v => Fn.ret v))
      (Fn.await (Fn.getTenant fun v => Fn.ret v)) none [false, true]).2.1
      (by simp [Fn.plain]),
   (concurrent_contexts_isolated (some "tenant1") (some "tenant2")
      (Fn.await (Fn.getTenant fun v => Fn.ret v))
      (Fn.await (Fn.getTenant fun v => Fn.ret v)) none [false, true]).2.2.1
      (by simp [Fn.awaits]),
   (concurrent_contexts_isolated (some "tenant1") (some "tenant2")
      (Fn.await (Fn.getTenant fun v => Fn.ret v))
      (Fn.await (Fn.getTenant fun v => Fn.ret v)) none [false, true]).2.2.2
      (by simp [Fn.awaits])⟩

/-! ### Conversation store -/

/-- C5 (the code at the failing input): tenant A creates a conversation and appends a
message to it; `getConversationHistory` run by another user under tenant B with that
conversation's id returns the message, because `Conversation.findById` runs no tenant
hook. The same lookup on a schema with `tenantPlugin` applied finds nothing. -/
theorem getConversationHistory_crosses_tenants :
    (getConversationHistory (some { tenantId := some "tenantB" })
        (addMessageToHistory none
          (createConversation none
            { redis := { up := true, entries := [] }, mongoUp := true, conversations := [] }
            0 "conv1" "alice" (some "tenantA") none).2
          1 "alice" (some "tenantA") "conv1" { role := "user", content := "secret" }).2
        "bob" "conv1").1
      = [{ role := "user", content := "secret" }]
    ∧ Model.findById (tenantPlugin conversationSchema) (some { tenantId := some "tenantB" })
        (addMessageToHistory none
          (createConversation none
            { redis := { up := true, entries := [] }, mongoUp := true, conversations := [] }
            0 "conv1" "alice" (some "tenantA") none).2
          1 "alice" (some "tenantA") "conv1" { role := "user", content := "secret" }).2
        "conv1"
      = .ok none := by
  constructor <;> rfl

/-! ### Tenant guard -/

theorem truthy_some {t : String} (h : t ≠ "") : truthy (some t) = true := by
  simp [truthy, h]

theorem guard_active {q : Query} (h1 : q.tenantRequired ≠ some false)
    (h2 : q.skipTenantFilter = false) :
    (q.tenantRequired != some false && !q.skipTenantFilter) = true := by
  simp [h1, h2]

theorem matches_whereEq {δ : Type} (field : δ → String → Option String) (q : Query)
    (name : String) (value : Option String) (d : δ)
    (h : (q.whereEq name value).matches field d = true) : field d name = value := by
  simp only [Query.matches, Query.whereEq, List.all_cons, Bool.and_eq_true] at h
  simpa using h.1

theorem whereEq_keeps_skip (wheres : List (String × Option String)) :
    ∀ q : Query, q.skipTenantFilter = true →
      (wheres.foldl (fun q c => q.whereEq c.1 c.2) q).skipTenantFilter = true := by
  induction wheres with
  | nil => intro q h; exact h
  | cons c rest ih => intro q h; exact ih _ (by simpa [Query.whereEq] using h)

/-- C6: on a `find` / `findOne` of a guarded model, when `getCurrentTenantId()` yields a
tenant id `t` the hook adds `tenantId = t` to the filter, so every document the
executed query returns belongs to `t`; with no tenant id the query is left as it is;
and a query built by `skipTenantFilter()`, whatever is chained onto it, is never
narrowed. -/
theorem tenant_guard_scopes_reads {δ : Type} (field : δ → String → Option String)
    (slot : Slot) (q : Query) :
    (∀ t, getCurrentTenantId slot = some t → t ≠ "" →
        q.tenantRequired ≠ some false → q.skipTenantFilter = false →
        tenantPlugin.preFind slot q = q.whereEq "tenantId" (some t)
        ∧ tenantPlugin.preFindOne slot q = q.whereEq "tenantId" (some t)
        ∧ (∀ docs d, d ∈ (tenantPlugin conversationSchema).execFind field slot docs q →
            field d "tenantId" = some t)
        ∧ (∀ docs d, (tenantPlugin conversationSchema).execFindOne field slot docs q = some d →
            field d "tenantId" = some t))
    ∧ (truthy (getCurrentTenantId slot) = false →
        tenantPlugin.preFind slot q = q ∧ tenantPlugin.preFindOne slot q = q)
    ∧ (∀ (tenantRequired : Option Bool) (wheres : List (String × Option String)),
        tenantPlugin.preFind slot
            (wheres.foldl (fun q c => q.whereEq c.1 c.2)
              (tenantPlugin.skipTenantFilter tenantRequired))
          = wheres.foldl (fun q c => q.whereEq c.1 c.2)
              (tenantPlugin.skipTenantFilter tenantRequired)
        ∧ tenantPlugin.preFindOne slot
            (wheres.foldl (fun q c => q.whereEq c.1 c.2)
              (tenantPlugin.skipTenantFilter tenantRequired))
          = wheres.foldl (fun q c => q.whereEq c.1 c.2)
              (tenantPlugin.skipTenantFilter tenantRequired)) := by
  refine ⟨?_, ?_, ?_⟩
  · intro t ht hne hreq hskip
    have e1 : tenantPlugin.preFind slot q = q.whereEq "tenantId" (some t) := by
      simp [tenantPlugin.preFind, guard_active hreq hskip, ht, truthy_some hne]
    have e2 : tenantPlugin.preFindOne slot q = q.whereEq "tenantId" (some t) := by
      simp [tenantPlugin.preFindOne, guard_active hreq hskip, ht, truthy_some hne]
    refine ⟨e1, e2, ?_, ?_⟩
    · intro docs d hd
      simp only [Schema.execFind, tenantPlugin, conversationSchema, List.nil_append,
        List.foldl_cons, List.foldl_nil, e1, List.mem_filter] at hd
      exact matches_whereEq field q _ _ d hd.2
    · intro docs d hd
      simp only [Schema.execFindOne, tenantPlugin, conversationSchema, List.nil_append,
        List.foldl_cons, List.foldl_nil, e2] at hd
      exact matches_whereEq field q _ _ d (List.find?_some hd)
  · intro hf
    constructor
    · simp [tenantPlugin.preFind, hf]
    · simp [tenantPlugin.preFindOne, hf]
  · intro tenantRequired wheres
    have hs := whereEq_keeps_skip wheres (tenantPlugin.skipTenantFilter tenantRequired) rfl
    constructor
    · simp [tenantPlugin.preFind, hs]
    · simp [tenantPlugin.preFindOne, hs]

/-- Witness for C6: a `find` by title under tenant `acme` only returns documents of
`acme`, and the hook leaves the query alone when there is no store. -/
theorem tenant_guard_scopes_reads_witness :
    (tenantPlugin.preFind (some { tenantId := some "acme" })
        { conditions := [("title", some "Budget")], update := none,
          skipTenantFilter := false, tenantRequired := none }).conditions
      = [("tenantId", some "acme"), ("title", some "Budget")]
    ∧ tenantPlugin.preFind none
        { conditions := [("title", some "Budget")], update := none,
          skipTenantFilter := false, tenantRequired := none }
      = { conditions := [("title", some "Budget")], update := none,
          skipTenantFilter := false, tenantRequired := none } :=
  ⟨congrArg Query.conditions
      ((tenant_guard_scopes_reads Conversation.field (some { tenantId := some "acme" })
        { conditions := [("title", some "Budget")], update := none,
          skipTenantFilter := false, tenantRequired := none }).1 "acme" rfl (by decide)
        (by decide) rfl).1,
   ((tenant_guard_scopes_reads Conversation.field none
        { conditions := [("title", some "Budget")], update := none,
          skipTenantFilter := false, tenantRequired := none }).2.1 rfl).1⟩

/-- The save hook of `tenantPlugin`, run on its own: a document without tenant id on a
model that does not opt out is refused with a plain `Error`. -/
theorem tenantPlugin_preSave_not_ValidationError :
    tenantPlugin.preSave { tenantId := none, tenantRequired := none }
      = .error { name := "Error", message := "tenantId est requis" }
    ∧ ¬ ∃ e, tenantPlugin.preSave { tenantId := none, tenantRequired := none } = .error e
        ∧ e.name = "ValidationError" := by
  refine ⟨rfl, ?_⟩
  rintro ⟨e, he, hn⟩
  have h : e = { name := "Error", message := "tenantId est requis" } := by
    have : (Except.error e : Except JsError Unit)
        = .error { name := "Error", message := "tenantId est requis" } := he.symm.trans rfl
    exact Except.error.inj this
  rw [h] at hn
  exact absurd hn (by decide)

/-- The save hook of `tenantPlugin`, run on its own: it fails exactly when the document
has no (truthy) tenant id and its model does not set `tenantRequired` to `false`. -/
theorem tenantPlugin_preSave_rejects_iff (doc : TenantDoc) :
    (tenantPlugin.preSave doc = .error (newError "tenantId est requis")
        ↔ (truthy doc.tenantId = false ∧ doc.tenantRequired ≠ some false))
    ∧ (tenantPlugin.preSave doc = .ok ()
        ↔ ¬ (truthy doc.tenantId = false ∧ doc.tenantRequired ≠ some false)) := by
  by_cases h1 : truthy doc.tenantId = true <;> by_cases h2 : doc.tenantRequired = some false
    <;> simp [tenantPlugin.preSave, h1, h2, throw, throwThe, MonadExceptOf.throw, pure,
      Except.pure]

theorem invalidPaths_tenantId (type : EntityType) (doc : Entity) :
    "tenantId" ∈ doc.invalidPaths type
      ↔ (doc.tenantId = none ∧ type.tenantIdRequired = true) := by
  unfold Entity.invalidPaths
  cases hr : type.tenantIdRequired <;> cases ht : doc.tenantId <;> simp

theorem invalidPaths_of_guard_ok (type : EntityType) (doc : Entity)
    (h : ¬ (doc.tenantId = none ∧ type.tenantIdRequired = true))
    (hother : doc.otherInvalidPaths = []) : doc.invalidPaths type = [] := by
  unfold Entity.invalidPaths
  cases hr : type.tenantIdRequired <;> cases ht : doc.tenantId <;> simp_all

/-- The save hooks all pass on a document that each of them accepts. -/
theorem runSaveHooks_ok (hooks : List (TenantDoc → Except JsError Unit)) (doc : TenantDoc)
    (h : ∀ hook ∈ hooks, hook doc = .ok ()) : runSaveHooks hooks doc = .ok () := by
  unfold runSaveHooks
  induction hooks with
  | nil => rfl
  | cons hook rest ih =>
      have h1 := h hook (List.mem_cons_self _ _)
      simp only [List.foldl_cons, Except.bind, h1]
      exact ih (fun k hk => h k (List.mem_cons_of_mem _ hk))

/-- C7: saving a tenant-scoped document fails with a `ValidationError` on the path
`tenantId` exactly when the document holds no tenant id and the schema of its model
requires one; otherwise the tenant guard lets the save proceed: `tenantId` is not among
the refused paths and the outcome is that of the other paths and of the insert. This
holds for the models of the repository, whose only save hook (on the user model) does
not read the tenant id, and also with the save hook of `tenantPlugin` registered on a
schema that requires `tenantId` or on a model that sets `tenantRequired` to `false`,
because the validation runs before the hooks. A tenant id is the text of an ObjectId,
which is never empty, and the hooks other than the one of `tenantPlugin` are taken to
pass. -/
theorem save_fails_exactly_without_required_tenantId (type : EntityType) (up : Bool)
    (doc : Entity) (hid : doc.tenantId ≠ some "")
    (hhooks : ∀ hook ∈ type.schema.preSave,
      (∀ d, hook d = .ok ())
        ∨ (hook = tenantPlugin.preSave
            ∧ (type.tenantIdRequired = true ∨ type.tenantRequired = some false))) :
    ("tenantId" ∈ doc.invalidPaths type
        ↔ (doc.tenantId = none ∧ type.tenantIdRequired = true))
    ∧ (doc.tenantId = none ∧ type.tenantIdRequired = true →
        Entity.save type up doc = .error (validationError (doc.invalidPaths type))
        ∧ (validationError (doc.invalidPaths type)).name = "ValidationError")
    ∧ (¬ (doc.tenantId = none ∧ type.tenantIdRequired = true) →
        Entity.save type up doc =
          if doc.otherInvalidPaths.filter (fun path => path != "tenantId") = [] then
            (if up then .ok () else .error mongoUnavailable)
          else
            .error (validationError
              (doc.otherInvalidPaths.filter (fun path => path != "tenantId")))) := by
  refine ⟨invalidPaths_tenantId type doc, ?_, ?_⟩
  · intro h
    have hmem := (invalidPaths_tenantId type doc).2 h
    have hne : doc.invalidPaths type ≠ [] := by
      intro hnil
      rw [hnil] at hmem
      exact absurd hmem (by simp)
    exact ⟨by simp [Entity.save, hne, throw, throwThe, MonadExceptOf.throw], rfl⟩
  · intro h
    have hpaths : doc.invalidPaths type
        = doc.otherInvalidPaths.filter (fun path => path != "tenantId") := by
      unfold Entity.invalidPaths
      cases hr : type.tenantIdRequired <;> cases ht : doc.tenantId <;> simp_all
    by_cases hother : doc.otherInvalidPaths.filter (fun path => path != "tenantId") = []
    · rw [if_pos hother]
      have hrun : runSaveHooks type.schema.preSave
          { tenantId := doc.tenantId, tenantRequired := type.tenantRequired } = .ok () := by
        apply runSaveHooks_ok
        intro hook hmem
        rcases hhooks hook hmem with hall | ⟨hplugin, hreq⟩
        · exact hall _
        · rw [hplugin]
          apply (tenantPlugin_preSave_rejects_iff _).2.2
          rintro ⟨ht, hr⟩
          rcases hreq with hreq | hreq
          · cases hd : doc.tenantId with
            | none => exact h ⟨hd, hreq⟩
            | some v =>
                rw [hd] at hid
                have hv : v ≠ "" := fun e => hid (by rw [e])
                simp [hd, truthy, hv] at ht
          · exact hr hreq
      simp only [Entity.save, hpaths, hother, ne_eq, not_true_eq_false, if_false, hrun]
      cases up <;> rfl
    · rw [if_neg hother]
      simp [Entity.save, hpaths, hother, throw, throwThe, MonadExceptOf.throw]

/-- Witness for C7: a document of a model of the repository without tenant id is refused
with a `ValidationError`, the same document with a tenant id is saved, and so it is with
the save hook of `tenantPlugin` registered on the schema. -/
theorem save_fails_exactly_without_required_tenantId_witness :
    Entity.save tenantScopedModel true { tenantId := none, otherInvalidPaths := [] }
      = .error { name := "ValidationError", message := "Validation failed: tenantId" }
    ∧ Entity.save tenantScopedModel true
        { tenantId := some "64b7f0c2a1d3e4f5a6b7c8d9", otherInvalidPaths := [] } = .ok ()
    ∧ Entity.save { tenantScopedModel with schema := tenantPlugin tenantScopedModel.schema }
        true { tenantId := some "64b7f0c2a1d3e4f5a6b7c8d9", otherInvalidPaths := [] }
      = .ok () :=
  ⟨((save_fails_exactly_without_required_tenantId tenantScopedModel true
      { tenantId := none, otherInvalidPaths := [] } (by decide)
      (fun _ hmem => absurd hmem (List.not_mem_nil _))).2.1 ⟨rfl, rfl⟩).1,
   (save_fails_exactly_without_required_tenantId tenantScopedModel true
      { tenantId := some "64b7f0c2a1d3e4f5a6b7c8d9", otherInvalidPaths := [] } (by decide)
      (fun _ hmem => absurd hmem (List.not_mem_nil _))).2.2 (by decide),
   (save_fails_exactly_without_required_tenantId
      { tenantScopedModel with schema := tenantPlugin tenantScopedModel.schema } true
      { tenantId := some "64b7f0c2a1d3e4f5a6b7c8d9", otherInvalidPaths := [] } (by decide)
      (fun hook hmem => Or.inr ⟨by
        simpa [tenantPlugin, tenantScopedModel] using hmem, Or.inl rfl⟩)).2.2 (by decide)⟩

/-- C8 (as stated, refuted): under tenant `A`, an update whose `$set` operator moves
the document to tenant `B` passes the hook without any error; and when the plain
field form is used the hook does fail, but with a plain `Error`, not an
`AuthorizationError`. -/
theorem tenantPlugin_preUpdateOne_misses_set :
    Update.setsTenantId [("$set", .obj [("tenantId", some "B")])] = some (some "B")
    ∧ tenantPlugin.preUpdateOne (some { tenantId := some "A" })
        { conditions := [("_id", some "x")],
          update := some [("$set", .obj [("tenantId", some "B")])],
          skipTenantFilter := false, tenantRequired := none }
      = .ok { conditions := [("tenantId", some "A"), ("_id", some "x")],
              update := some [("$set", .obj [("tenantId", some "B")])],
              skipTenantFilter := false, tenantRequired := none }
    ∧ tenantPlugin.preUpdateOne (some { tenantId := some "A" })
        { conditions := [("_id", some "x")],
          update := some [("tenantId", .val (some "B"))],
          skipTenantFilter := false, tenantRequired := none }
      = .error { name := "Error", message := "Modification du tenantId non autorisée" }
    ∧ (newError "Modification du tenantId non autorisée").name ≠ "AuthorizationError" := by
  refine ⟨rfl, rfl, rfl, by decide⟩

/-- C8 (amended): on an `updateOne` of a guarded model under ambient tenant id `t`, the
hook fails with the plain error `Modification du tenantId non autorisée` whenever the
payload has a plain top-level `tenantId` field with a non-empty value other than `t`;
it raises no other error; and whenever it lets the update proceed, in particular
when the payload does not touch the tenant id or sets it to `t`, the filter has been
given `tenantId = t`. -/
theorem tenantPlugin_preUpdateOne_guards_plain_field (slot : Slot) (q : Query) (t : String)
    (ht : getCurrentTenantId slot = some t) (hne : t ≠ "")
    (hreq : q.tenantRequired ≠ some false) (hskip : q.skipTenantFilter = false) :
    (∀ u v, q.update = some u → u.lookup "tenantId" = some (.val (some v)) → v ≠ "" →
        v ≠ t →
        tenantPlugin.preUpdateOne slot q
          = .error (newError "Modification du tenantId non autorisée"))
    ∧ (∀ e, tenantPlugin.preUpdateOne slot q = .error e →
        e = newError "Modification du tenantId non autorisée")
    ∧ (∀ q2, tenantPlugin.preUpdateOne slot q = .ok q2 →
        q2 = q.whereEq "tenantId" (some t))
    ∧ (q.update = none → tenantPlugin.preUpdateOne slot q = .ok (q.whereEq "tenantId" (some t)))
    ∧ (∀ u, q.update = some u →
        (u.lookup "tenantId" = some (.val (some t))
          ∨ (u.lookup "tenantId" = none ∧ Update.setsTenantId u = none)) →
        tenantPlugin.preUpdateOne slot q = .ok (q.whereEq "tenantId" (some t))) := by
  have hg := guard_active hreq hskip
  have htr := truthy_some hne
  have hu : (q.whereEq "tenantId" (some t)).update = q.update := rfl
  refine ⟨?_, ?_, ?_, ?_, ?_⟩
  · intro u v hq hl hv hvt
    simp only [tenantPlugin.preUpdateOne, hg, ht, htr, hu, hq, hl, if_true]
    simp [UpdateValue.truthy, UpdateValue.strictNe, truthy, hv, hvt, throw, throwThe,
      MonadExceptOf.throw]
  · intro e he
    simp only [tenantPlugin.preUpdateOne, hg, ht, htr, hu, if_true] at he
    cases hq : q.update with
    | none => simp [hq, pure, Except.pure] at he
    | some u =>
        simp only [hq] at he
        split at he
        · exact (Except.error.inj he).symm
        · simp [pure, Except.pure] at he
  · intro q2 he
    simp only [tenantPlugin.preUpdateOne, hg, ht, htr, hu, if_true] at he
    cases hq : q.update with
    | none => simpa [hq, pure, Except.pure] using he.symm
    | some u =>
        simp only [hq] at he
        split at he
        · simp [throw, throwThe, MonadExceptOf.throw] at he
        · simpa [pure, Except.pure] using he.symm
  · intro hq
    simp only [tenantPlugin.preUpdateOne, hg, ht, htr, hu, hq, if_true]
    rfl
  · intro u hq h
    simp only [tenantPlugin.preUpdateOne, hg, ht, htr, hu, hq, if_true]
    rcases h with h | ⟨h, _⟩
    · simp [h, UpdateValue.truthy, UpdateValue.strictNe, pure, Except.pure]
    · simp [h, UpdateValue.truthy, pure, Except.pure]

/-- Witness for C8 (amended): under tenant `A` an update with the plain field
`tenantId: "B"` is refused. -/
theorem tenantPlugin_preUpdateOne_guards_plain_field_witness :
    tenantPlugin.preUpdateOne (some { tenantId := some "A" })
        { conditions := [("_id", some "x")],
          update := some [("tenantId", .val (some "B"))],
          skipTenantFilter := false, tenantRequired := none }
      = .error (newError "Modification du tenantId non autorisée") :=
  (tenantPlugin_preUpdateOne_guards_plain_field (some { tenantId := some "A" })
      { conditions := [("_id", some "x")],
        update := some [("tenantId", .val (some "B"))],
        skipTenantFilter := false, tenantRequired := none }
      "A" rfl (by decide) (by decide) rfl).1
    [("tenantId", .val (some "B"))] "B" rfl rfl (by decide) (by decide)

/-! ### Intent routing -/

theorem mapIntention_mem (ops : StringOps) (response : String) :
    mapIntention ops response ∈ intentionLabels := by
  simp only [mapIntention, intentionLabels]
  split_ifs <;> simp

theorem includesChars_iff (needle : List Char) :
    ∀ hay : List Char, includesChars hay needle = true ↔ needle <:+: hay := by
  intro hay
  induction hay with
  | nil => simp [includesChars]
  | cons c cs ih =>
      simp only [includesChars, Bool.or_eq_true, ih, List.infix_cons_iff,
        List.isPrefixOf_iff_prefix]

/-- C9: for every message and history and every behaviour of the completion call (it
throws, or resolves to a string of any content and length, or to a value that is not a
string), `determineIntention` does not throw and returns one of the six labels. -/
theorem determineIntention_total (ops : StringOps)
    (generateChatResponse : List Message → Except JsError JsValue)
    (message : String) (history : List Message) :
    ∃ label, label ∈ intentionLabels
      ∧ determineIntention ops generateChatResponse message history = .ok label := by
  have hf : "fallback" ∈ intentionLabels := by decide
  unfold determineIntention
  cases h : generateChatResponse [{ role := "user", content := intentionPrompt message }] with
  | error e =>
      exact ⟨"fallback", hf, by
        simp [tryCatch, tryCatchThe, MonadExceptOf.tryCatch, Except.tryCatch, bind,
          Except.bind, h, pure, Except.pure]⟩
  | ok v =>
      cases v with
      | str text =>
          exact ⟨mapIntention ops text, mapIntention_mem ops text, by
            simp [tryCatch, tryCatchThe, MonadExceptOf.tryCatch, Except.tryCatch, bind,
              Except.bind, h, pure, Except.pure]⟩
      | _ =>
          exact ⟨"fallback", hf, by
            simp [tryCatch, tryCatchThe, MonadExceptOf.tryCatch, Except.tryCatch, bind,
              Except.bind, h, pure, Except.pure, throw, throwThe, MonadExceptOf.throw]⟩

/-- C10: the label-mapping step is a function of the raw output alone: it is the first
of comptable, business, marketing, rh, info whose name occurs as a substring of the
lower-cased, trimmed output; an output in which none of them occurs (such as `autre`)
maps to `fallback`; and an output equal to a label name once lower-cased and trimmed
maps to that label. -/
theorem mapIntention_first_match (ops : StringOps) (response : String) :
    mapIntention ops response = mapIntentionSpec ops response
    ∧ (∀ s needle : String, includes s needle = true ↔ needle.toList <:+: s.toList)
    ∧ ((∀ label ∈ ["comptable", "business", "marketing", "rh", "info"],
          includes (ops.trim (ops.toLowerCase response)) label = false) →
        mapIntention ops response = "fallback")
    ∧ (∀ label ∈ intentionLabels, ops.trim (ops.toLowerCase response) = label →
        mapIntention ops response = label)
    ∧ mapIntention asciiOps "autre" = "fallback" := by
  refine ⟨?_, ?_, ?_, ?_, by decide⟩
  · simp only [mapIntention, mapIntentionSpec, List.find?]
    split_ifs <;> simp_all
  · intro s needle
    exact includesChars_iff needle.toList s.toList
  · intro h
    simp only [List.mem_cons, List.mem_singleton, List.not_mem_nil, or_false,
      forall_eq_or_imp, forall_eq] at h
    simp [mapIntention, h.1, h.2.1, h.2.2.1, h.2.2.2.1, h.2.2.2.2]
  · intro label hl hn
    simp only [intentionLabels, List.mem_cons, List.mem_singleton, List.not_mem_nil,
      or_false] at hl
    rcases hl with rfl | rfl | rfl | rfl | rfl | rfl <;>
      (simp only [mapIntention, hn]; decide)

/-- Witness for C10: the output `  RH` followed by a newline, lower-cased and trimmed
with the ASCII string methods, is the label name `rh` and maps to `rh`. -/
theorem mapIntention_first_match_witness : mapIntention asciiOps "  RH\n" = "rh" :=
  (mapIntention_first_match asciiOps "  RH\n").2.2.2.1 "rh" (by decide) (by decide)

/-! ### Conversation history: cache and store -/

theorem findById_eq (slot : Slot) (w : World) (id : String) :
    Conversation.findById slot w id
      = if w.mongoUp then .ok (w.conversations.find? (fun c => c.id == id))
        else .error mongoUnavailable := by
  have e : (fun c : Conversation =>
      Query.matches Conversation.field
        { conditions := [("_id", some id)], update := none, skipTenantFilter := false,
          tenantRequired := none } c) = fun c => c.id == id := by
    funext c
    simp [Query.matches, Conversation.field]
  simp only [Conversation.findById, Model.findById, Schema.execFindOne, conversationSchema,
    List.foldl_nil, e]
  rfl

theorem getChatHistory_setChatHistory (redis : Redis) (userId conversationId : String)
    (history : List Message) (h : redis.up = true) :
    getChatHistory (setChatHistory redis userId conversationId history) userId conversationId
      = some history := by
  simp [getChatHistory, setChatHistory, h]

theorem getChatHistory_down (redis : Redis) (userId conversationId : String)
    (h : redis.up = false) : getChatHistory redis userId conversationId = none := by
  simp [getChatHistory, h]

theorem setChatHistory_down (redis : Redis) (userId conversationId : String)
    (history : List Message) (h : redis.up = false) :
    setChatHistory redis userId conversationId history = redis := by
  simp [setChatHistory, h]

theorem setChatHistory_up (redis : Redis) (userId conversationId : String)
    (history : List Message) :
    (setChatHistory redis userId conversationId history).up = redis.up := by
  unfold setChatHistory
  split <;> rfl

theorem find_after_push (cs : List Conversation) (id : String) (message : Message)
    (now : Nat) :
    (cs.map fun c =>
        if c.id = id then { c with messages := c.messages ++ [message], lastActivity := now }
        else c).find? (fun c => c.id == id)
      = (cs.find? (fun c => c.id == id)).map
          fun c => { c with messages := c.messages ++ [message], lastActivity := now } := by
  induction cs with
  | nil => rfl
  | cons c rest ih =>
      by_cases h : c.id = id
      · simp [List.find?, h]
      · have hb : (c.id == id) = false := by simpa using h
        simp [List.find?, h, hb, ih]

theorem storedMessages_of_find {w : World} {conversationId : String} {c : Conversation}
    (hc : w.conversations.find? (fun c => c.id == conversationId) = some c) :
    storedMessages w conversationId = c.messages := by
  simp [storedMessages, hc]

/-- One successful append on an existing conversation, from a coherent state. -/
theorem addMessageToHistory_step (slot : Slot) (w : World) (now : Nat) (userId : String)
    (tenantId : Option String) (conversationId : String) (message : Message)
    (c : Conversation) (hup : w.mongoUp = true)
    (hc : w.conversations.find? (fun c => c.id == conversationId) = some c)
    (hcoh : coherent w userId conversationId) :
    (addMessageToHistory slot w now userId tenantId conversationId message).1
        = .ok (c.messages ++ [message])
    ∧ (addMessageToHistory slot w now userId tenantId conversationId message).2.mongoUp = true
    ∧ (addMessageToHistory slot w now userId tenantId conversationId message).2.conversations.find?
          (fun c => c.id == conversationId)
        = some { c with messages := c.messages ++ [message], lastActivity := now }
    ∧ (addMessageToHistory slot w now userId tenantId conversationId message).2.redis.up
        = w.redis.up
    ∧ (w.redis.up = true →
        getChatHistory
            (addMessageToHistory slot w now userId tenantId conversationId message).2.redis
            userId conversationId
          = some (c.messages ++ [message])) := by
  have hst := storedMessages_of_find hc
  cases hg : getChatHistory w.redis userId conversationId with
  | some h =>
      have hh : h = c.messages := (hcoh h hg).trans hst
      subst hh
      simp only [addMessageToHistory, runInTenantContext, AsyncLocalStorage.run,
        getConversationHistory, hg, Conversation.findByIdAndUpdate, hup, if_true, pure,
        Except.pure, find_after_push, hc, Option.map_some', setChatHistory_up]
      refine ⟨trivial, trivial, trivial, trivial, ?_⟩
      intro hr
      exact getChatHistory_setChatHistory _ _ _ _ hr
  | none =>
      simp only [addMessageToHistory, runInTenantContext, AsyncLocalStorage.run,
        getConversationHistory, hg, findById_eq, hup, if_true, hc,
        Conversation.findByIdAndUpdate, pure, Except.pure, find_after_push,
        Option.map_some', setChatHistory_up]
      refine ⟨trivial, trivial, trivial, trivial, ?_⟩
      intro hr
      exact getChatHistory_setChatHistory _ _ _ _ (by rw [setChatHistory_up]; exact hr)

theorem coherent_of_cache {w : World} {userId conversationId : String}
    (h : w.redis.up = true →
      getChatHistory w.redis userId conversationId = some (storedMessages w conversationId)) :
    coherent w userId conversationId := by
  intro x hx
  cases hu : w.redis.up with
  | true =>
      rw [h hu] at hx
      exact (Option.some.inj hx).symm
  | false =>
      rw [getChatHistory_down _ _ _ hu] at hx
      exact absurd hx (by simp)

theorem addMessagesInOrder_cons (slot : Slot) (now : Nat) (userId : String)
    (tenantId : Option String) (conversationId : String) (w : World) (m m2 : Message)
    (rest : List Message) :
    addMessagesInOrder slot now userId tenantId conversationId w (m :: m2 :: rest)
      = addMessagesInOrder slot now userId tenantId conversationId
          (addMessageToHistory slot w now userId tenantId conversationId m).2 (m2 :: rest) := by
  simp [addMessagesInOrder]

theorem addMessagesInOrder_spec (slot : Slot) (now : Nat) (userId : String)
    (tenantId : Option String) (conversationId : String) :
    ∀ (ms : List Message) (w : World) (c : Conversation),
      w.mongoUp = true →
      w.conversations.find? (fun c => c.id == conversationId) = some c →
      coherent w userId conversationId →
      (∃ c2, (addMessagesInOrder slot now userId tenantId conversationId w ms).2.conversations.find?
            (fun c => c.id == conversationId) = some c2
          ∧ c2.messages = c.messages ++ ms)
      ∧ (ms ≠ [] →
          (addMessagesInOrder slot now userId tenantId conversationId w ms).1
            = some (.ok (c.messages ++ ms))) := by
  intro ms
  induction ms with
  | nil =>
      intro w c _ hc _
      exact ⟨⟨c, hc, by simp⟩, fun h => absurd rfl h⟩
  | cons m rest ih =>
      intro w c hup hc hcoh
      obtain ⟨h1, h2, h3, h4, h5⟩ :=
        addMessageToHistory_step slot w now userId tenantId conversationId m c hup hc hcoh
      cases rest with
      | nil =>
          refine ⟨⟨_, by simpa [addMessagesInOrder] using h3, rfl⟩, fun _ => ?_⟩
          simp [addMessagesInOrder, h1]
      | cons m2 rest2 =>
          have hcoh2 : coherent
              (addMessageToHistory slot w now userId tenantId conversationId m).2
              userId conversationId := by
            apply coherent_of_cache
            intro hr
            rw [storedMessages_of_find h3]
            exact h5 (h4 ▸ hr)
          have := ih _ _ h2 h3 hcoh2
          rw [addMessagesInOrder_cons]
          simpa [List.append_assoc] using this

/-- C17: `getConversationHistory` returns the cached history when the cache has one for
(userId, conversationId); on a miss it returns the message list of the stored
conversation and, the cache being reachable, leaves that list in the cache under the
key of (userId, conversationId) with a TTL of 3600 seconds; on a miss for a
conversation that does not exist, or when the store cannot be read, it returns the
empty list. It has no throwing path. -/
theorem getConversationHistory_cache_then_store (slot : Slot) (w : World)
    (userId conversationId : String) :
    (∀ cached, getChatHistory w.redis userId conversationId = some cached →
        getConversationHistory slot w userId conversationId = (cached, w))
    ∧ (∀ c, getChatHistory w.redis userId conversationId = none → w.mongoUp = true →
        w.conversations.find? (fun c => c.id == conversationId) = some c →
        (getConversationHistory slot w userId conversationId).1 = c.messages
        ∧ (getConversationHistory slot w userId conversationId).2.conversations
            = w.conversations
        ∧ (w.redis.up = true →
            getChatHistory (getConversationHistory slot w userId conversationId).2.redis
                userId conversationId = some c.messages
            ∧ { key := chatHistoryKey userId conversationId, value := c.messages,
                ttl := 3600 }
              ∈ (getConversationHistory slot w userId conversationId).2.redis.entries))
    ∧ (getChatHistory w.redis userId conversationId = none →
        (∀ c ∈ w.conversations, c.id ≠ conversationId) →
        getConversationHistory slot w userId conversationId = ([], w))
    ∧ (getChatHistory w.redis userId conversationId = none → w.mongoUp = false →
        getConversationHistory slot w userId conversationId = ([], w)) := by
  refine ⟨?_, ?_, ?_, ?_⟩
  · intro cached h
    simp [getConversationHistory, h]
  · intro c hg hup hc
    simp only [getConversationHistory, hg, findById_eq, hup, if_true, hc]
    refine ⟨trivial, trivial, ?_⟩
    intro hr
    refine ⟨getChatHistory_setChatHistory _ _ _ _ hr, ?_⟩
    simp [setChatHistory, hr, CHAT_HISTORY_TTL]
  · intro hg hno
    have hf : w.conversations.find? (fun c => c.id == conversationId) = none := by
      rw [List.find?_eq_none]
      intro c hc
      simpa using hno c hc
    cases hup : w.mongoUp <;> simp [getConversationHistory, hg, findById_eq, hup, hf]
  · intro hg hup
    simp [getConversationHistory, hg, findById_eq, hup]

/-- Witness for C17: a miss on a stored conversation with one message returns that
message and caches it for an hour. -/
theorem getConversationHistory_cache_then_store_witness :
    (getConversationHistory none (sampleWorld [{ role := "user", content := "Bonjour" }])
        "alice" "conv1").1 = [{ role := "user", content := "Bonjour" }]
    ∧ { key := "chatHistory:alice:conv1", value := [{ role := "user", content := "Bonjour" }],
        ttl := 3600 }
      ∈ (getConversationHistory none (sampleWorld [{ role := "user", content := "Bonjour" }])
        "alice" "conv1").2.redis.entries :=
  ⟨((getConversationHistory_cache_then_store none
      (sampleWorld [{ role := "user", content := "Bonjour" }]) "alice" "conv1").2.1
      (sampleConversation [{ role := "user", content := "Bonjour" }]) rfl rfl rfl).1,
   (((getConversationHistory_cache_then_store none
      (sampleWorld [{ role := "user", content := "Bonjour" }]) "alice" "conv1").2.1
      (sampleConversation [{ role := "user", content := "Bonjour" }]) rfl rfl rfl).2.2 rfl).2⟩

/-- One append on an existing conversation of a reachable store, whatever the cache
holds: the call returns the history it read (the cached one, else the stored one)
followed by the message, and pushes the message on the stored list. -/
theorem addMessageToHistory_step_any (slot : Slot) (w : World) (now : Nat) (userId : String)
    (tenantId : Option String) (conversationId : String) (message : Message)
    (c : Conversation) (hup : w.mongoUp = true)
    (hc : w.conversations.find? (fun c => c.id == conversationId) = some c) :
    (addMessageToHistory slot w now userId tenantId conversationId message).1
        = .ok ((getChatHistory w.redis userId conversationId).getD c.messages ++ [message])
    ∧ (addMessageToHistory slot w now userId tenantId conversationId message).2.mongoUp = true
    ∧ (addMessageToHistory slot w now userId tenantId conversationId message).2.conversations.find?
          (fun c => c.id == conversationId)
        = some { c with messages := c.messages ++ [message], lastActivity := now }
    ∧ (getChatHistory
          (addMessageToHistory slot w now userId tenantId conversationId message).2.redis
          userId conversationId).getD (c.messages ++ [message])
        = (getChatHistory w.redis userId conversationId).getD c.messages ++ [message] := by
  cases hg : getChatHistory w.redis userId conversationId with
  | some h =>
      have hr : w.redis.up = true := by
        cases hu : w.redis.up with
        | true => rfl
        | false => rw [getChatHistory_down _ _ _ hu] at hg; exact absurd hg (by simp)
      simp only [addMessageToHistory, runInTenantContext, AsyncLocalStorage.run,
        getConversationHistory, hg, Conversation.findByIdAndUpdate, hup, if_true, pure,
        Except.pure, find_after_push, hc, Option.map_some', setChatHistory_up, Option.getD_some]
      refine ⟨trivial, trivial, trivial, ?_⟩
      rw [getChatHistory_setChatHistory _ _ _ _ hr]
      rfl
  | none =>
      simp only [addMessageToHistory, runInTenantContext, AsyncLocalStorage.run,
        getConversationHistory, hg, findById_eq, hup, if_true, hc,
        Conversation.findByIdAndUpdate, pure, Except.pure, find_after_push,
        Option.map_some', setChatHistory_up, Option.getD_none]
      refine ⟨trivial, trivial, trivial, ?_⟩
      cases hu : w.redis.up with
      | true =>
          rw [getChatHistory_setChatHistory _ _ _ _ (by rw [setChatHistory_up]; exact hu)]
          rfl
      | false =>
          rw [getChatHistory_down _ _ _ (by rw [setChatHistory_up, setChatHistory_up]; exact hu)]
          rfl

theorem addMessagesInOrder_any (slot : Slot) (now : Nat) (userId : String)
    (tenantId : Option String) (conversationId : String) :
    ∀ (ms : List Message) (w : World) (c : Conversation),
      w.mongoUp = true →
      w.conversations.find? (fun c => c.id == conversationId) = some c →
      (∃ c2, (addMessagesInOrder slot now userId tenantId conversationId w ms).2.conversations.find?
            (fun c => c.id == conversationId) = some c2
          ∧ c2.messages = c.messages ++ ms)
      ∧ (ms ≠ [] →
          (addMessagesInOrder slot now userId tenantId conversationId w ms).1
            = some (.ok ((getChatHistory w.redis userId conversationId).getD c.messages
                ++ ms))) := by
  intro ms
  induction ms with
  | nil =>
      intro w c _ hc
      exact ⟨⟨c, hc, by simp⟩, fun h => absurd rfl h⟩
  | cons m rest ih =>
      intro w c hup hc
      obtain ⟨h1, h2, h3, h4⟩ :=
        addMessageToHistory_step_any slot w now userId tenantId conversationId m c hup hc
      cases rest with
      | nil =>
          refine ⟨⟨_, by simpa [addMessagesInOrder] using h3, rfl⟩, fun _ => ?_⟩
          simp [addMessagesInOrder, h1]
      | cons m2 rest2 =>
          have := ih _ _ h2 h3
          rw [addMessagesInOrder_cons]
          simp only [h4] at this
          simpa [List.append_assoc] using this

/-- C18 (as stated, refuted): the conversation exists with an empty stored list, but the
cache still holds a message of an append that failed while the store was unreachable.
Two sequential appends leave the stored list equal to the two messages, and the last
call returns the cached history followed by them, not the stored list. And while the
store is unreachable, an append on the existing, empty conversation throws and leaves
the stored list empty. -/
theorem addMessageToHistory_returns_cached_history :
    storedMessages staleCacheWorld "conv1" = []
    ∧ getChatHistory staleCacheWorld.redis "alice" "conv1"
        = some [{ role := "user", content := "Perdu" }]
    ∧ storedMessages (addMessagesInOrder none 7 "alice" (some "tenantA") "conv1"
        staleCacheWorld
        [{ role := "user", content := "Bonjour" },
         { role := "assistant", content := "Bonjour Alice" }]).2 "conv1"
      = [{ role := "user", content := "Bonjour" },
         { role := "assistant", content := "Bonjour Alice" }]
    ∧ (addMessagesInOrder none 7 "alice" (some "tenantA") "conv1" staleCacheWorld
        [{ role := "user", content := "Bonjour" },
         { role := "assistant", content := "Bonjour Alice" }]).1
      = some (.ok [{ role := "user", content := "Perdu" },
                   { role := "user", content := "Bonjour" },
                   { role := "assistant", content := "Bonjour Alice" }])
    ∧ (addMessagesInOrder none 7 "alice" (some "tenantA") "conv1" storeDownWorld
        [{ role := "user", content := "Bonjour" }]).1 = some (.error mongoUnavailable)
    ∧ storedMessages (addMessagesInOrder none 7 "alice" (some "tenantA") "conv1"
        storeDownWorld [{ role := "user", content := "Bonjour" }]).2 "conv1" = [] := by
  refine ⟨rfl, rfl, rfl, rfl, rfl, rfl⟩

/-- C18 (amended): on an existing conversation with an empty message list, the store
being reachable, N sequential calls of `addMessageToHistory` with `m1 .. mN` leave the
stored message list equal to `[m1, ..., mN]`; the last call returns the history the
cache held for the conversation before the first call (nothing when it held none)
followed by `m1 .. mN`, which is the stored list whenever the cache held no other
history than the stored one. -/
theorem addMessageToHistory_appends_in_order (slot : Slot) (w : World) (now : Nat)
    (userId : String) (tenantId : Option String) (conversationId : String)
    (ms : List Message) (c : Conversation)
    (hup : w.mongoUp = true)
    (hc : w.conversations.find? (fun c => c.id == conversationId) = some c)
    (hempty : c.messages = []) :
    storedMessages (addMessagesInOrder slot now userId tenantId conversationId w ms).2
        conversationId = ms
    ∧ (ms ≠ [] →
        (addMessagesInOrder slot now userId tenantId conversationId w ms).1
          = some (.ok ((getChatHistory w.redis userId conversationId).getD [] ++ ms)))
    ∧ (ms ≠ [] → coherent w userId conversationId →
        (addMessagesInOrder slot now userId tenantId conversationId w ms).1 = some (.ok ms)) := by
  obtain ⟨⟨c2, h1, h2⟩, h3⟩ :=
    addMessagesInOrder_any slot now userId tenantId conversationId ms w c hup hc
  rw [hempty] at h3
  rw [hempty, List.nil_append] at h2
  refine ⟨by rw [storedMessages_of_find h1, h2], h3, ?_⟩
  intro hms hcoh
  rw [h3 hms]
  cases hg : getChatHistory w.redis userId conversationId with
  | none => rfl
  | some h =>
      have := hcoh h hg
      rw [storedMessages_of_find hc, hempty] at this
      subst this
      rfl

/-- Witness for C18 (amended): two appends on a fresh conversation. -/
theorem addMessageToHistory_appends_in_order_witness :
    storedMessages (addMessagesInOrder none 7 "alice" (some "tenantA") "conv1"
        (sampleWorld [])
        [{ role := "user", content := "Bonjour" },
         { role := "assistant", content := "Bonjour Alice" }]).2 "conv1"
      = [{ role := "user", content := "Bonjour" },
         { role := "assistant", content := "Bonjour Alice" }]
    ∧ (addMessagesInOrder none 7 "alice" (some "tenantA") "conv1" (sampleWorld [])
        [{ role := "user", content := "Bonjour" },
         { role := "assistant", content := "Bonjour Alice" }]).1
      = some (.ok [{ role := "user", content := "Bonjour" },
                   { role := "assistant", content := "Bonjour Alice" }]) :=
  ⟨(addMessageToHistory_appends_in_order none (sampleWorld []) 7 "alice" (some "tenantA")
      "conv1"
      [{ role := "user", content := "Bonjour" },
       { role := "assistant", content := "Bonjour Alice" }]
      (sampleConversation []) rfl rfl rfl).1,
   (addMessageToHistory_appends_in_order none (sampleWorld []) 7 "alice" (some "tenantA")
      "conv1"
      [{ role := "user", content := "Bonjour" },
       { role := "assistant", content := "Bonjour Alice" }]
      (sampleConversation []) rfl rfl rfl).2.2 (by simp)
      (fun h hh => by simp [getChatHistory, sampleWorld] at hh)⟩

/-- C19 (as stated, refuted): `addMessageToHistory` writes the cache before the durable
store and does not undo it. From a coherent state with an unreachable store the call
fails and leaves the message in the cache only; and on a conversation id that does not
exist the call succeeds, again leaving the message in the cache only. -/
theorem addMessageToHistory_not_atomic :
    (coherent storeDownWorld "alice" "conv1"
      ∧ (addMessageToHistory none storeDownWorld 1 "alice" (some "tenantA") "conv1"
            { role := "user", content := "Bonjour" }).1 = .error mongoUnavailable
      ∧ getChatHistory
          (addMessageToHistory none storeDownWorld 1 "alice" (some "tenantA") "conv1"
            { role := "user", content := "Bonjour" }).2.redis "alice" "conv1"
          = some [{ role := "user", content := "Bonjour" }]
      ∧ storedMessages
          (addMessageToHistory none storeDownWorld 1 "alice" (some "tenantA") "conv1"
            { role := "user", content := "Bonjour" }).2 "conv1" = []
      ∧ ¬ coherent
          (addMessageToHistory none storeDownWorld 1 "alice" (some "tenantA") "conv1"
            { role := "user", content := "Bonjour" }).2 "alice" "conv1")
    ∧ (coherent emptyWorld "alice" "ghost"
      ∧ (addMessageToHistory none emptyWorld 1 "alice" (some "tenantA") "ghost"
            { role := "user", content := "Bonjour" }).1
          = .ok [{ role := "user", content := "Bonjour" }]
      ∧ getChatHistory
          (addMessageToHistory none emptyWorld 1 "alice" (some "tenantA") "ghost"
            { role := "user", content := "Bonjour" }).2.redis "alice" "ghost"
          = some [{ role := "user", content := "Bonjour" }]
      ∧ storedMessages
          (addMessageToHistory none emptyWorld 1 "alice" (some "tenantA") "ghost"
            { role := "user", content := "Bonjour" }).2 "ghost" = []
      ∧ ¬ coherent
          (addMessageToHistory none emptyWorld 1 "alice" (some "tenantA") "ghost"
            { role := "user", content := "Bonjour" }).2 "alice" "ghost") := by
  refine ⟨⟨?_, rfl, rfl, rfl, ?_⟩, ⟨?_, rfl, rfl, rfl, ?_⟩⟩
  · intro h hh
    have e : getChatHistory storeDownWorld.redis "alice" "conv1" = some [] := rfl
    rw [e] at hh
    exact (Option.some.inj hh).symm
  · intro hcoh
    have h := hcoh [{ role := "user", content := "Bonjour" }] rfl
    exact absurd h (by decide)
  · intro h hh
    have e : getChatHistory emptyWorld.redis "alice" "ghost" = none := rfl
    rw [e] at hh
    exact absurd hh (by simp)
  · intro hcoh
    have h := hcoh [{ role := "user", content := "Bonjour" }] rfl
    exact absurd h (by decide)

/-- C19 (amended): when the durable store is reachable and the conversation exists,
`addMessageToHistory` started from a coherent state succeeds and leaves a coherent
state: the stored list is the old list followed by the message, the call returns it,
and a reachable cache holds the same list. When the store is unreachable the error is
propagated to the caller and the stored conversations are unchanged. -/
theorem addMessageToHistory_coherent_on_success (slot : Slot) (w : World) (now : Nat)
    (userId : String) (tenantId : Option String) (conversationId : String)
    (message : Message) (hcoh : coherent w userId conversationId) :
    (∀ c, w.mongoUp = true →
        w.conversations.find? (fun c => c.id == conversationId) = some c →
        (addMessageToHistory slot w now userId tenantId conversationId message).1
            = .ok (c.messages ++ [message])
        ∧ storedMessages
            (addMessageToHistory slot w now userId tenantId conversationId message).2
            conversationId = c.messages ++ [message]
        ∧ coherent (addMessageToHistory slot w now userId tenantId conversationId message).2
            userId conversationId
        ∧ (w.redis.up = true →
            getChatHistory
                (addMessageToHistory slot w now userId tenantId conversationId message).2.redis
                userId conversationId = some (c.messages ++ [message])))
    ∧ (w.mongoUp = false →
        (addMessageToHistory slot w now userId tenantId conversationId message).1
            = .error mongoUnavailable
        ∧ (addMessageToHistory slot w now userId tenantId conversationId message).2.conversations
            = w.conversations) := by
  constructor
  · intro c hup hc
    obtain ⟨h1, _, h3, h4, h5⟩ :=
      addMessageToHistory_step slot w now userId tenantId conversationId message c hup hc hcoh
    have hs := storedMessages_of_find h3
    refine ⟨h1, hs, ?_, h5⟩
    apply coherent_of_cache
    intro hr
    rw [hs]
    exact h5 (h4 ▸ hr)
  · intro hdown
    cases hg : getChatHistory w.redis userId conversationId <;>
      simp [addMessageToHistory, runInTenantContext, AsyncLocalStorage.run,
        getConversationHistory, hg, findById_eq, hdown, Conversation.findByIdAndUpdate,
        throw, throwThe, MonadExceptOf.throw]

/-- Witness for C19 (amended): one append on a fresh conversation of a reachable
store. -/
theorem addMessageToHistory_coherent_on_success_witness :
    (addMessageToHistory none (sampleWorld []) 1 "alice" (some "tenantA") "conv1"
        { role := "user", content := "Bonjour" }).1
      = .ok [{ role := "user", content := "Bonjour" }]
    ∧ coherent
        (addMessageToHistory none (sampleWorld []) 1 "alice" (some "tenantA") "conv1"
          { role := "user", content := "Bonjour" }).2 "alice" "conv1" :=
  ⟨((addMessageToHistory_coherent_on_success none (sampleWorld []) 1 "alice"
      (some "tenantA") "conv1" { role := "user", content := "Bonjour" }
      (fun h hh => by simp [getChatHistory, sampleWorld] at hh)).1
      (sampleConversation []) rfl rfl).1,
   ((addMessageToHistory_coherent_on_success none (sampleWorld []) 1 "alice"
      (some "tenantA") "conv1" { role := "user", content := "Bonjour" }
      (fun h hh => by simp [getChatHistory, sampleWorld] at hh)).1
      (sampleConversation []) rfl rfl).2.2.1⟩

/-! ### Intent routing when the completion call fails -/

theorem postWithRetries_all_fail {α : Type} (post : Nat → Except JsError α) (retries : Nat)
    (hfail : ∀ n, ∃ e, post n = .error e) :
    ∀ left attempts, left + attempts = retries + 1 → 0 < left →
      ∃ e, postWithRetries post retries left attempts = .error e := by
  intro left
  induction left with
  | zero => intro attempts _ h; exact absurd h (Nat.lt_irrefl 0)
  | succ left ih =>
      intro attempts hsum _
      obtain ⟨e, he⟩ := hfail (attempts + 1)
      by_cases hlast : attempts + 1 > retries
      · exact ⟨e, by simp [postWithRetries, he, hlast, throw, throwThe, MonadExceptOf.throw]⟩
      · obtain ⟨e2, he2⟩ := ih (attempts + 1) (by omega) (by omega)
        exact ⟨e2, by simp [postWithRetries, he, hlast, he2]⟩

theorem generateChatResponse_degraded_of_error (env : OpenAiEnv) (messages : List Message)
    (h : isConfigValid env = false
      ∨ (env.isTestEnv = false ∧ ∃ e,
          postWithRetries (env.postChat messages) env.retries (env.retries + 1) 0 = .error e)) :
    generateChatResponse env messages = .ok (.str fallbackResponse) := by
  rcases h with h | ⟨ht, e, he⟩
  · simp [generateChatResponse, h, tryCatch, tryCatchThe, MonadExceptOf.tryCatch,
      Except.tryCatch, throw, throwThe, MonadExceptOf.throw, pure, Except.pure,
      handleFallback]
  · by_cases hv : isConfigValid env = true
    · simp [generateChatResponse, hv, ht, he, tryCatch, tryCatchThe, MonadExceptOf.tryCatch,
        Except.tryCatch, bind, Except.bind, pure, Except.pure, handleFallback]
    · simp [generateChatResponse, hv, tryCatch, tryCatchThe, MonadExceptOf.tryCatch,
        Except.tryCatch, throw, throwThe, MonadExceptOf.throw, pure, Except.pure,
        handleFallback]

theorem determineIntention_of_text (ops : StringOps)
    (llm : List Message → Except JsError JsValue) (message : String)
    (history : List Message) (text : String)
    (h : llm [{ role := "user", content := intentionPrompt message }] = .ok (.str text)) :
    determineIntention ops llm message history = .ok (mapIntention ops text) := by
  simp [determineIntention, tryCatch, tryCatchThe, MonadExceptOf.tryCatch, Except.tryCatch,
    bind, Except.bind, h, pure, Except.pure]

theorem mapIntention_fallbackResponse (ops : StringOps)
    (hops : ops.trim (ops.toLowerCase fallbackResponse)
      = asciiTrim (asciiToLowerCase fallbackResponse)) :
    mapIntention ops fallbackResponse = "fallback" := by
  simp only [mapIntention, hops]
  decide

/-- C11: when the completion call behind `determineIntention` fails, the label is
`fallback`: when `generateChatResponse` rejects; and when the real
`generateChatResponse` swallows the failure (every HTTP attempt fails or times out, or
the configuration is invalid) and hands back its degraded-mode text, which contains
none of the label names. The string methods are only assumed to lower-case and trim
that one text as JavaScript does. -/
theorem determineIntention_fallback_on_llm_failure (ops : StringOps) (message : String)
    (history : List Message)
    (hops : ops.trim (ops.toLowerCase fallbackResponse)
      = asciiTrim (asciiToLowerCase fallbackResponse)) :
    (∀ (llm : List Message → Except JsError JsValue) (e : JsError),
        llm [{ role := "user", content := intentionPrompt message }] = .error e →
        determineIntention ops llm message history = .ok "fallback")
    ∧ (∀ llm : List Message → Except JsError JsValue,
        llm [{ role := "user", content := intentionPrompt message }]
          = .ok (.str fallbackResponse) →
        determineIntention ops llm message history = .ok "fallback")
    ∧ (∀ env : OpenAiEnv, env.isTestEnv = false →
        (∀ n, ∃ e,
          env.postChat [{ role := "user", content := intentionPrompt message }] n = .error e) →
        generateChatResponse env [{ role := "user", content := intentionPrompt message }]
          = .ok (.str fallbackResponse)
        ∧ determineIntention ops (generateChatResponse env) message history = .ok "fallback")
    ∧ (∀ env : OpenAiEnv, isConfigValid env = false →
        determineIntention ops (generateChatResponse env) message history = .ok "fallback") := by
  have hmap := mapIntention_fallbackResponse ops hops
  refine ⟨?_, ?_, ?_, ?_⟩
  · intro llm e h
    simp [determineIntention, tryCatch, tryCatchThe, MonadExceptOf.tryCatch, Except.tryCatch,
      bind, Except.bind, h, pure, Except.pure]
  · intro llm h
    rw [determineIntention_of_text ops llm message history _ h, hmap]
  · intro env ht hfail
    have hg := generateChatResponse_degraded_of_error env
      [{ role := "user", content := intentionPrompt message }]
      (Or.inr ⟨ht, postWithRetries_all_fail _ _ hfail _ _ (by omega) (by omega)⟩)
    exact ⟨hg, by rw [determineIntention_of_text ops _ message history _ hg, hmap]⟩
  · intro env hc
    have hg := generateChatResponse_degraded_of_error env
      [{ role := "user", content := intentionPrompt message }] (Or.inl hc)
    rw [determineIntention_of_text ops _ message history _ hg, hmap]

/-- Witness for C11: with the ASCII string methods, a service whose every HTTP attempt
times out routes the message to `fallback`. -/
theorem determineIntention_fallback_on_llm_failure_witness :
    determineIntention asciiOps
        (generateChatResponse
          { isTestEnv := false, apiKey := some "key", apiBase := some "https://openrouter.ai/api/v1",
            retries := 2,
            postChat := fun _ _ => .error { name := "AxiosError", message := "timeout" },
            postPrompt := fun _ _ => .error { name := "AxiosError", message := "timeout" } })
        "Bonjour" []
      = .ok "fallback" :=
  ((determineIntention_fallback_on_llm_failure asciiOps "Bonjour" [] rfl).2.2.1
    { isTestEnv := false, apiKey := some "key", apiBase := some "https://openrouter.ai/api/v1",
      retries := 2,
      postChat := fun _ _ => .error { name := "AxiosError", message := "timeout" },
      postPrompt := fun _ _ => .error { name := "AxiosError", message := "timeout" } }
    rfl (fun _ => ⟨_, rfl⟩)).2

/-! ### Bot handlers -/

theorem ne_append {a b : String} (h : a ≠ "") : a ++ b ≠ "" := by
  intro e
  apply h
  have h2 := congrArg String.data e
  rw [String.data_append] at h2
  exact String.ext (List.append_eq_nil.mp h2).1

theorem tryCatch_nonempty (body : Except JsError String) (a : String)
    (hbody : ∀ x, body = .ok x → x ≠ "") (ha : a ≠ "") :
    ∃ x, tryCatch body (fun _ => pure a) = .ok x ∧ x ≠ "" := by
  cases h : body with
  | error e =>
      exact ⟨a, by simp [tryCatch, tryCatchThe, MonadExceptOf.tryCatch, Except.tryCatch, pure,
        Except.pure], ha⟩
  | ok x =>
      exact ⟨x, by simp [tryCatch, tryCatchThe, MonadExceptOf.tryCatch, Except.tryCatch],
        hbody x h⟩

theorem bind_deref_ok {f : UserData → Except JsError String} {userData : Option UserData}
    {x : String} (h : (derefUserData userData >>= f) = .ok x) :
    ∃ u, userData = some u ∧ f u = .ok x := by
  cases hu : userData with
  | none => simp [hu, derefUserData, bind, Except.bind, throw, throwThe, MonadExceptOf.throw] at h
  | some u =>
      simp only [hu, derefUserData, bind, Except.bind, pure, Except.pure] at h
      exact ⟨u, rfl, h⟩

theorem getRevenueInfo_nonempty (env : BotEnv) (userId : String) (tenantId : Option String)
    (message x : String) (h : comptableBot.getRevenueInfo env userId tenantId message = .ok x) :
    x ≠ "" := by
  unfold comptableBot.getRevenueInfo at h
  cases hr : env.revenue tenantId (periodLabel message) with
  | error e => simp [hr, bind, Except.bind] at h
  | ok sales =>
      simp only [hr, bind, Except.bind, pure, Except.pure, Except.ok.injEq] at h
      subst h
      repeat (first | decide | apply ne_append)

theorem getExpensesInfo_nonempty (env : BotEnv) (userId : String) (tenantId : Option String)
    (message x : String) (h : comptableBot.getExpensesInfo env userId tenantId message = .ok x) :
    x ≠ "" := by
  unfold comptableBot.getExpensesInfo at h
  cases hr : env.expenses tenantId (periodLabel message) with
  | error e => simp [hr, bind, Except.bind] at h
  | ok expenses =>
      simp only [hr, bind, Except.bind, pure, Except.pure] at h
      split at h <;>
        (simp only [Except.ok.injEq] at h
         subst h
         repeat (first | decide | apply ne_append))

theorem getProfitInfo_nonempty (env : BotEnv) (userId : String) (tenantId : Option String)
    (message x : String) (h : comptableBot.getProfitInfo env userId tenantId message = .ok x) :
    x ≠ "" := by
  unfold comptableBot.getProfitInfo at h
  cases hr : env.profit tenantId (periodLabel message) with
  | error e => simp [hr, bind, Except.bind] at h
  | ok figures =>
      simp only [hr, bind, Except.bind, pure, Except.pure, Except.ok.injEq] at h
      subst h
      repeat (first | decide | apply ne_append)

theorem comptableBot_handle_nonempty (env : BotEnv) (b : Bundle) :
    ∃ x, comptableBot.handle env b = .ok x ∧ x ≠ "" := by
  unfold comptableBot.handle
  apply tryCatch_nonempty _ _ _ (by decide)
  intro x hx
  simp only [] at hx
  split_ifs at hx
  · obtain ⟨u, _, hu⟩ := bind_deref_ok hx
    exact getRevenueInfo_nonempty _ _ _ _ _ hu
  · obtain ⟨u, _, hu⟩ := bind_deref_ok hx
    exact getExpensesInfo_nonempty _ _ _ _ _ hu
  · obtain ⟨u, _, hu⟩ := bind_deref_ok hx
    exact getProfitInfo_nonempty _ _ _ _ _ hu
  · simp only [pure, Except.pure, Except.ok.injEq] at hx
    subst hx
    decide

theorem getProductInfo_nonempty (env : BotEnv) (userId : String) (tenantId : Option String)
    (message x : String)
    (h : businessDataBot.getProductInfo env userId tenantId message = .ok x) : x ≠ "" := by
  unfold businessDataBot.getProductInfo at h
  split_ifs at h
  · cases hr : env.outOfStock tenantId with
    | error e => simp [hr, bind, Except.bind] at h
    | ok products =>
        simp only [hr, bind, Except.bind, pure, Except.pure] at h
        split at h <;>
          (simp only [Except.ok.injEq] at h
           subst h
           repeat (first | decide | apply ne_append))
  · cases hr : env.products tenantId (env.categoryOf message) with
    | error e => simp [hr, bind, Except.bind] at h
    | ok products =>
        simp only [hr, bind, Except.bind, pure, Except.pure] at h
        cases hc : env.categoryOf message <;> simp only [hc] at h <;> split at h <;>
          (simp only [Except.ok.injEq] at h
           subst h
           repeat (first | decide | apply ne_append))

theorem getSalesInfo_nonempty (env : BotEnv) (userId : String) (tenantId : Option String)
    (message x : String)
    (h : businessDataBot.getSalesInfo env userId tenantId message = .ok x) : x ≠ "" := by
  unfold businessDataBot.getSalesInfo at h
  cases hr : env.sales tenantId (periodLabel message) with
  | error e => simp [hr, bind, Except.bind] at h
  | ok sales =>
      simp only [hr, bind, Except.bind, pure, Except.pure] at h
      split_ifs at h
      · cases ht : sales.top with
        | error e => simp [ht] at h
        | ok top =>
            simp only [ht] at h
            split at h <;>
              (simp only [Except.ok.injEq] at h
               subst h
               repeat (first | decide | apply ne_append))
      · simp only [Except.ok.injEq] at h
        subst h
        decide
      · simp only [Except.ok.injEq] at h
        subst h
        repeat (first | decide | apply ne_append)

theorem businessDataBot_handle_nonempty (env : BotEnv) (b : Bundle) :
    ∃ x, businessDataBot.handle env b = .ok x ∧ x ≠ "" := by
  unfold businessDataBot.handle
  apply tryCatch_nonempty _ _ _ (by decide)
  intro x hx
  simp only [] at hx
  split_ifs at hx
  · obtain ⟨u, _, hu⟩ := bind_deref_ok hx
    exact getProductInfo_nonempty _ _ _ _ _ hu
  · obtain ⟨u, _, hu⟩ := bind_deref_ok hx
    exact getSalesInfo_nonempty _ _ _ _ _ hu
  · simp only [pure, Except.pure, Except.ok.injEq] at hx
    subst hx
    decide


theorem rhBot_handle_nonempty (env : BotEnv) (b : Bundle) :
    ∃ x, rhBot.handle env b = .ok x ∧ x ≠ "" := by
  unfold rhBot.handle
  apply tryCatch_nonempty _ _ _ (by decide)
  intro x hx
  simp only [] at hx
  obtain ⟨u, _, hu⟩ := bind_deref_ok hx
  by_cases hlist : (includes (env.ops.toLowerCase b.message) "liste des employés"
      || includes (env.ops.toLowerCase b.message) "combien d'employés"
      || includes (env.ops.toLowerCase b.message) "qui sont mes employés") = true
  · rw [if_pos hlist] at hu
    cases hr : env.employees u.tenantId
        (!includes (env.ops.toLowerCase b.message) "tous") with
    | error e => simp [hr, bind, Except.bind] at hu
    | ok employees =>
        simp only [hr, bind, Except.bind, pure, Except.pure] at hu
        split_ifs at hu <;>
          (simp only [Except.ok.injEq] at hu
           subst hu
           repeat (first | decide | apply ne_append))
  · rw [if_neg hlist] at hu
    cases hn : env.employeeNameOf (env.ops.toLowerCase b.message) with
    | some employeeName =>
        simp only [hn] at hu
        cases hr : env.employee u.tenantId employeeName with
        | error e => simp [hr, bind, Except.bind] at hu
        | ok employee =>
            simp only [hr, bind, Except.bind, pure, Except.pure] at hu
            cases employee <;>
              (simp only [Except.ok.injEq] at hu
               subst hu
               repeat (first | decide | apply ne_append))
    | none =>
        simp only [hn] at hu
        split_ifs at hu <;>
          (simp only [pure, Except.pure, Except.ok.injEq] at hu
           subst hu
           decide)

theorem describe_nonempty (userProfile : Profile) : infoBot.describe userProfile ≠ "" := by
  unfold infoBot.describe
  split_ifs <;> repeat (first | decide | apply ne_append)

theorem infoBot_handle_nonempty (env : BotEnv) (b : Bundle) :
    ∃ x, infoBot.handle env b = .ok x ∧ x ≠ "" := by
  unfold infoBot.handle
  apply tryCatch_nonempty _ _ _ (by decide)
  intro x hx
  simp only [] at hx
  obtain ⟨u, _, hu⟩ := bind_deref_ok hx
  split at hu
  · simp only [pure, Except.pure, Except.ok.injEq] at hu
    subst hu
    exact describe_nonempty _
  · cases hr : env.user b.userId u.tenantId with
    | error e => simp [hr, bind, Except.bind] at hu
    | ok user =>
        simp only [hr, bind, Except.bind, pure, Except.pure] at hu
        split at hu
        · simp only [Except.ok.injEq] at hu
          subst hu
          decide
        · split at hu
          · simp only [Except.ok.injEq] at hu
            subst hu
            decide
          · simp only [Except.ok.injEq] at hu
            subst hu
            exact describe_nonempty _

theorem fallbackBot_handle_nonempty (env : BotEnv) (b : Bundle) :
    ∃ x, fallbackBot.handle env b = .ok x ∧ x ≠ "" := by
  unfold fallbackBot.handle
  apply tryCatch_nonempty _ _ _ (by decide)
  intro x hx
  simp only [pure, Except.pure, Except.ok.injEq] at hx
  subst hx
  decide

theorem postWithRetries_some {α : Type} (post : Nat → Except JsError α) (retries : Nat) :
    ∀ left attempts v, postWithRetries post retries left attempts = .ok (some v) →
      ∃ n, post n = .ok v := by
  intro left
  induction left with
  | zero => intro attempts v h; simp [postWithRetries, pure, Except.pure] at h
  | succ left ih =>
      intro attempts v h
      unfold postWithRetries at h
      cases hp : post (attempts + 1) with
      | ok r =>
          simp only [hp, pure, Except.pure, Except.ok.injEq, Option.some.injEq] at h
          exact ⟨attempts + 1, by rw [hp, h]⟩
      | error e =>
          simp only [hp] at h
          split_ifs at h
          exact ih _ _ h

theorem cacheAIResponse_up (cache : ResponseCache) (k : String) (r : JsValue) :
    (cacheAIResponse cache k r).up = cache.up := by
  unfold cacheAIResponse
  split_ifs <;> rfl

theorem handleFallback_ne (prompt : String) (error : JsError) :
    handleFallback prompt error ≠ "" := by
  unfold handleFallback
  decide

/-- What `generateResponse` resolves to: it never throws, keeps the cache reachable or
not as it was, and its value is a non-empty text or else the content of a reply of the
completion call, handed on as it is. -/
theorem generateResponse_result (env : OpenAiEnv) (prompt : String) (cache : ResponseCache) :
    ∃ x cache1, generateResponse env prompt cache = (.ok x, cache1) ∧ cache1.up = cache.up ∧
      ((∃ text, x = .str text ∧ text ≠ "")
        ∨ ∃ n reply, env.postPrompt prompt n = .ok reply ∧ reply.content = some x) := by
  unfold generateResponse
  simp only [Step.attempt, bind, Step.bind, Step.read, pure, Step.pure]
  by_cases hc : truthy (getCachedAIResponse cache prompt) = true
  · simp only [hc, if_true]
    refine ⟨_, _, rfl, rfl, Or.inl ⟨_, rfl, ?_⟩⟩
    cases hg : getCachedAIResponse cache prompt with
    | none => simp [hg, truthy] at hc
    | some c => simpa [hg, truthy] using hc
  · simp only [hc]
    by_cases hv : isConfigValid env = true
    · by_cases ht : env.isTestEnv = true
      · simp only [hv, ht, Step.modify]
        refine ⟨_, _, rfl, cacheAIResponse_up _ _ _, Or.inl ⟨_, rfl, ?_⟩⟩
        repeat (first | decide | apply ne_append)
      · simp only [hv, ht, Step.ofExcept]
        cases hp : postWithRetries (env.postPrompt prompt) env.retries (env.retries + 1) 0 with
        | error e =>
            exact ⟨_, _, rfl, rfl, Or.inl ⟨_, rfl, handleFallback_ne _ _⟩⟩
        | ok response =>
            cases response with
            | none => exact ⟨_, _, rfl, rfl, Or.inl ⟨_, rfl, handleFallback_ne _ _⟩⟩
            | some reply =>
                obtain ⟨content⟩ := reply
                cases content with
                | none =>
                    exact ⟨_, _, rfl, rfl, Or.inl ⟨_, rfl, handleFallback_ne _ _⟩⟩
                | some result =>
                    obtain ⟨n, hn⟩ := postWithRetries_some _ _ _ _ _ hp
                    exact ⟨result, _, rfl, cacheAIResponse_up _ _ _, Or.inr ⟨n, _, hn, rfl⟩⟩
    · simp only [hv]
      exact ⟨_, _, rfl, rfl, Or.inl ⟨_, rfl, handleFallback_ne _ _⟩⟩

theorem determineIntention_returns (ops : StringOps)
    (generateChatResponse : List Message → Except JsError JsValue)
    (message : String) (history : List Message) :
    ∃ label, determineIntention ops generateChatResponse message history = .ok label := by
  unfold determineIntention
  cases h : generateChatResponse [{ role := "user", content := intentionPrompt message }] with
  | error e =>
      exact ⟨"fallback", by
        simp [tryCatch, tryCatchThe, MonadExceptOf.tryCatch, Except.tryCatch, bind,
          Except.bind, h, pure, Except.pure]⟩
  | ok v =>
      cases v with
      | str text =>
          exact ⟨mapIntention ops text, by
            simp [tryCatch, tryCatchThe, MonadExceptOf.tryCatch, Except.tryCatch, bind,
              Except.bind, h, pure, Except.pure]⟩
      | _ =>
          exact ⟨"fallback", by
            simp [tryCatch, tryCatchThe, MonadExceptOf.tryCatch, Except.tryCatch, bind,
              Except.bind, h, pure, Except.pure, throw, throwThe, MonadExceptOf.throw]⟩

theorem attempt_of_ok {σ α : Type} (body : Step σ α) (handler : JsError → Step σ α)
    (s s1 : σ) (a : α) (h : body s = (.ok a, s1)) :
    Step.attempt body handler s = (.ok a, s1) := by
  simp [Step.attempt, h]

/-- What an advice helper of `marketingBot` built on `generateResponse` resolves to. -/
theorem advice_result (env : OpenAiEnv) (prompt : String)
    (handler : JsError → Step ResponseCache JsValue) (cache : ResponseCache) :
    ∃ x cache1, Step.attempt (generateResponse env prompt) handler cache = (.ok x, cache1)
      ∧ cache1.up = cache.up
      ∧ ((∃ text, x = .str text ∧ text ≠ "")
        ∨ ∃ p n reply, env.postPrompt p n = .ok reply ∧ reply.content = some x) := by
  obtain ⟨x, cache1, h, hup, hx⟩ := generateResponse_result env prompt cache
  refine ⟨x, cache1, attempt_of_ok _ _ _ _ _ h, hup, ?_⟩
  rcases hx with hx | ⟨n, reply, hn, hc⟩
  · exact Or.inl hx
  · exact Or.inr ⟨prompt, n, reply, hn, hc⟩

/-- What the handler of `marketingBot` resolves to: it never throws, and its value is a
non-empty text or else the content of a reply of the completion call, handed on as it
is. -/
theorem marketingBot_handle_result (env : BotEnv) (b : Bundle) (cache : ResponseCache) :
    ∃ x cache1, marketingBot.handle env b cache = (.ok x, cache1) ∧ cache1.up = cache.up
      ∧ ((∃ text, x = .str text ∧ text ≠ "")
        ∨ ∃ p n reply, env.openai.postPrompt p n = .ok reply ∧ reply.content = some x) := by
  unfold marketingBot.handle
  simp only []
  split_ifs
  · obtain ⟨x, cache1, h, hup, hx⟩ := advice_result env.openai _ _ cache
    exact ⟨x, cache1, attempt_of_ok _ _ _ _ _ h, hup, hx⟩
  · obtain ⟨x, cache1, h, hup, hx⟩ := advice_result env.openai _ _ cache
    exact ⟨x, cache1, attempt_of_ok _ _ _ _ _ h, hup, hx⟩
  · obtain ⟨x, cache1, h, hup, hx⟩ := advice_result env.openai _ _ cache
    exact ⟨x, cache1, attempt_of_ok _ _ _ _ _ h, hup, hx⟩
  · exact ⟨_, cache, rfl, rfl, Or.inl ⟨_, rfl, by decide⟩⟩

theorem textHandler_ok (handle : Bundle → Except JsError String) (b : Bundle)
    (cache : ResponseCache) (x : String) (h : handle b = .ok x) :
    textHandler handle b cache = (.ok (.str x), cache) := by
  simp [textHandler, Step.ofExcept, h, Except.map]

/-- Every bot module of the repository answers with a value, whatever the label, and
leaves the response cache reachable or not as it was. -/
theorem agents_dispatch_ok (env : BotEnv) (botType : String) (b : Bundle)
    (cache : ResponseCache) :
    ∃ x cache1, (agents env).dispatch botType b cache = (.ok x, cache1)
      ∧ cache1.up = cache.up := by
  unfold Bots.dispatch agents
  split_ifs
  · obtain ⟨x, h, _⟩ := comptableBot_handle_nonempty env b
    exact ⟨_, cache, textHandler_ok _ b cache x h, rfl⟩
  · obtain ⟨x, h, _⟩ := businessDataBot_handle_nonempty env b
    exact ⟨_, cache, textHandler_ok _ b cache x h, rfl⟩
  · obtain ⟨x, cache1, h, hup, _⟩ := marketingBot_handle_result env b cache
    exact ⟨x, cache1, h, hup⟩
  · obtain ⟨x, h, _⟩ := rhBot_handle_nonempty env b
    exact ⟨_, cache, textHandler_ok _ b cache x h, rfl⟩
  · obtain ⟨x, h, _⟩ := infoBot_handle_nonempty env b
    exact ⟨_, cache, textHandler_ok _ b cache x h, rfl⟩
  · obtain ⟨x, h, _⟩ := fallbackBot_handle_nonempty env b
    exact ⟨_, cache, textHandler_ok _ b cache x h, rfl⟩

/-- C12 (as stated, refuted): not every handler returns a non-empty string. With the
label `marketing`, the dispatch of `runBot` selects `marketingBot`, whose `handle`
returns the completion of `generateResponse` as it is; when the completion is the empty
text, the handler resolves to the empty string. -/
theorem marketingBot_handle_empty_answer :
    ((agents (sampleBotEnv "")).dispatch "marketing" (sampleBundle "plan marketing")
      emptyResponses).1 = .ok (.str "") := by
  rfl

/-- C12 (amended): for every label the dispatch of `runBot` selects exactly one handler,
`fallbackBot` for every label outside the five named ones; the handlers of `comptableBot`,
`businessDataBot`, `rhBot`, `infoBot` and `fallbackBot` return a non-empty string for
every input bundle, lookups failing or not; the handler of `marketingBot` throws for no
input bundle and, whenever the completions it is given are strings, returns a string,
which is empty only when a completion call returned the empty text. -/
theorem dispatch_selects_one_handler_that_answers (env : BotEnv) (bots : Bots) (b : Bundle)
    (cache : ResponseCache) :
    (bots.dispatch "comptable" = bots.comptableBot
      ∧ bots.dispatch "business" = bots.businessDataBot
      ∧ bots.dispatch "marketing" = bots.marketingBot
      ∧ bots.dispatch "rh" = bots.rhBot
      ∧ bots.dispatch "info" = bots.infoBot
      ∧ ∀ other, other ∉ ["comptable", "business", "marketing", "rh", "info"] →
          bots.dispatch other = bots.fallbackBot)
    ∧ (∃ x, comptableBot.handle env b = .ok x ∧ x ≠ "")
    ∧ (∃ x, businessDataBot.handle env b = .ok x ∧ x ≠ "")
    ∧ (∃ x, rhBot.handle env b = .ok x ∧ x ≠ "")
    ∧ (∃ x, infoBot.handle env b = .ok x ∧ x ≠ "")
    ∧ (∃ x, fallbackBot.handle env b = .ok x ∧ x ≠ "")
    ∧ (∃ x cache1, marketingBot.handle env b cache = (.ok x, cache1)
        ∧ ((∀ p n reply value, env.openai.postPrompt p n = .ok reply →
              reply.content = some value → ∃ text, value = .str text) →
            ∃ text, x = .str text
              ∧ (text = "" → ∃ p n reply, env.openai.postPrompt p n = .ok reply
                  ∧ reply.content = some (.str "")))) := by
  refine ⟨⟨rfl, rfl, rfl, rfl, rfl, ?_⟩, comptableBot_handle_nonempty env b,
    businessDataBot_handle_nonempty env b, rhBot_handle_nonempty env b,
    infoBot_handle_nonempty env b, fallbackBot_handle_nonempty env b, ?_⟩
  · intro other hother
    simp only [List.mem_cons, List.mem_singleton, List.not_mem_nil, or_false, not_or] at hother
    obtain ⟨h1, h2, h3, h4, h5⟩ := hother
    simp [Bots.dispatch, h1, h2, h3, h4, h5]
  · obtain ⟨x, cache1, h, _, hx⟩ := marketingBot_handle_result env b cache
    refine ⟨x, cache1, h, ?_⟩
    intro hstrings
    rcases hx with ⟨text, rfl, hne⟩ | ⟨p, n, reply, hn, hc⟩
    · exact ⟨text, rfl, fun e => absurd e hne⟩
    · obtain ⟨text, rfl⟩ := hstrings p n reply x hn hc
      exact ⟨text, rfl, fun e => ⟨p, n, reply, hn, by rw [hc, e]⟩⟩

/-- Witness for C12 (amended): the label `autre` goes to `fallbackBot`, and with
completions that are all the text `Publiez chaque jour` the handler of `marketingBot`
answers with that text. -/
theorem dispatch_selects_one_handler_that_answers_witness :
    (agents (sampleBotEnv "Publiez chaque jour")).dispatch "autre"
        = (agents (sampleBotEnv "Publiez chaque jour")).fallbackBot
    ∧ ∃ x cache1, marketingBot.handle (sampleBotEnv "Publiez chaque jour")
          (sampleBundle "plan marketing") emptyResponses = (.ok x, cache1)
        ∧ ∃ text, x = .str text
            ∧ (text = "" → ∃ p n reply,
                (sampleBotEnv "Publiez chaque jour").openai.postPrompt p n = .ok reply
                  ∧ reply.content = some (.str "")) :=
  ⟨(dispatch_selects_one_handler_that_answers (sampleBotEnv "Publiez chaque jour")
      (agents (sampleBotEnv "Publiez chaque jour")) (sampleBundle "plan marketing")
      emptyResponses).1.2.2.2.2.2 "autre" (by decide),
   let ⟨x, cache1, h, hx⟩ :=
     (dispatch_selects_one_handler_that_answers (sampleBotEnv "Publiez chaque jour")
      (agents (sampleBotEnv "Publiez chaque jour")) (sampleBundle "plan marketing")
      emptyResponses).2.2.2.2.2.2
   ⟨x, cache1, h, hx (fun _ _ reply value hr hc => by
      simp only [sampleBotEnv, sampleBotEnvWith, Except.ok.injEq] at hr
      subst hr
      simp only [Option.some.injEq] at hc
      exact ⟨_, hc.symm⟩)⟩⟩

/-! ### `runBot` -/

/-- A cache hit: the `try` block of `runBot` returns the cached text and touches
nothing. -/
theorem runBotSteps_hit (bots : Bots) (ops : StringOps)
    (llm : List Message → Except JsError JsValue) (userId message : String)
    (history : Option (List Message)) (userData : Option UserData) (w : BotWorld) (c : String)
    (h : getCachedAIResponse w.responses (userId ++ ":" ++ message) = some c) (hc : c ≠ "") :
    runBotSteps bots ops llm userId message history userData w = (.ok (.str c), w) := by
  simp [runBotSteps, bind, Step.bind, Step.read, pure, Step.pure, h, truthy, hc]

/-- A cache miss: what the `try` block of `runBot` does, by the answer of the selected
handler, the history, `userData` and the queue. -/
theorem runBotSteps_miss (bots : Bots) (ops : StringOps)
    (llm : List Message → Except JsError JsValue) (userId message : String)
    (history : Option (List Message)) (userData : Option UserData) (w : BotWorld)
    (label : String)
    (hmiss : truthy (getCachedAIResponse w.responses (userId ++ ":" ++ message)) = false)
    (hlabel : determineIntention ops llm message (history.getD []) = .ok label) :
    runBotSteps bots ops llm userId message history userData w =
      match bots.dispatch label
          { userId := userId, message := message, history := history, userData := userData }
          w.responses with
      | (.error e, cache1) =>
          (.error e, { responses := cache1, queue := w.queue,
                       events := w.events ++ [.classifierCalled, .botCalled label] })
      | (.ok response, cache1) =>
          match history with
          | none =>
              (.error { name := "TypeError", message := "Cannot read properties of null" },
                { responses := cacheAIResponse cache1 (userId ++ ":" ++ message) response,
                  queue := w.queue,
                  events := w.events ++ [.classifierCalled, .botCalled label] })
          | some h =>
              if h.length > 5 then
                match userData with
                | none =>
                    (.error { name := "TypeError", message := "Cannot read properties of null" },
                      { responses := cacheAIResponse cache1 (userId ++ ":" ++ message) response,
                        queue := w.queue,
                        events := w.events ++ [.classifierCalled, .botCalled label] })
                | some u =>
                    if w.queue.up then
                      (.ok response,
                        { responses := cacheAIResponse cache1 (userId ++ ":" ++ message) response,
                          queue := { w.queue with jobs := w.queue.jobs ++
                            [{ userId := userId, tenantId := u.tenantId,
                               conversationId := u.conversationId,
                               messages := h.map Message.toJob
                                 ++ [{ role := "user", content := .str message },
                                     { role := "assistant", content := response }] }] },
                          events := w.events
                            ++ [.classifierCalled, .botCalled label, .enqueueCalled] })
                    else
                      (.error (newError "Redis client non disponible pour BullMQ"),
                        { responses := cacheAIResponse cache1 (userId ++ ":" ++ message) response,
                          queue := w.queue,
                          events := w.events
                            ++ [.classifierCalled, .botCalled label, .enqueueCalled] })
              else
                (.ok response,
                  { responses := cacheAIResponse cache1 (userId ++ ":" ++ message) response,
                    queue := w.queue,
                    events := w.events ++ [.classifierCalled, .botCalled label] }) := by
  simp only [runBotSteps, bind, Step.bind, Step.read, pure, Step.pure, hmiss, record,
    Step.modify, Step.ofExcept, hlabel, onResponses, Bool.false_eq_true, if_false]
  rcases hd : bots.dispatch label
      { userId := userId, message := message, history := history, userData := userData }
      w.responses with ⟨r, cache1⟩
  cases r with
  | error e => simp
  | ok response =>
      cases history with
      | none => simp [derefHistory, throw, throwThe, MonadExceptOf.throw]
      | some h =>
          by_cases hlen : h.length > 5
          · cases userData with
            | none =>
                simp [derefHistory, derefUserData, hlen, pure, Except.pure, bind, Step.bind,
                  Step.ofExcept, throw, throwThe, MonadExceptOf.throw]
            | some u =>
                by_cases hup : w.queue.up = true
                · simp [derefHistory, derefUserData, hlen, pure, Except.pure, bind, Step.bind,
                    Step.ofExcept, Step.read, Step.modify, Step.pure, record, addSummaryJob, hup]
                · simp [derefHistory, derefUserData, hlen, pure, Except.pure, bind, Step.bind,
                    Step.ofExcept, Step.read, Step.modify, Step.pure, record, addSummaryJob, hup,
                    throw, throwThe, MonadExceptOf.throw]
          · simp [derefHistory, hlen, pure, Except.pure, Step.pure]

theorem runBotWith_of_steps (bots : Bots) (ops : StringOps)
    (llm : List Message → Except JsError JsValue) (userId message : String)
    (history : Option (List Message)) (userData : Option UserData) (w : BotWorld) :
    runBotWith bots ops llm userId message history userData w =
      match runBotSteps bots ops llm userId message history userData w with
      | (.ok value, w1) => (.ok value, w1)
      | (.error _, w1) => (.ok (.str runBotApology), w1) := by
  simp only [runBotWith, Step.attempt, pure, Step.pure]
  rcases runBotSteps bots ops llm userId message history userData w with ⟨r, w1⟩
  cases r <;> rfl

theorem getCachedAIResponse_cacheAIResponse (cache : ResponseCache) (k : String)
    (r : JsValue) (hup : cache.up = true) :
    getCachedAIResponse (cacheAIResponse cache k r) k = some (valueToStore r) := by
  simp [getCachedAIResponse, cacheAIResponse, hup]

/-- A call of `runBot` on a cache miss that completes its steps: the history is not null
and, when it holds more than 5 messages, `userData` is not null and the queue takes the
job. -/
theorem runBot_completed_call (env : BotEnv) (llm : List Message → Except JsError JsValue)
    (userId message : String) (h : List Message) (userData : Option UserData) (w : BotWorld)
    (hmiss : truthy (getCachedAIResponse w.responses (userId ++ ":" ++ message)) = false)
    (hlong : h.length > 5 → ∃ u, userData = some u ∧ w.queue.up = true) :
    ∃ label response cache1,
      (agents env).dispatch label
          { userId := userId, message := message, history := some h, userData := userData }
          w.responses = (.ok response, cache1)
      ∧ cache1.up = w.responses.up
      ∧ runBot env llm userId message (some h) userData w =
          (.ok response,
            { responses := cacheAIResponse cache1 (userId ++ ":" ++ message) response,
              queue :=
                if h.length > 5 then
                  { w.queue with jobs := w.queue.jobs ++
                      [{ userId := userId, tenantId := userData.bind fun u => u.tenantId,
                         conversationId := userData.bind fun u => u.conversationId,
                         messages := h.map Message.toJob
                           ++ [{ role := "user", content := .str message },
                               { role := "assistant", content := response }] }] }
                else w.queue,
              events := w.events ++ [.classifierCalled, .botCalled label]
                ++ (if h.length > 5 then [.enqueueCalled] else []) }) := by
  obtain ⟨label, hlabel⟩ := determineIntention_returns env.ops llm message ((some h).getD [])
  obtain ⟨response, cache1, hd, hup⟩ := agents_dispatch_ok env label
    { userId := userId, message := message, history := some h, userData := userData }
    w.responses
  refine ⟨label, response, cache1, hd, hup, ?_⟩
  unfold runBot
  rw [runBotWith_of_steps, runBotSteps_miss _ _ _ _ _ _ _ _ label hmiss hlabel, hd]
  by_cases hlen : h.length > 5
  · obtain ⟨u, hu, hq⟩ := hlong hlen
    subst hu
    simp [hlen, hq]
  · simp [hlen]

/-- C13 (as stated, refuted): a cached text does not always short-circuit. The empty text
is a text the response cache can hold: `marketingBot` answers with it when the completion
is empty, and `runBot` stores it. `if (cachedResponse)` treats it as a miss, so the second
of two calls in immediate succession classifies and dispatches again: the classifier is
invoked twice in total. -/
theorem runBot_empty_cached_text_is_a_miss :
    getCachedAIResponse
        (runBot (sampleBotEnv "") marketingCompletion "alice" "plan marketing" (some [])
          (some sampleUserData) (sampleBotWorld true)).2.responses
        ("alice" ++ ":" ++ "plan marketing") = some ""
    ∧ (runBot (sampleBotEnv "") marketingCompletion "alice" "plan marketing" (some [])
          (some sampleUserData)
          (runBot (sampleBotEnv "") marketingCompletion "alice" "plan marketing" (some [])
            (some sampleUserData) (sampleBotWorld true)).2).2.events
        = [.classifierCalled, .botCalled "marketing", .classifierCalled,
            .botCalled "marketing"] := by
  set_option maxRecDepth 100000 in
  constructor <;> rfl

/-- C13 (amended): when the response cache holds a non-empty text for the key built from
`userId` and `message`, `runBot` returns exactly that text and does nothing else: no
classification, no dispatch, no enqueue. When the cache is reachable and a first call on
a miss completes its steps (the history is not null and, when it has more than 5
messages, `userData` is not null and the queue takes the job) with a non-empty response
text, a second call with the same `userId` and `message` returns the identical text, and
the classifier has been invoked once in total. -/
theorem runBot_cached_text_short_circuits (env : BotEnv)
    (llm : List Message → Except JsError JsValue) (userId message : String)
    (history history2 : Option (List Message)) (userData userData2 : Option UserData)
    (w : BotWorld) :
    (∀ c, getCachedAIResponse w.responses (userId ++ ":" ++ message) = some c → c ≠ "" →
        runBot env llm userId message history userData w = (.ok (.str c), w))
    ∧ (w.responses.up = true →
        truthy (getCachedAIResponse w.responses (userId ++ ":" ++ message)) = false →
        (∃ h, history = some h ∧ (h.length > 5 → ∃ u, userData = some u ∧ w.queue.up = true)) →
        (∃ text, text ≠ ""
          ∧ (runBot env llm userId message history userData w).1 = .ok (.str text)) →
        runBot env llm userId message history2 userData2
            (runBot env llm userId message history userData w).2
          = runBot env llm userId message history userData w
        ∧ (runBot env llm userId message history2 userData2
            (runBot env llm userId message history userData w).2).2.events.count
              .classifierCalled
          = w.events.count .classifierCalled + 1) := by
  constructor
  · intro c hc hne
    unfold runBot
    rw [runBotWith_of_steps, runBotSteps_hit _ _ _ _ _ _ _ _ c hc hne]
  · intro hup hmiss hhist htext
    obtain ⟨h, hh, hlong⟩ := hhist
    subst hh
    obtain ⟨label, response, cache1, _, hup1, hrun⟩ :=
      runBot_completed_call env llm userId message h userData w hmiss hlong
    rw [hrun] at htext ⊢
    obtain ⟨text, hresp, htext⟩ := htext
    have hr : response = .str text := Except.ok.inj htext
    subst hr
    have hsecond : ∀ w1 : BotWorld,
        w1.responses = cacheAIResponse cache1 (userId ++ ":" ++ message) (.str text) →
        runBot env llm userId message history2 userData2 w1 = (.ok (.str text), w1) := by
      intro w1 hw1
      unfold runBot
      rw [runBotWith_of_steps, runBotSteps_hit _ _ _ _ _ _ _ _ text
        (by rw [hw1]; exact getCachedAIResponse_cacheAIResponse _ _ _ (hup1.trans hup)) hresp]
    rw [hsecond _ rfl]
    refine ⟨rfl, ?_⟩
    by_cases hlen : h.length > 5 <;> simp [hlen, List.count_append, List.count_cons]

theorem runBot_cached_text_short_circuits_witness :
    runBot (sampleBotEnv "") failingCompletion "alice" "Bonjour" none none
        (runBot (sampleBotEnv "") failingCompletion "alice" "Bonjour" (some [])
          (some sampleUserData) (sampleBotWorld true)).2
      = runBot (sampleBotEnv "") failingCompletion "alice" "Bonjour" (some [])
          (some sampleUserData) (sampleBotWorld true)
    ∧ (runBot (sampleBotEnv "") failingCompletion "alice" "Bonjour" none none
        (runBot (sampleBotEnv "") failingCompletion "alice" "Bonjour" (some [])
          (some sampleUserData) (sampleBotWorld true)).2).2.events.count .classifierCalled
      = (sampleBotWorld true).events.count .classifierCalled + 1 :=
  (runBot_cached_text_short_circuits (sampleBotEnv "") failingCompletion "alice" "Bonjour"
    (some []) none (some sampleUserData) none (sampleBotWorld true)).2 rfl rfl
    ⟨[], rfl, fun hlen => absurd hlen (by decide)⟩
    ⟨"Désolé, je n\"ai pas bien compris votre demande. Pourriez-vous reformuler ? Je peux vous aider avec des questions sur vos produits, ventes, employés, comptabilité ou marketing.",
      by decide, rfl⟩

/-- C14 (as stated, refuted): the threshold of `runBot` is on messages, not on turns. A
turn is one user message plus the resulting assistant reply; a history of three turns
holds six messages, and on a cache miss `runBot` enqueues a SummaryJob for it, although
the conversation has 5 or fewer turns. -/
theorem runBot_enqueues_on_three_turns :
    turnCount threeTurns = 3
    ∧ threeTurns.length = 6
    ∧ (runBot (sampleBotEnv "") failingCompletion "alice" "Bonjour" (some threeTurns)
          (some sampleUserData) (sampleBotWorld true)).2.events
        = [.classifierCalled, .botCalled "fallback", .enqueueCalled]
    ∧ (runBot (sampleBotEnv "") failingCompletion "alice" "Bonjour" (some threeTurns)
          (some sampleUserData) (sampleBotWorld true)).2.queue.jobs.length = 1 := by
  set_option maxRecDepth 100000 in
  refine ⟨rfl, rfl, ?_, ?_⟩ <;> rfl

/-- C14 (amended): on a response-cache miss, with a history and a `userData` that are not
null and a queue that takes jobs, `runBot` enqueues exactly one SummaryJob when the
history holds more than 5 messages, and none when it holds 5 or fewer. The job carries
the history followed by the user message and the response that `runBot` returns. -/
theorem runBot_enqueues_iff_more_than_five_messages (env : BotEnv)
    (llm : List Message → Except JsError JsValue) (userId message : String)
    (h : List Message) (u : UserData) (w : BotWorld)
    (hmiss : truthy (getCachedAIResponse w.responses (userId ++ ":" ++ message)) = false)
    (hq : w.queue.up = true) :
    (runBot env llm userId message (some h) (some u) w).2.events.count .enqueueCalled
        = w.events.count .enqueueCalled + (if h.length > 5 then 1 else 0)
    ∧ (h.length > 5 → ∃ response,
        (runBot env llm userId message (some h) (some u) w).1 = .ok response
        ∧ (runBot env llm userId message (some h) (some u) w).2.queue.jobs
          = w.queue.jobs ++
              [{ userId := userId, tenantId := u.tenantId, conversationId := u.conversationId,
                 messages := h.map Message.toJob
                   ++ [{ role := "user", content := .str message },
                       { role := "assistant", content := response }] }])
    ∧ (h.length ≤ 5 → (runBot env llm userId message (some h) (some u) w).2.queue = w.queue) := by
  obtain ⟨label, response, cache1, _, _, hrun⟩ :=
    runBot_completed_call env llm userId message h (some u) w hmiss (fun _ => ⟨u, rfl, hq⟩)
  rw [hrun]
  refine ⟨?_, ?_, ?_⟩
  · by_cases hlen : h.length > 5 <;> simp [hlen, List.count_append, List.count_cons]
  · intro hlen
    exact ⟨response, rfl, by simp [hlen]⟩
  · intro hlen
    have hnot : ¬ h.length > 5 := by omega
    simp [hnot]

theorem runBot_enqueues_iff_more_than_five_messages_witness :
    (runBot (sampleBotEnv "") failingCompletion "alice" "Bonjour" (some threeTurns)
        (some sampleUserData) (sampleBotWorld true)).2.events.count .enqueueCalled
      = (sampleBotWorld true).events.count .enqueueCalled
          + (if threeTurns.length > 5 then 1 else 0) :=
  (runBot_enqueues_iff_more_than_five_messages (sampleBotEnv "") failingCompletion "alice"
    "Bonjour" threeTurns sampleUserData (sampleBotWorld true) rfl rfl).1

/-- C15 (as stated, refuted): the enqueue is awaited inside the `try` block. With a
history of six messages and a queue that rejects the job, `fallbackBot` has produced its
answer and the enqueue has been attempted, but `runBot` returns the fixed apology, not
the answer of the handler. -/
theorem runBot_enqueue_failure_fails_turn :
    ((agents (sampleBotEnv "")).dispatch "fallback"
        { userId := "alice", message := "Bonjour", history := some threeTurns,
          userData := some sampleUserData } emptyResponses).1
      = .ok (.str "Désolé, je n\"ai pas bien compris votre demande. Pourriez-vous reformuler ? Je peux vous aider avec des questions sur vos produits, ventes, employés, comptabilité ou marketing.")
    ∧ (runBot (sampleBotEnv "") failingCompletion "alice" "Bonjour" (some threeTurns)
          (some sampleUserData) (sampleBotWorld false)).2.events
        = [.classifierCalled, .botCalled "fallback", .enqueueCalled]
    ∧ (runBot (sampleBotEnv "") failingCompletion "alice" "Bonjour" (some threeTurns)
          (some sampleUserData) (sampleBotWorld false)).1 = .ok (.str runBotApology)
    ∧ runBotApology ≠ "Désolé, je n\"ai pas bien compris votre demande. Pourriez-vous reformuler ? Je peux vous aider avec des questions sur vos produits, ventes, employés, comptabilité ou marketing." := by
  set_option maxRecDepth 100000 in
  refine ⟨rfl, ?_, ?_, by decide⟩ <;> rfl

/-- C15 (amended): when the enqueue of the SummaryJob fails, `runBot` does not reject, but
the turn is lost: on a cache miss with more than 5 messages of history, after the handler
has answered and its response has been stored in the response cache, a queue that rejects
the job makes `runBot` return the fixed apology instead of the response of the handler,
and no job is added. -/
theorem runBot_apologizes_when_enqueue_fails (env : BotEnv)
    (llm : List Message → Except JsError JsValue) (userId message : String)
    (h : List Message) (u : UserData) (w : BotWorld)
    (hmiss : truthy (getCachedAIResponse w.responses (userId ++ ":" ++ message)) = false)
    (hlen : h.length > 5) (hq : w.queue.up = false) :
    ∃ label response cache1,
      (agents env).dispatch label
          { userId := userId, message := message, history := some h, userData := some u }
          w.responses = (.ok response, cache1)
      ∧ runBot env llm userId message (some h) (some u) w =
          (.ok (.str runBotApology),
            { responses := cacheAIResponse cache1 (userId ++ ":" ++ message) response,
              queue := w.queue,
              events := w.events ++ [.classifierCalled, .botCalled label, .enqueueCalled] }) := by
  obtain ⟨label, hlabel⟩ := determineIntention_returns env.ops llm message ((some h).getD [])
  obtain ⟨response, cache1, hd, _⟩ := agents_dispatch_ok env label
    { userId := userId, message := message, history := some h, userData := some u }
    w.responses
  refine ⟨label, response, cache1, hd, ?_⟩
  unfold runBot
  rw [runBotWith_of_steps, runBotSteps_miss _ _ _ _ _ _ _ _ label hmiss hlabel, hd]
  simp [hlen, hq]

theorem runBot_apologizes_when_enqueue_fails_witness :
    ∃ label response cache1,
      (agents (sampleBotEnv "")).dispatch label
          { userId := "alice", message := "Bonjour", history := some threeTurns,
            userData := some sampleUserData }
          (sampleBotWorld false).responses = (.ok response, cache1)
      ∧ runBot (sampleBotEnv "") failingCompletion "alice" "Bonjour" (some threeTurns)
          (some sampleUserData) (sampleBotWorld false) =
          (.ok (.str runBotApology),
            { responses := cacheAIResponse cache1 ("alice" ++ ":" ++ "Bonjour") response,
              queue := (sampleBotWorld false).queue,
              events := (sampleBotWorld false).events
                ++ [.classifierCalled, .botCalled label, .enqueueCalled] }) :=
  runBot_apologizes_when_enqueue_fails (sampleBotEnv "") failingCompletion "alice" "Bonjour"
    threeTurns sampleUserData (sampleBotWorld false) rfl (by decide) rfl

/-- `runBot` never rejects, over any six bot modules (handlers that throw included), any
classifier completion, any state of the response cache and of the queue and any input, a
null history or `userData` included: it resolves to a value; an exception raised by the
steps of its `try` block is converted into the fixed apology, and a value the steps
resolve to is returned as it is. On a cache miss the steps raise an exception when the
selected handler throws, when the history is null, and when the history has more than 5
messages and `userData` is null or the queue rejects the job. -/
theorem runBotWith_never_rejects (bots : Bots) (ops : StringOps)
    (llm : List Message → Except JsError JsValue) (userId message : String)
    (history : Option (List Message)) (userData : Option UserData) (w : BotWorld) :
    (∃ value, (runBotWith bots ops llm userId message history userData w).1 = .ok value)
    ∧ (∀ error w1, runBotSteps bots ops llm userId message history userData w = (.error error, w1) →
        runBotWith bots ops llm userId message history userData w
          = (.ok (.str runBotApology), w1))
    ∧ (∀ value w1, runBotSteps bots ops llm userId message history userData w = (.ok value, w1) →
        runBotWith bots ops llm userId message history userData w = (.ok value, w1))
    ∧ (truthy (getCachedAIResponse w.responses (userId ++ ":" ++ message)) = false →
        ((∃ label error cache1,
            determineIntention ops llm message (history.getD []) = .ok label
            ∧ bots.dispatch label
                { userId := userId, message := message, history := history,
                  userData := userData } w.responses = (.error error, cache1))
          ∨ history = none
          ∨ (∃ h, history = some h ∧ h.length > 5
              ∧ (userData = none ∨ w.queue.up = false))) →
        (runBotWith bots ops llm userId message history userData w).1
          = .ok (.str runBotApology)) := by
  refine ⟨?_, ?_, ?_, ?_⟩
  · rw [runBotWith_of_steps]
    rcases runBotSteps bots ops llm userId message history userData w with ⟨r, w1⟩
    cases r with
    | ok value => exact ⟨value, rfl⟩
    | error e => exact ⟨.str runBotApology, rfl⟩
  · intro error w1 hsteps
    rw [runBotWith_of_steps, hsteps]
  · intro value w1 hsteps
    rw [runBotWith_of_steps, hsteps]
  · intro hmiss hcause
    obtain ⟨label, hlabel⟩ := determineIntention_returns ops llm message (history.getD [])
    rw [runBotWith_of_steps, runBotSteps_miss _ _ _ _ _ _ _ _ label hmiss hlabel]
    rcases hd : bots.dispatch label
        { userId := userId, message := message, history := history, userData := userData }
        w.responses with ⟨r, cache1⟩
    cases r with
    | error e => rfl
    | ok response =>
        rcases hcause with ⟨label2, e, cache2, hlabel2, hd2⟩ | hnone | ⟨h, hh, hlen, hbad⟩
        · rw [hlabel] at hlabel2
          cases hlabel2
          rw [hd] at hd2
          cases hd2
        · subst hnone
          rfl
        · subst hh
          rcases hbad with hu | hq
          · subst hu
            simp [hlen]
          · cases userData with
            | none => simp [hlen]
            | some u => simp [hlen, hq]

/-- C16 (the code departs from it): `runBot` does not always resolve to a response text.
`generateResponse` returns the content of the completion unchecked, `marketingBot` hands
it on and `runBot` returns what the handler returned: with the label `marketing` and a
completion whose content is `null`, `runBot` resolves to `null`, and leaves the text
`null` in the response cache. The rest of the claim holds: for every input, over any bot
modules, `runBot` never rejects, an exception raised by its steps is converted into the
fixed apology, and a value the steps resolve to is returned as it is. -/
theorem runBot_resolves_to_null_completion :
    (runBot (sampleBotEnvWith .null) marketingCompletion "alice" "plan marketing" (some [])
        (some sampleUserData) (sampleBotWorld true)).1 = .ok .null
    ∧ getCachedAIResponse
        (runBot (sampleBotEnvWith .null) marketingCompletion "alice" "plan marketing"
          (some []) (some sampleUserData) (sampleBotWorld true)).2.responses
        ("alice" ++ ":" ++ "plan marketing") = some "null"
    ∧ (∀ (bots : Bots) (ops : StringOps) (llm : List Message → Except JsError JsValue)
        (userId message : String) (history : Option (List Message))
        (userData : Option UserData) (w : BotWorld),
        (∃ value, (runBotWith bots ops llm userId message history userData w).1 = .ok value)
        ∧ (∀ error w1,
            runBotSteps bots ops llm userId message history userData w = (.error error, w1) →
            runBotWith bots ops llm userId message history userData w
              = (.ok (.str runBotApology), w1))
        ∧ (∀ value w1,
            runBotSteps bots ops llm userId message history userData w = (.ok value, w1) →
            runBotWith bots ops llm userId message history userData w = (.ok value, w1))) := by
  refine ⟨?_, ?_, ?_⟩
  · set_option maxRecDepth 100000 in
    rfl
  · set_option maxRecDepth 100000 in
    rfl
  · intro bots ops llm userId message history userData w
    obtain ⟨h1, h2, h3, _⟩ :=
      runBotWith_never_rejects bots ops llm userId message history userData w
    exact ⟨h1, h2, h3⟩

/-- Witness for C16: with a null history the steps of `runBot` throw after the handler
has answered, and the call resolves to the fixed apology. -/
theorem runBot_resolves_to_null_completion_witness :
    runBotWith (agents (sampleBotEnv "")) asciiOps failingCompletion "alice" "Bonjour" none
        none (sampleBotWorld true)
      = (.ok (.str runBotApology),
          (runBotSteps (agents (sampleBotEnv "")) asciiOps failingCompletion "alice" "Bonjour"
            none none (sampleBotWorld true)).2) :=
  (runBot_resolves_to_null_completion.2.2 (agents (sampleBotEnv "")) asciiOps
    failingCompletion "alice" "Bonjour" none none (sampleBotWorld true)).2.1
    { name := "TypeError", message := "Cannot read properties of null" } _ rfl

/-! ### `generateSummary` -/

theorem hasTypeAndValue_of_ne_null (e : Json) (h : e ≠ .null) :
    hasTypeAndValue e = .ok (entityKept e) := by
  cases e with
  | null => exact absurd rfl h
  | obj fields =>
      unfold entityKept hasTypeAndValue
      simp only [Json.get, bind, Except.bind, pure, Except.pure]
      split_ifs <;> rfl
  | _ => rfl

theorem filterEntities_of_no_null (items : List Json) (h : Json.null ∉ items) :
    filterEntities items = .ok (items.filter entityKept) := by
  induction items with
  | nil => rfl
  | cons e rest ih =>
      have he : e ≠ .null := fun e0 => h (by simp [e0])
      have hrest : Json.null ∉ rest := fun m => h (List.mem_cons_of_mem _ m)
      unfold filterEntities
      rw [hasTypeAndValue_of_ne_null e he, ih hrest]
      simp only [bind, Except.bind, pure, Except.pure, List.filter_cons]

theorem filterEntities_of_null (items : List Json) (h : Json.null ∈ items) :
    ∃ error, filterEntities items = .error error := by
  induction items with
  | nil => simp at h
  | cons e rest ih =>
      unfold filterEntities
      cases e with
      | null => exact ⟨_, rfl⟩
      | obj fields =>
          have hrest : Json.null ∈ rest := by simpa using h
          obtain ⟨error, herr⟩ := ih hrest
          rw [hasTypeAndValue_of_ne_null _ (by simp), herr]
          exact ⟨error, rfl⟩
      | _ =>
          have hrest : Json.null ∈ rest := by simpa using h
          obtain ⟨error, herr⟩ := ih hrest
          rw [hasTypeAndValue_of_ne_null _ (by simp), herr]
          exact ⟨error, rfl⟩

theorem filterEntities_kept (items kept : List Json) (h : filterEntities items = .ok kept) :
    ∀ e ∈ kept, entityKept e = true := by
  by_cases hnull : Json.null ∈ items
  · obtain ⟨error, herr⟩ := filterEntities_of_null items hnull
    rw [herr] at h
    cases h
  · rw [filterEntities_of_no_null items hnull] at h
    cases h
    intro e he
    exact (List.mem_filter.mp he).2

theorem entityKept_spec (e : Json) (h : entityKept e = true) :
    ∃ type value, e.get "type" = .ok (some type) ∧ type.truthy = true
      ∧ e.get "value" = .ok (some value) ∧ value.truthy = true := by
  cases e with
  | obj fields =>
      unfold entityKept hasTypeAndValue at h
      simp only [Json.get, bind, Except.bind, pure, Except.pure] at h
      cases ht : fields.lookup "type" with
      | none => simp [ht, truthyValue] at h
      | some type =>
          cases hv : fields.lookup "value" with
          | none =>
              simp only [ht, hv, truthyValue] at h
              split_ifs at h
          | some value =>
              simp only [ht, hv, truthyValue] at h
              split_ifs at h with htt
              exact ⟨type, value, by simp [Json.get, pure, Except.pure, ht], htt,
                by simp [Json.get, pure, Except.pure, hv], h⟩
  | _ => simp [entityKept, hasTypeAndValue, Json.get, bind, Except.bind, pure, Except.pure,
      truthyValue, throw, throwThe, MonadExceptOf.throw] at h

theorem validateParsed_obj (fields : List (String × Json))
    (h : Json.null ∉ arrayOrEmpty (fields.lookup "entities")) :
    validateParsed (.obj fields) = .ok
      { summary :=
          if truthyValue (fields.lookup "summary") then (fields.lookup "summary").getD .null
          else .str "Résumé non généré.",
        keyPoints := arrayOrEmpty (fields.lookup "keyPoints"),
        entities := (arrayOrEmpty (fields.lookup "entities")).filter entityKept } := by
  unfold validateParsed
  simp only [Json.get, bind, Except.bind, pure, Except.pure]
  cases he : fields.lookup "entities" with
  | none => rfl
  | some entities =>
      cases entities with
      | arr items =>
          rw [he] at h
          simp only [arrayOrEmpty] at h ⊢
          rw [filterEntities_of_no_null items h]
      | _ => rfl

theorem validateParsed_obj_null (fields : List (String × Json))
    (h : Json.null ∈ arrayOrEmpty (fields.lookup "entities")) :
    ∃ error, validateParsed (.obj fields) = .error error := by
  unfold validateParsed
  simp only [Json.get, bind, Except.bind, pure, Except.pure]
  cases he : fields.lookup "entities" with
  | none => simp [he, arrayOrEmpty] at h
  | some entities =>
      cases entities with
      | arr items =>
          rw [he] at h
          simp only [arrayOrEmpty] at h
          obtain ⟨error, herr⟩ := filterEntities_of_null items h
          simp only [herr]
          exact ⟨error, rfl⟩
      | _ => simp [he, arrayOrEmpty] at h

theorem validateParsed_props (parsedResponse : Json) (result : SummaryResult)
    (h : validateParsed parsedResponse = .ok result) :
    result.summary.truthy = true ∧ ∀ e ∈ result.entities, entityKept e = true := by
  cases parsedResponse with
  | null => simp [validateParsed, Json.get, bind, Except.bind, throw, throwThe,
      MonadExceptOf.throw] at h
  | obj fields =>
      by_cases hnull : Json.null ∈ arrayOrEmpty (fields.lookup "entities")
      · obtain ⟨error, herr⟩ := validateParsed_obj_null fields hnull
        rw [herr] at h
        cases h
      · rw [validateParsed_obj fields hnull] at h
        cases h
        refine ⟨?_, fun e he => (List.mem_filter.mp he).2⟩
        by_cases ht : truthyValue (fields.lookup "summary") = true
        · simp only [ht, if_true]
          cases hs : fields.lookup "summary" with
          | none => simp [hs, truthyValue] at ht
          | some v => simpa [hs, truthyValue] using ht
        · have hf : truthyValue (fields.lookup "summary") = false := by simpa using ht
          simp [hf, Json.truthy]
  | bool b =>
      cases h
      exact ⟨by decide, by simp⟩
  | num m x =>
      cases h
      exact ⟨by decide, by simp⟩
  | str s =>
      cases h
      exact ⟨by decide, by simp⟩
  | arr items =>
      cases h
      exact ⟨by decide, by simp⟩

theorem tryCatch_ok {α : Type} (x : α) (handler : JsError → Except JsError α) :
    tryCatch (Except.ok x) handler = .ok x := rfl

theorem tryCatch_error {α : Type} (error : JsError) (handler : JsError → Except JsError α) :
    tryCatch (Except.error error) handler = handler error := rfl

theorem generateSummary_of_steps (env : SummaryEnv)
    (generateChatResponse : List Message → Except JsError JsValue)
    (conversationId : Option String) (messages : Option (List Message)) :
    ∃ result, generateSummary env generateChatResponse conversationId messages = .ok result
      ∧ (result = degradedSummary ∨ ∃ parsed, validateParsed parsed = .ok result) := by
  unfold generateSummary
  cases messages with
  | none => exact ⟨degradedSummary, rfl, Or.inl rfl⟩
  | some ms =>
      simp only [derefMessages, bind, Except.bind, pure, Except.pure]
      cases generateChatResponse
          [{ role := "user", content := summaryPrompt (conversationText ms) }] with
      | error e => exact ⟨degradedSummary, rfl, Or.inl rfl⟩
      | ok responseJson =>
          simp only []
          cases tryCatch (jsonParse env (jsString responseJson))
              (fun _parseError => scrapeResponse env responseJson) with
          | error e => exact ⟨degradedSummary, rfl, Or.inl rfl⟩
          | ok parsed =>
              simp only []
              cases hv : validateParsed parsed with
              | error e => exact ⟨degradedSummary, rfl, Or.inl rfl⟩
              | ok result => exact ⟨result, rfl, Or.inr ⟨parsed, hv⟩⟩

/-- What `generateSummary` returns for a text, by what the inner `try` and `catch` made
of it. -/
theorem generateSummary_of_text (env : SummaryEnv)
    (generateChatResponse : List Message → Except JsError JsValue)
    (conversationId : Option String) (ms : List Message) (text : String)
    (htext : generateChatResponse
      [{ role := "user", content := summaryPrompt (conversationText ms) }] = .ok (.str text)) :
    generateSummary env generateChatResponse conversationId (some ms) =
      tryCatch
        (tryCatch (jsonParse env text) (fun _ => scrapeResponse env (.str text))
          >>= validateParsed)
        (fun _ => pure degradedSummary) := by
  unfold generateSummary
  simp only [derefMessages, bind, Except.bind, pure, Except.pure, htext, jsString]

theorem scrapeResponse_ok (env : SummaryEnv) (text : String) (keyPoints entities : Json)
    (hkp : parseCapture env (env.keyPointsMatch text) = .ok keyPoints)
    (hen : parseCapture env (env.entitiesMatch text) = .ok entities) :
    scrapeResponse env (.str text) = .ok (.obj
      [("summary", .str ((env.summaryMatch text).getD "Impossible d\"extraire le résumé.")),
        ("keyPoints", keyPoints), ("entities", entities)]) := by
  simp [scrapeResponse, hkp, hen, bind, Except.bind, pure, Except.pure]

theorem scrapeResponse_error (env : SummaryEnv) (text : String)
    (h : (∃ error, parseCapture env (env.keyPointsMatch text) = .error error)
      ∨ (∃ error, parseCapture env (env.entitiesMatch text) = .error error)) :
    ∃ error, scrapeResponse env (.str text) = .error error := by
  unfold scrapeResponse
  simp only [bind, Except.bind]
  cases hkp : parseCapture env (env.keyPointsMatch text) with
  | error e => exact ⟨e, rfl⟩
  | ok keyPoints =>
      rcases h with ⟨e, he⟩ | ⟨e, he⟩
      · rw [hkp] at he
        cases he
      · simp only [he]
        exact ⟨e, rfl⟩

theorem scraped_lookups (summary keyPoints entities : Json) :
    List.lookup "summary"
        [("summary", summary), ("keyPoints", keyPoints), ("entities", entities)] = some summary
    ∧ List.lookup "keyPoints"
        [("summary", summary), ("keyPoints", keyPoints), ("entities", entities)]
      = some keyPoints
    ∧ List.lookup "entities"
        [("summary", summary), ("keyPoints", keyPoints), ("entities", entities)]
      = some entities := by
  refine ⟨?_, ?_, ?_⟩ <;> simp [List.lookup]

/-- C20 (as stated, refuted): a text that parses does not always give its parsed fields.
A text whose list of entities holds `null` parses, with a summary and a key point, but
the entity filter reads `null.type`, the outer `catch` takes over, and the degraded
result is returned; the text `null` parses too, and reading `null.summary` ends the same
way. -/
theorem generateSummary_parsed_fields_lost :
    sampleSummaryEnv.parse nullEntityText
      = some (.obj [("summary", .str "Point sur les ventes"),
          ("keyPoints", .arr [.str "ventes"]), ("entities", .arr [.null])])
    ∧ generateSummary sampleSummaryEnv (fun _ => .ok (.str nullEntityText)) (some "conv1")
        (some [{ role := "user", content := "Bonjour" }]) = .ok degradedSummary
    ∧ sampleSummaryEnv.parse "null" = some .null
    ∧ generateSummary sampleSummaryEnv (fun _ => .ok (.str "null")) (some "conv1")
        (some [{ role := "user", content := "Bonjour" }]) = .ok degradedSummary := by
  refine ⟨rfl, rfl, rfl, rfl⟩

/-- C20 (amended): `generateSummary` never throws, whatever the messages, the completion
call and the text of the model: it returns a result whose summary is truthy (never the
empty string), whose key points are a list, and whose entities each have a truthy type
and a truthy value. For a text that parses to an object whose list of entities holds no
`null`, the result carries the parsed fields: the summary (the placeholder when it is
missing or falsy), the key points (none when they are not an array) and the entities
that have a type and a value. For a text that parses to a value without properties, the
result is the placeholder summary with no key point and no entity. For a text that does
not parse, when the captured array texts parse and the entities hold no `null`, the
result carries the scraped fields. The degraded result is returned when the text parses
to `null`, when the list of entities holds `null`, and when a captured array text does
not parse. -/
theorem generateSummary_never_throws (env : SummaryEnv)
    (generateChatResponse : List Message → Except JsError JsValue)
    (conversationId : Option String) (messages : Option (List Message)) :
    (∃ result, generateSummary env generateChatResponse conversationId messages = .ok result
      ∧ result.summary.truthy = true
      ∧ ∀ e ∈ result.entities, ∃ type value, e.get "type" = .ok (some type)
          ∧ type.truthy = true ∧ e.get "value" = .ok (some value) ∧ value.truthy = true)
    ∧ (∀ ms text, messages = some ms →
        generateChatResponse
          [{ role := "user", content := summaryPrompt (conversationText ms) }]
          = .ok (.str text) →
        (∀ fields, env.parse text = some (.obj fields) →
          Json.null ∉ arrayOrEmpty (fields.lookup "entities") →
          generateSummary env generateChatResponse conversationId messages = .ok
            { summary :=
                if truthyValue (fields.lookup "summary") then
                  (fields.lookup "summary").getD .null
                else .str "Résumé non généré.",
              keyPoints := arrayOrEmpty (fields.lookup "keyPoints"),
              entities := (arrayOrEmpty (fields.lookup "entities")).filter entityKept })
        ∧ (∀ parsed, env.parse text = some parsed → parsed ≠ .null →
            (∀ fields, parsed ≠ .obj fields) →
            generateSummary env generateChatResponse conversationId messages
              = .ok placeholderSummary)
        ∧ (env.parse text = none → ∀ keyPoints entities,
            parseCapture env (env.keyPointsMatch text) = .ok keyPoints →
            parseCapture env (env.entitiesMatch text) = .ok entities →
            Json.null ∉ arrayOrEmpty (some entities) →
            generateSummary env generateChatResponse conversationId messages = .ok
              { summary :=
                  if (env.summaryMatch text).getD "Impossible d\"extraire le résumé." != "" then
                    .str ((env.summaryMatch text).getD "Impossible d\"extraire le résumé.")
                  else .str "Résumé non généré.",
                keyPoints := arrayOrEmpty (some keyPoints),
                entities := (arrayOrEmpty (some entities)).filter entityKept })
        ∧ (env.parse text = some .null →
            generateSummary env generateChatResponse conversationId messages
              = .ok degradedSummary)
        ∧ (∀ fields, env.parse text = some (.obj fields) →
            Json.null ∈ arrayOrEmpty (fields.lookup "entities") →
            generateSummary env generateChatResponse conversationId messages
              = .ok degradedSummary)
        ∧ (env.parse text = none →
            ((∃ error, parseCapture env (env.keyPointsMatch text) = .error error)
              ∨ (∃ error, parseCapture env (env.entitiesMatch text) = .error error)
              ∨ (∃ keyPoints entities,
                  parseCapture env (env.keyPointsMatch text) = .ok keyPoints
                  ∧ parseCapture env (env.entitiesMatch text) = .ok entities
                  ∧ Json.null ∈ arrayOrEmpty (some entities))) →
            generateSummary env generateChatResponse conversationId messages
              = .ok degradedSummary)) := by
  constructor
  · obtain ⟨result, hok, hcase⟩ :=
      generateSummary_of_steps env generateChatResponse conversationId messages
    refine ⟨result, hok, ?_⟩
    rcases hcase with hdeg | ⟨parsed, hv⟩
    · subst hdeg
      exact ⟨by decide, by simp [degradedSummary]⟩
    · obtain ⟨hs, he⟩ := validateParsed_props parsed result hv
      exact ⟨hs, fun e hmem => entityKept_spec e (he e hmem)⟩
  · intro ms text hms htext
    subst hms
    rw [generateSummary_of_text env generateChatResponse conversationId ms text htext]
    refine ⟨?_, ?_, ?_, ?_, ?_, ?_⟩
    · intro fields hparse hnull
      simp only [jsonParse, hparse, pure, Except.pure, tryCatch_ok, bind, Except.bind]
      rw [validateParsed_obj fields hnull]
      rfl
    · intro parsed hparse hne hobj
      simp only [jsonParse, hparse, pure, Except.pure, tryCatch_ok, bind, Except.bind]
      cases parsed with
      | null => exact absurd rfl hne
      | obj fields => exact absurd rfl (hobj fields)
      | _ => rfl
    · intro hparse keyPoints entities hkp hen hnull
      simp only [jsonParse, hparse, throw, throwThe, MonadExceptOf.throw, tryCatch_error,
        bind, Except.bind]
      rw [scrapeResponse_ok env text keyPoints entities hkp hen]
      obtain ⟨h1, h2, h3⟩ := scraped_lookups
        (.str ((env.summaryMatch text).getD "Impossible d\"extraire le résumé."))
        keyPoints entities
      simp only []
      rw [validateParsed_obj _ (by rw [h3]; exact hnull), h1, h2, h3]
      rfl
    · intro hparse
      simp only [jsonParse, hparse, pure, Except.pure, tryCatch_ok, bind, Except.bind]
      rfl
    · intro fields hparse hnull
      simp only [jsonParse, hparse, pure, Except.pure, tryCatch_ok, bind, Except.bind]
      obtain ⟨error, herr⟩ := validateParsed_obj_null fields hnull
      rw [herr]
      rfl
    · intro hparse hbad
      simp only [jsonParse, hparse, throw, throwThe, MonadExceptOf.throw, tryCatch_error,
        bind, Except.bind]
      rcases hbad with hkp | hen | ⟨keyPoints, entities, hkp, hen, hnull⟩
      · obtain ⟨error, herr⟩ := scrapeResponse_error env text (Or.inl hkp)
        rw [herr]
        rfl
      · obtain ⟨error, herr⟩ := scrapeResponse_error env text (Or.inr hen)
        rw [herr]
        rfl
      · rw [scrapeResponse_ok env text keyPoints entities hkp hen]
        obtain ⟨_, _, h3⟩ := scraped_lookups
          (.str ((env.summaryMatch text).getD "Impossible d\"extraire le résumé."))
          keyPoints entities
        obtain ⟨error, herr⟩ := validateParsed_obj_null _ (by rw [h3]; exact hnull)
        simp only []
        rw [herr]
        rfl

theorem generateSummary_never_throws_witness :
    generateSummary sampleSummaryEnv (fun _ => .ok (.str nearJsonText)) (some "conv1")
        (some [{ role := "user", content := "Bonjour" }]) = .ok
      { summary := .str "Point sur les ventes", keyPoints := [.str "ventes"], entities := [] } :=
  ((generateSummary_never_throws sampleSummaryEnv (fun _ => .ok (.str nearJsonText))
      (some "conv1") (some [{ role := "user", content := "Bonjour" }])).2
    [{ role := "user", content := "Bonjour" }] nearJsonText rfl rfl).2.2.1 rfl
    (.arr [.str "ventes"]) (.arr []) rfl rfl (by simp [arrayOrEmpty])

/-! ### `generateSummary` and a failing completion call -/

/-- C21 (as stated, refuted): a failure of the completion call is not propagated. With a
completion call that times out, `generateSummary` returns the degraded result to its
caller: the outer `catch` takes every exception. -/
theorem generateSummary_swallows_llm_failure :
    failingCompletion
        [{ role := "user",
           content := summaryPrompt (conversationText [{ role := "user", content := "Bonjour" }]) }]
      = .error { name := "AxiosError", message := "timeout" }
    ∧ generateSummary sampleSummaryEnv failingCompletion (some "conv1")
        (some [{ role := "user", content := "Bonjour" }]) = .ok degradedSummary := by
  exact ⟨rfl, rfl⟩

/-- C21 (amended): `generateSummary` throws for no error at all, infrastructure-level
errors included. When the completion call rejects, the outer `catch` returns the
degraded result. With the `generateChatResponse` of the repository, whose own `catch`
turns the failure of every HTTP attempt (service unreachable, timeout) into its
degraded-mode text, `generateSummary` gets that text, which is not JSON and matches none
of the three regular expressions, and returns the scraped placeholders. In both cases
the caller gets a result and no error. -/
theorem generateSummary_degrades_on_llm_failure (env : SummaryEnv)
    (conversationId : Option String) (ms : List Message) :
    (∀ (llm : List Message → Except JsError JsValue) (error : JsError),
        llm [{ role := "user", content := summaryPrompt (conversationText ms) }]
          = .error error →
        generateSummary env llm conversationId (some ms) = .ok degradedSummary)
    ∧ (∀ openai : OpenAiEnv, openai.isTestEnv = false →
        (∀ n, ∃ error,
          openai.postChat
            [{ role := "user", content := summaryPrompt (conversationText ms) }] n
            = .error error) →
        env.parse fallbackResponse = none →
        env.summaryMatch fallbackResponse = none →
        env.keyPointsMatch fallbackResponse = none →
        env.entitiesMatch fallbackResponse = none →
        generateSummary env (generateChatResponse openai) conversationId (some ms) = .ok
          { summary := .str "Impossible d\"extraire le résumé.", keyPoints := [],
            entities := [] }) := by
  constructor
  · intro llm error h
    unfold generateSummary
    simp only [derefMessages, bind, Except.bind, pure, Except.pure, h]
    rfl
  · intro openai htest hfail hparse hs hk he
    obtain ⟨e, herr⟩ := postWithRetries_all_fail
      (openai.postChat [{ role := "user", content := summaryPrompt (conversationText ms) }])
      openai.retries hfail (openai.retries + 1) 0 rfl (Nat.succ_pos _)
    have htext := generateChatResponse_degraded_of_error openai
      [{ role := "user", content := summaryPrompt (conversationText ms) }]
      (Or.inr ⟨htest, e, herr⟩)
    rw [generateSummary_of_text env (generateChatResponse openai) conversationId ms
      fallbackResponse htext]
    simp only [jsonParse, hparse, throw, throwThe, MonadExceptOf.throw, tryCatch_error]
    rw [scrapeResponse_ok env fallbackResponse (.arr []) (.arr [])
      (by simp [parseCapture, hk, pure, Except.pure])
      (by simp [parseCapture, he, pure, Except.pure])]
    simp only [hs, Option.getD, bind, Except.bind]
    rfl

theorem generateSummary_degrades_on_llm_failure_witness :
    generateSummary sampleSummaryEnv failingCompletion (some "conv1")
        (some [{ role := "user", content := "Bonjour" }]) = .ok degradedSummary :=
  (generateSummary_degrades_on_llm_failure sampleSummaryEnv (some "conv1")
    [{ role := "user", content := "Bonjour" }]).1 failingCompletion
    { name := "AxiosError", message := "timeout" } rfl

/-! ### `saveSummary` -/

theorem isFor_iff (conversationId : String) (tenantId : Option String) (d : SummaryDoc) :
    SummaryDoc.isFor conversationId tenantId d = true
      ↔ d.conversationId = some conversationId ∧ d.tenantId = tenantId := by
  simp [SummaryDoc.isFor, Query.matches, summaryFilter, SummaryDoc.field]

theorem filter_updateFirst {α : Type} (p : α → Bool) (d : α) (hd : p d = true) (l : List α) :
    (updateFirst p (fun _ => d) l).filter p
      = match l.filter p with
        | [] => []
        | _ :: rest => d :: rest := by
  induction l with
  | nil => rfl
  | cons a rest ih =>
      by_cases ha : p a = true
      · simp [updateFirst, ha, hd, List.filter_cons]
      · have hf : p a = false := by simpa using ha
        simp only [updateFirst, hf, List.filter_cons, Bool.false_eq_true, if_false]
        exact ih

theorem find?_of_filter_nil {α : Type} (p : α → Bool) (l : List α) (h : l.filter p = []) :
    l.find? p = none := by
  induction l with
  | nil => rfl
  | cons a rest ih =>
      by_cases ha : p a = true
      · simp [List.filter_cons, ha] at h
      · have hf : p a = false := by simpa using ha
        simp only [List.filter_cons, hf, Bool.false_eq_true, if_false] at h
        simp [List.find?, hf, ih h]

theorem find?_of_filter_cons {α : Type} (p : α → Bool) (l : List α) (x : α) (rest : List α)
    (h : l.filter p = x :: rest) : l.find? p = some x := by
  induction l with
  | nil => simp at h
  | cons a tail ih =>
      by_cases ha : p a = true
      · simp only [List.filter_cons, ha, if_true, List.cons.injEq] at h
        rw [← h.1]
        simp [List.find?, ha]
      · have hf : p a = false := by simpa using ha
        simp only [List.filter_cons, hf, Bool.false_eq_true, if_false] at h
        simp [List.find?, hf, ih h]

/-- The upsert of `saveSummary` on a reachable database that takes the fields: the
document it returns carries the cast fields, and among the summaries of the
conversation it stands in place of the first one, or alone when there was none. -/
theorem findOneAndUpdate_upserts (casts : SchemaCasts) (s : Stores) (now : Nat)
    (newId conversationId : String) (tenantId : Option String) (fields cast : SummaryResult)
    (stamp : Nat) (hup : s.world.mongoUp = true) (hcast : casts.update fields = .ok cast) :
    ∃ doc s1,
      ConversationSummary.findOneAndUpdate casts s now newId conversationId tenantId fields
        stamp = .ok (doc, s1)
      ∧ s1.world = s.world
      ∧ doc.summary = cast.summary ∧ doc.keyPoints = cast.keyPoints
      ∧ doc.entities = cast.entities ∧ doc.lastMessageTimestamp = some stamp
      ∧ summariesOf s1 tenantId conversationId
          = match summariesOf s tenantId conversationId with
            | [] => [doc]
            | _ :: rest => doc :: rest := by
  unfold ConversationSummary.findOneAndUpdate
  simp only [hup, if_true, hcast, bind, Except.bind, pure, Except.pure]
  cases hf : summariesOf s tenantId conversationId with
  | nil =>
      have hfind := find?_of_filter_nil _ _ hf
      simp only [hfind]
      refine ⟨_, _, rfl, rfl, rfl, rfl, rfl, rfl, ?_⟩
      have hdoc : SummaryDoc.isFor conversationId tenantId
          { id := newId, tenantId := tenantId, userId := none,
            conversationId := some conversationId, summary := cast.summary,
            keyPoints := cast.keyPoints, entities := cast.entities,
            lastMessageTimestamp := some stamp, updatedAt := some now } = true :=
        (isFor_iff _ _ _).mpr ⟨rfl, rfl⟩
      unfold summariesOf at hf ⊢
      simp [List.filter_append, hf, List.filter_cons, hdoc]
  | cons found rest =>
      have hfind := find?_of_filter_cons _ _ _ _ hf
      simp only [hfind]
      refine ⟨_, _, rfl, rfl, rfl, rfl, rfl, rfl, ?_⟩
      have hmem : found ∈ s.summaries.filter (SummaryDoc.isFor conversationId tenantId) := by
        unfold summariesOf at hf
        rw [hf]
        exact List.mem_cons_self _ _
      have hfound := (isFor_iff _ _ _).mp (List.mem_filter.mp hmem).2
      have hdoc : SummaryDoc.isFor conversationId tenantId
          { found with
            summary := cast.summary, keyPoints := cast.keyPoints, entities := cast.entities,
            lastMessageTimestamp := some stamp, tenantId := tenantId,
            updatedAt := some now } = true :=
        (isFor_iff _ _ _).mpr ⟨hfound.1, rfl⟩
      unfold summariesOf at hf ⊢
      simp only []
      rw [filter_updateFirst _ _ hdoc, hf]

/-- A call of `saveSummary` that goes through: the id is valid, the messages are there,
the database is reachable and takes the fields. -/
theorem saveSummary_saves (env : SummaryEnv)
    (generateChatResponse : List Message → Except JsError JsValue) (casts : SchemaCasts)
    (isValid : String → Bool) (timestampOf : Message → Option Nat) (slot : Slot) (s : Stores)
    (now : Nat) (newId : String) (tenantId : Option String) (conversationId : String)
    (messages : Option (List Message)) (ms : List Message) (fields cast : SummaryResult)
    (hvalid : isValid conversationId = true) (hup : s.world.mongoUp = true)
    (hms : saveSummary.messagesToSummarise slot s.world tenantId conversationId messages
      = .ok ms)
    (hfields : generateSummary env generateChatResponse conversationId (some ms) = .ok fields)
    (hcast : casts.update fields = .ok cast) :
    ∃ doc s1,
      saveSummary env generateChatResponse casts isValid timestampOf slot s now newId tenantId
        conversationId messages = (some doc, s1)
      ∧ s1.world = s.world
      ∧ doc.summary = cast.summary ∧ doc.keyPoints = cast.keyPoints
      ∧ doc.entities = cast.entities
      ∧ doc.lastMessageTimestamp = some ((ms.getLast?.bind timestampOf).getD now)
      ∧ summariesOf s1 tenantId conversationId
          = match summariesOf s tenantId conversationId with
            | [] => [doc]
            | _ :: rest => doc :: rest := by
  obtain ⟨doc, s1, hok, hw, h1, h2, h3, h4, h5⟩ :=
    findOneAndUpdate_upserts casts s now newId conversationId tenantId fields cast
      ((ms.getLast?.bind timestampOf).getD now) hup hcast
  refine ⟨doc, s1, ?_, hw, h1, h2, h3, h4, h5⟩
  unfold saveSummary
  simp only [hvalid, Bool.not_true, Bool.false_eq_true, if_false, hms, hfields, bind,
    Except.bind, hok]
  rfl

/-- C22 (as stated, refuted): two calls of `saveSummary` do not always leave a document.
With an empty message list and a valid conversation id that no conversation of the
tenant has, `saveSummary` looks the conversation up, does not find it, and returns
`null` without writing; after two such calls there is no summary document for the
pair. -/
theorem saveSummary_twice_without_conversation :
    hexObjectId "64b7f0c2a1d3e4f5a6b7c8d9" = true
    ∧ (saveSummary sampleSummaryEnv nearJsonCompletion (conversationSummaryCasts sampleNumberText hexObjectId) hexObjectId (fun _ => none)
        none emptyStores 5 "s1" (some "tenantA") "64b7f0c2a1d3e4f5a6b7c8d9" (some [])).1.isNone
      = true
    ∧ summariesOf
        (saveSummary sampleSummaryEnv nearJsonCompletion (conversationSummaryCasts sampleNumberText hexObjectId) hexObjectId (fun _ => none)
          none
          (saveSummary sampleSummaryEnv nearJsonCompletion (conversationSummaryCasts sampleNumberText hexObjectId) hexObjectId
            (fun _ => none) none emptyStores 5 "s1" (some "tenantA")
            "64b7f0c2a1d3e4f5a6b7c8d9" (some [])).2
          6 "s2" (some "tenantA") "64b7f0c2a1d3e4f5a6b7c8d9" (some [])).2
        (some "tenantA") "64b7f0c2a1d3e4f5a6b7c8d9" = [] := by
  refine ⟨by decide, rfl, rfl⟩

/-- C22 (amended): for a valid conversation id and, in each call, a message list that is
not empty or else a conversation that the tenant has, on a reachable database that
takes the fields and holds at most one summary document for the (tenant, conversation)
pair, two calls of `saveSummary` in a row leave exactly one summary document for the
pair: the one the second call returns, with the summary, key points and entities of
the second call and the timestamp of the last message of the second call (the clock
reading when that message has none). -/
theorem saveSummary_twice_keeps_one (env : SummaryEnv)
    (chat1 chat2 : List Message → Except JsError JsValue) (casts : SchemaCasts)
    (isValid : String → Bool) (timestampOf : Message → Option Nat) (slot : Slot) (s : Stores)
    (now1 now2 : Nat) (id1 id2 : String) (tenantId : Option String) (conversationId : String)
    (messages1 messages2 : Option (List Message)) (ms1 ms2 : List Message)
    (fields1 cast1 fields2 cast2 : SummaryResult)
    (hvalid : isValid conversationId = true) (hup : s.world.mongoUp = true)
    (hms1 : saveSummary.messagesToSummarise slot s.world tenantId conversationId messages1
      = .ok ms1)
    (hms2 : saveSummary.messagesToSummarise slot s.world tenantId conversationId messages2
      = .ok ms2)
    (hf1 : generateSummary env chat1 conversationId (some ms1) = .ok fields1)
    (hc1 : casts.update fields1 = .ok cast1)
    (hf2 : generateSummary env chat2 conversationId (some ms2) = .ok fields2)
    (hc2 : casts.update fields2 = .ok cast2)
    (hone : (summariesOf s tenantId conversationId).length ≤ 1) :
    ∃ doc,
      (saveSummary env chat2 casts isValid timestampOf slot
        (saveSummary env chat1 casts isValid timestampOf slot s now1 id1 tenantId
          conversationId messages1).2
        now2 id2 tenantId conversationId messages2).1 = some doc
      ∧ summariesOf
          (saveSummary env chat2 casts isValid timestampOf slot
            (saveSummary env chat1 casts isValid timestampOf slot s now1 id1 tenantId
              conversationId messages1).2
            now2 id2 tenantId conversationId messages2).2
          tenantId conversationId = [doc]
      ∧ doc.summary = cast2.summary ∧ doc.keyPoints = cast2.keyPoints
      ∧ doc.entities = cast2.entities
      ∧ doc.lastMessageTimestamp = some ((ms2.getLast?.bind timestampOf).getD now2) := by
  obtain ⟨doc1, s1, hrun1, hw1, _, _, _, _, hsum1⟩ :=
    saveSummary_saves env chat1 casts isValid timestampOf slot s now1 id1 tenantId
      conversationId messages1 ms1 fields1 cast1 hvalid hup hms1 hf1 hc1
  rw [hrun1]
  obtain ⟨doc2, s2, hrun2, _, h1, h2, h3, h4, hsum2⟩ :=
    saveSummary_saves env chat2 casts isValid timestampOf slot s1 now2 id2 tenantId
      conversationId messages2 ms2 fields2 cast2 hvalid (by rw [hw1]; exact hup)
      (by rw [hw1]; exact hms2) hf2 hc2
  simp only []
  rw [hrun2]
  refine ⟨doc2, rfl, ?_, h1, h2, h3, h4⟩
  have hs1 : summariesOf s1 tenantId conversationId = [doc1] := by
    rw [hsum1]
    cases hl : summariesOf s tenantId conversationId with
    | nil => rfl
    | cons d rest =>
        rw [hl] at hone
        cases rest with
        | nil => rfl
        | cons d2 rest2 => simp at hone
  simp only []
  rw [hsum2, hs1]

theorem saveSummary_twice_keeps_one_witness :
    ∃ doc,
      (saveSummary sampleSummaryEnv nearJsonCompletion (conversationSummaryCasts sampleNumberText hexObjectId) hexObjectId (fun _ => none)
        none
        (saveSummary sampleSummaryEnv failingCompletion (conversationSummaryCasts sampleNumberText hexObjectId) hexObjectId (fun _ => none)
          none emptyStores 5 "s1" (some "tenantA") "64b7f0c2a1d3e4f5a6b7c8d9"
          (some [{ role := "user", content := "Bonjour" }])).2
        6 "s2" (some "tenantA") "64b7f0c2a1d3e4f5a6b7c8d9"
        (some [{ role := "user", content := "Bonjour" },
          { role := "assistant", content := "Bonjour Alice" }])).1 = some doc
      ∧ summariesOf
          (saveSummary sampleSummaryEnv nearJsonCompletion (conversationSummaryCasts sampleNumberText hexObjectId) hexObjectId
            (fun _ => none) none
            (saveSummary sampleSummaryEnv failingCompletion (conversationSummaryCasts sampleNumberText hexObjectId) hexObjectId
              (fun _ => none) none emptyStores 5 "s1" (some "tenantA")
              "64b7f0c2a1d3e4f5a6b7c8d9"
              (some [{ role := "user", content := "Bonjour" }])).2
            6 "s2" (some "tenantA") "64b7f0c2a1d3e4f5a6b7c8d9"
            (some [{ role := "user", content := "Bonjour" },
              { role := "assistant", content := "Bonjour Alice" }])).2
          (some "tenantA") "64b7f0c2a1d3e4f5a6b7c8d9" = [doc]
      ∧ doc.summary = .str "Point sur les ventes" ∧ doc.keyPoints = [.str "ventes"]
      ∧ doc.entities = []
      ∧ doc.lastMessageTimestamp = some 6 :=
  saveSummary_twice_keeps_one sampleSummaryEnv failingCompletion nearJsonCompletion (conversationSummaryCasts sampleNumberText hexObjectId)
    hexObjectId (fun _ => none) none emptyStores 5 6 "s1" "s2" (some "tenantA")
    "64b7f0c2a1d3e4f5a6b7c8d9"
    (some [{ role := "user", content := "Bonjour" }])
    (some [{ role := "user", content := "Bonjour" },
      { role := "assistant", content := "Bonjour Alice" }])
    [{ role := "user", content := "Bonjour" }]
    [{ role := "user", content := "Bonjour" },
      { role := "assistant", content := "Bonjour Alice" }]
    degradedSummary degradedSummary
    { summary := .str "Point sur les ventes", keyPoints := [.str "ventes"], entities := [] }
    { summary := .str "Point sur les ventes", keyPoints := [.str "ventes"], entities := [] }
    (by decide) rfl rfl rfl rfl rfl rfl rfl (Nat.zero_le 1)

/-! ### `processSummaryJob` -/

/-- Called as the worker calls it, with the history in the place of the conversation id
and no message list, `generateSummary` returns its degraded result. -/
theorem generateSummary_without_messages {ι : Type} (env : SummaryEnv)
    (generateChatResponse : List Message → Except JsError JsValue) (first : ι) :
    generateSummary env generateChatResponse first (none : Option (List Message))
      = .ok degradedSummary := rfl

/-- The object `generateSummary` returns cannot be cast to a `String`. -/
theorem castString_toJson (numberText : Int → Int → String) (r : SummaryResult) :
    castString numberText r.toJson = none := rfl

/-- A summary document whose `summary` is the object `generateSummary` returns is
refused when it is saved. -/
theorem save_refuses_object (numberText : Int → Int → String) (isValid : String → Bool)
    (s : Stores) (doc : SummaryDoc) (r : SummaryResult) (h : doc.summary = r.toJson) :
    ConversationSummary.save (conversationSummaryCasts numberText isValid) s doc
      = .error (validationError (doc.invalidPaths numberText isValid))
    ∧ "summary" ∈ doc.invalidPaths numberText isValid := by
  have hmem : "summary" ∈ doc.invalidPaths numberText isValid := by
    unfold SummaryDoc.invalidPaths
    rw [h, castString_toJson]
    simp
  have hne : doc.invalidPaths numberText isValid ≠ [] := by
    intro hnil
    rw [hnil] at hmem
    exact absurd hmem (by simp)
  refine ⟨?_, hmem⟩
  simp [ConversationSummary.save, conversationSummaryCasts, hne, bind, Except.bind, throw,
    throwThe, MonadExceptOf.throw]

/-- The summary job never succeeds and never writes a summary: an empty history makes
it throw, and for any other history the object `generateSummary` returns is assigned to
the `String` path `summary`, which the save refuses. -/
theorem processSummaryJob_never_stores (env : SummaryEnv)
    (generateChatResponse : List Message → Except JsError JsValue)
    (numberText : Int → Int → String) (isValid : String → Bool) (slot : Slot) (s : Stores)
    (now : Nat) (newId : String) (data : SummaryJobData) :
    (∃ error, (processSummaryJob env generateChatResponse
        (conversationSummaryCasts numberText isValid) slot s now newId data).1 = .error error)
    ∧ (processSummaryJob env generateChatResponse
        (conversationSummaryCasts numberText isValid) slot s now newId data).2.summaries
      = s.summaries := by
  unfold processSummaryJob
  simp only [runInTenantContext, AsyncLocalStorage.run]
  by_cases hlen : (getConversationHistory (some { tenantId := data.tenantId }) s.world
      data.userId data.conversationId).1.length = 0
  · rw [if_pos hlen]
    exact ⟨⟨_, rfl⟩, rfl⟩
  · rw [if_neg hlen]
    rw [generateSummary_without_messages]
    simp only []
    cases hfind : ConversationSummary.findOne (some { tenantId := data.tenantId })
        { s with world := (getConversationHistory (some { tenantId := data.tenantId }) s.world
            data.userId data.conversationId).2 } data.conversationId with
    | error e => exact ⟨⟨e, rfl⟩, rfl⟩
    | ok found =>
        cases found with
        | none =>
            simp only []
            rw [(save_refuses_object numberText isValid _ _ degradedSummary rfl).1]
            exact ⟨⟨_, rfl⟩, rfl⟩
        | some summaryDoc =>
            simp only []
            rw [(save_refuses_object numberText isValid _ _ degradedSummary rfl).1]
            exact ⟨⟨_, rfl⟩, rfl⟩

/-- C28 (the code departs from it): `processSummaryJob` never persists a summary. It
calls `generateSummary(history)`, so the history lands in the `conversationId` parameter
and `messages` is `undefined`: whatever the history and the model, the summariser fails
on `messages.map` and returns its degraded result. The worker then assigns that object
to the `String` path `summary`, which the save refuses with a `ValidationError`, so the
job throws and no summary is written. For a conversation with two messages, summarising
those messages gives `Point sur les ventes` with a key point, but the job throws and
stores nothing. For an empty or a missing history the job throws, as the claim says. -/
theorem processSummaryJob_stores_no_summary :
    (∀ (env : SummaryEnv) (generateChatResponse : List Message → Except JsError JsValue)
        (history : List Message),
        generateSummary env generateChatResponse history (none : Option (List Message))
          = .ok degradedSummary)
    ∧ (∀ (env : SummaryEnv) (generateChatResponse : List Message → Except JsError JsValue)
        (numberText : Int → Int → String) (isValid : String → Bool) (slot : Slot)
        (s : Stores) (now : Nat) (newId : String) (data : SummaryJobData),
        (∃ error, (processSummaryJob env generateChatResponse
            (conversationSummaryCasts numberText isValid) slot s now newId data).1
              = .error error)
        ∧ (processSummaryJob env generateChatResponse
            (conversationSummaryCasts numberText isValid) slot s now newId data).2.summaries
          = s.summaries)
    ∧ generateSummary sampleSummaryEnv nearJsonCompletion "64b7f0c2a1d3e4f5a6b7c8d9"
        (some [{ role := "user", content := "Bonjour" },
          { role := "assistant", content := "Bonjour Alice" }])
        = .ok { summary := .str "Point sur les ventes", keyPoints := [.str "ventes"],
                entities := [] }
    ∧ (processSummaryJob sampleSummaryEnv nearJsonCompletion
        (conversationSummaryCasts sampleNumberText hexObjectId) none
        (hexStores [{ role := "user", content := "Bonjour" },
          { role := "assistant", content := "Bonjour Alice" }])
        5 "64b7f0c2a1d3e4f5a6b7c8e1" hexJob).1
        = .error { name := "ValidationError", message := "Validation failed: summary" }
    ∧ (processSummaryJob sampleSummaryEnv nearJsonCompletion
        (conversationSummaryCasts sampleNumberText hexObjectId) none
        (hexStores [{ role := "user", content := "Bonjour" },
          { role := "assistant", content := "Bonjour Alice" }])
        5 "64b7f0c2a1d3e4f5a6b7c8e1" hexJob).2.summaries = []
    ∧ (processSummaryJob sampleSummaryEnv nearJsonCompletion
        (conversationSummaryCasts sampleNumberText hexObjectId) none (hexStores [])
        5 "64b7f0c2a1d3e4f5a6b7c8e1" hexJob).1
        = .error (newError
            "Aucun historique trouvé pour la conversation 64b7f0c2a1d3e4f5a6b7c8d9")
    ∧ (processSummaryJob sampleSummaryEnv nearJsonCompletion
        (conversationSummaryCasts sampleNumberText hexObjectId) none emptyStores
        5 "64b7f0c2a1d3e4f5a6b7c8e1" hexJob).1
        = .error (newError
            "Aucun historique trouvé pour la conversation 64b7f0c2a1d3e4f5a6b7c8d9") := by
  refine ⟨fun _ _ _ => rfl, processSummaryJob_never_stores, rfl, ?_, ?_, rfl, rfl⟩
  · rfl
  · rfl

/-! ### `generateContextualSuggestions` -/

theorem default_suggestions_differ :
    "Quel est mon chiffre d'affaires aujourd'hui ?"
        ≠ "Combien de clients ai-je servis cette semaine ?"
    ∧ "Quel est mon chiffre d'affaires aujourd'hui ?"
        ≠ "Quels sont mes produits les plus vendus ?"
    ∧ "Combien de clients ai-je servis cette semaine ?"
        ≠ "Quels sont mes produits les plus vendus ?" := by
  decide

theorem fillWithDefaults_length (suggestions : List String) :
    3 ≤ (fillWithDefaults suggestions).length := by
  obtain ⟨h12, h13, h23⟩ := default_suggestions_differ
  unfold fillWithDefaults
  by_cases h : suggestions.length < 3
  · rw [if_pos h]
    rcases suggestions with _ | ⟨x, _ | ⟨y, _ | ⟨z, rest⟩⟩⟩
    · decide
    · simp only [getDefaultSuggestions, List.foldl]
      by_cases a : "Quel est mon chiffre d'affaires aujourd'hui ?" = x <;>
      by_cases b : "Combien de clients ai-je servis cette semaine ?" = x <;>
      by_cases c : "Quels sont mes produits les plus vendus ?" = x <;>
      simp_all
    · simp only [getDefaultSuggestions, List.foldl]
      by_cases a : "Quel est mon chiffre d'affaires aujourd'hui ?" = x <;>
      by_cases b : "Combien de clients ai-je servis cette semaine ?" = x <;>
      by_cases c : "Quels sont mes produits les plus vendus ?" = x <;>
      by_cases a2 : "Quel est mon chiffre d'affaires aujourd'hui ?" = y <;>
      by_cases b2 : "Combien de clients ai-je servis cette semaine ?" = y <;>
      by_cases c2 : "Quels sont mes produits les plus vendus ?" = y <;>
      simp_all
    · simp at h
      omega
  · rw [if_neg h]
    omega


theorem take_fillWithDefaults_length (suggestions : List String) :
    ((fillWithDefaults suggestions).take 3).length = 3 := by
  have h := fillWithDefaults_length suggestions
  rw [List.length_take]
  omega

/-- Once it has a summary, `generateContextualSuggestions` ends with exactly three
suggestions, whatever the summary holds: the `catch` gives the three default ones, and
the `try` block completes to three or cuts to three. -/
theorem suggestionsFromSummary_three (ops : StringOps) (stringOf : Option Json → String)
    (summary : SummaryDoc) :
    ∃ suggestions,
      tryCatch (suggestionsFromSummary ops stringOf summary)
        (fun _ => pure getDefaultSuggestions) = .ok suggestions
      ∧ suggestions.length = 3 := by
  cases h : suggestionsFromSummary ops stringOf summary with
  | error e => exact ⟨getDefaultSuggestions, rfl, rfl⟩
  | ok suggestions =>
      refine ⟨suggestions, rfl, ?_⟩
      unfold suggestionsFromSummary at h
      simp only [bind, Except.bind, pure, Except.pure] at h
      cases h1 : entitySuggestions stringOf summary.entities with
      | error e => simp [h1] at h
      | ok s1 =>
          cases h2 : somePointIncludes ops "vente" summary.keyPoints with
          | error e => simp [h1, h2] at h
          | ok b2 =>
              cases h3 : somePointIncludes ops "stock" summary.keyPoints with
              | error e => simp [h1, h2, h3] at h
              | ok b3 =>
                  cases h4 : somePointIncludes ops "employé" summary.keyPoints with
                  | error e => simp [h1, h2, h3, h4] at h
                  | ok b4 =>
                      simp only [h1, h2, h3, h4, Except.ok.injEq] at h
                      rw [← h]
                      exact take_fillWithDefaults_length _

/-- C26 (the code departs from it): `generateContextualSuggestions` fetches the summary
with `getSummary(conversationId)`, so `getSummary` gets no conversation id and answers
`null`: for every input the function returns the three default suggestions, and never
throws. The steps it would take with a summary do give exactly three suggestions for
every summary. But with a stored summary that names the client `Dupont`, where those
steps give the client suggestion completed with two default ones, and with one naming
four entities, where they give the first three, the function returns the default
list. -/
theorem generateContextualSuggestions_ignores_summary :
    (∀ (ops : StringOps) (stringOf : Option Json → String) (isValid : String → Bool)
        (slot : Slot) (s : Stores) (userId conversationId : String),
        generateContextualSuggestions ops stringOf isValid slot s userId conversationId
          = .ok getDefaultSuggestions)
    ∧ getDefaultSuggestions.length = 3
    ∧ (∀ (ops : StringOps) (stringOf : Option Json → String) (summary : SummaryDoc),
        ∃ suggestions,
          tryCatch (suggestionsFromSummary ops stringOf summary)
            (fun _ => pure getDefaultSuggestions) = .ok suggestions
          ∧ suggestions.length = 3)
    ∧ (getSummary hexObjectId none
          (storesWithSummary [.obj [("type", .str "client"), ("value", .str "Dupont")]] [])
          (some "tenantA") (some "64b7f0c2a1d3e4f5a6b7c8d9")).map
        (suggestionsFromSummary asciiOps fun _ => "undefined")
        = some (.ok ["Montrez-moi l'historique du client Dupont",
            "Quel est mon chiffre d'affaires aujourd'hui ?",
            "Combien de clients ai-je servis cette semaine ?"])
    ∧ generateContextualSuggestions asciiOps (fun _ => "undefined") hexObjectId none
        (storesWithSummary [.obj [("type", .str "client"), ("value", .str "Dupont")]] [])
        "alice" "64b7f0c2a1d3e4f5a6b7c8d9"
        = .ok ["Quel est mon chiffre d'affaires aujourd'hui ?",
            "Combien de clients ai-je servis cette semaine ?",
            "Quels sont mes produits les plus vendus ?"]
    ∧ (getSummary hexObjectId none
          (storesWithSummary
            [.obj [("type", .str "produit"), ("value", .str "Café")],
             .obj [("type", .str "client"), ("value", .str "Dupont")],
             .obj [("type", .str "employé"), ("value", .str "Marie")],
             .obj [("type", .str "produit"), ("value", .str "Thé")]] [])
          (some "tenantA") (some "64b7f0c2a1d3e4f5a6b7c8d9")).map
        (suggestionsFromSummary asciiOps fun _ => "undefined")
        = some (.ok ["Quelles sont les ventes pour Café ?",
            "Montrez-moi l'historique du client Dupont", "Quel est le planning de Marie ?"])
    ∧ generateContextualSuggestions asciiOps (fun _ => "undefined") hexObjectId none
        (storesWithSummary
          [.obj [("type", .str "produit"), ("value", .str "Café")],
           .obj [("type", .str "client"), ("value", .str "Dupont")],
           .obj [("type", .str "employé"), ("value", .str "Marie")],
           .obj [("type", .str "produit"), ("value", .str "Thé")]] [])
        "alice" "64b7f0c2a1d3e4f5a6b7c8d9"
        = .ok ["Quel est mon chiffre d'affaires aujourd'hui ?",
            "Combien de clients ai-je servis cette semaine ?",
            "Quels sont mes produits les plus vendus ?"] := by
  set_option maxRecDepth 100000 in
  refine ⟨fun _ _ _ _ _ _ _ => rfl, rfl, suggestionsFromSummary_three, rfl, rfl, rfl, rfl⟩

/-- C27 (the code departs from it): a summary is stored for the conversation
`64b7f0c2a1d3e4f5a6b7c8d9` of `tenantA`, with the entity `Café` of type `produit` and a
key point about sales. Looked up with the tenant and the conversation id, the summary
is found, and its suggestions start with `Quelles sont les ventes pour Café ?`. But
`generateContextualSuggestions` looks it up with `getSummary(conversationId)`, gets
`null`, and returns the default list, which does not contain that suggestion. -/
theorem generateContextualSuggestions_misses_product :
    (getSummary hexObjectId none
          (storesWithSummary [.obj [("type", .str "produit"), ("value", .str "Café")]]
            [.str "Les ventes de la semaine"])
          (some "tenantA") (some "64b7f0c2a1d3e4f5a6b7c8d9")).map
        (suggestionsFromSummary asciiOps fun _ => "undefined")
        = some (.ok ["Quelles sont les ventes pour Café ?",
            "Quel est mon chiffre d'affaires ce mois-ci ?",
            "Quel est mon chiffre d'affaires aujourd'hui ?"])
    ∧ (getSummary hexObjectId none
          (storesWithSummary [.obj [("type", .str "produit"), ("value", .str "Café")]]
            [.str "Les ventes de la semaine"])
          (some "64b7f0c2a1d3e4f5a6b7c8d9") none).isNone = true
    ∧ generateContextualSuggestions asciiOps (fun _ => "undefined") hexObjectId none
        (storesWithSummary [.obj [("type", .str "produit"), ("value", .str "Café")]]
          [.str "Les ventes de la semaine"])
        "alice" "64b7f0c2a1d3e4f5a6b7c8d9"
        = .ok ["Quel est mon chiffre d'affaires aujourd'hui ?",
            "Combien de clients ai-je servis cette semaine ?",
            "Quels sont mes produits les plus vendus ?"]
    ∧ "Quelles sont les ventes pour Café ?" ∉
        ["Quel est mon chiffre d'affaires aujourd'hui ?",
          "Combien de clients ai-je servis cette semaine ?",
          "Quels sont mes produits les plus vendus ?"] := by
  set_option maxRecDepth 100000 in
  refine ⟨rfl, rfl, rfl, by decide⟩

/-! ### The tenant context of the job handlers -/

/-- C23 (the code departs from it): the summary-job handler runs its whole processing
inside `runInTenantContext(job.data.tenantId, ...)`, so every `getCurrentTenantId()` of
the processing, suspensions included, gives the tenant id of the job. The chat-job
handler, the processor of `openaiWorker`, enters no tenant context: every
`getCurrentTenantId()` of its processing gives the tenant id of the context BullMQ calls
it in, whatever the job says. For a chat job of `tenantA` called outside any context,
both calls of `readTenantTwice` give `null`; for a summary job of `tenantA` they give
`tenantA`. -/
theorem openaiWorker_runs_outside_tenant_context :
    (∀ (tenantId : Option String) (processing : Fn (List (Option String))) (slot : Slot),
        (settle (processing.awaits tenantId)
          (processSummaryJob.task tenantId processing slot)).seen = processing.reads tenantId)
    ∧ (∀ (tenantId : Option String) (processing : Fn (List (Option String))) (slot : Slot),
        (settle (processing.awaits (getCurrentTenantId slot))
          (openaiWorker.task tenantId processing slot)).seen
          = processing.reads (getCurrentTenantId slot))
    ∧ (settle 1 (processSummaryJob.task (some "tenantA") readTenantTwice none)).outcome
        = .finished [some "tenantA", some "tenantA"]
    ∧ (settle 1 (openaiWorker.task (some "tenantA") readTenantTwice none)).outcome
        = .finished [none, none]
    ∧ (settle 1 (openaiWorker.task (some "tenantA") readTenantTwice none)).seen
        = [none, none] := by
  refine ⟨?_, ?_, rfl, rfl, rfl⟩
  · intro tenantId processing slot
    exact ((settle_runInTenantContext tenantId processing slot).1 _ (Nat.le_refl _)).2
  · intro tenantId processing slot
    exact (finishesIn_settle _ _ _ _ (exec_finishesIn processing slot)).2

/-! ### `handleChat` and the chat worker -/

theorem getConversationHistory_conversations (slot : Slot) (w : World)
    (userId conversationId : String) :
    (getConversationHistory slot w userId conversationId).2.conversations = w.conversations := by
  unfold getConversationHistory
  cases getChatHistory w.redis userId conversationId with
  | some cached => rfl
  | none =>
      simp only []
      cases Conversation.findById slot w conversationId with
      | error e => rfl
      | ok found => cases found <;> rfl

/-- A well-formed conversation id is never replaced: whatever the store holds,
`handleChat` creates no conversation and, when the queue takes the job, answers with
the id it was given. -/
theorem handleChat_keeps_valid_id (isValid : String → Bool) (slot : Slot) (sys : ChatSystem)
    (now : Nat) (newId jobId : String) (user : ChatUser) (message id : String)
    (hmessage : message ≠ "") (hid : id ≠ "") (hvalid : isValid id = true) :
    (handleChat isValid slot sys now newId jobId user
        { message := some message, conversationId := some id }).2.world.conversations
      = sys.world.conversations
    ∧ (sys.queue.up = true →
        (handleChat isValid slot sys now newId jobId user
          { message := some message, conversationId := some id }).1
          = .accepted "Votre message est en cours de traitement." jobId id) := by
  have hc := getConversationHistory_conversations slot sys.world user.id id
  constructor
  · by_cases hq : sys.queue.up = true
    · simp [handleChat, chatMessageSchema.validate, hmessage, truthy, hvalid, arrayTruthy, hid,
        addChatJob, hq, pure, Except.pure, hc]
    · simp [handleChat, chatMessageSchema.validate, hmessage, truthy, hvalid, arrayTruthy, hid,
        addChatJob, hq, throw, throwThe, MonadExceptOf.throw, hc]
  · intro hq
    simp [handleChat, chatMessageSchema.validate, hmessage, truthy, hvalid, arrayTruthy, hid,
      addChatJob, hq, pure, Except.pure]

/-- C24 (the code departs from it): for the request `Bonjour` with no conversation id,
`handleChat` creates the conversation `c1`, enqueues the chat job and answers 202 with
the id `c1`; the conversation is created empty, since the call that would add the user
message is commented out. The chat worker then takes the job: its processor reads
`job.data.prompt`, which `handleChat` does not set, and throws; and whatever it does, it
never writes to a conversation. After the job has been processed the message list of
`c1` is empty, not the user message followed by an assistant reply. -/
theorem chat_job_leaves_conversation_empty :
    (handleChat hexObjectId none emptyChatSystem 5 "c1" "1" alice
        { message := some "Bonjour", conversationId := none }).1
      = .accepted "Votre message est en cours de traitement." "1" "c1"
    ∧ (handleChat hexObjectId none emptyChatSystem 5 "c1" "1" alice
        { message := some "Bonjour", conversationId := none }).2.world.conversations
      = [{ id := "c1", tenantId := some "tenantA", userId := "alice",
           title := "Nouvelle conversation", messages := [], lastActivity := 5,
           isActive := true }]
    ∧ (openaiWorker.run sampleApi
        (handleChat hexObjectId none emptyChatSystem 5 "c1" "1" alice
          { message := some "Bonjour", conversationId := none }).2).1
      = some (.error { name := "TypeError",
                       message := "The \"data\" argument must be of type string or an instance of Buffer, TypedArray, or DataView. Received undefined" })
    ∧ storedMessages
        (openaiWorker.run sampleApi
          (handleChat hexObjectId none emptyChatSystem 5 "c1" "1" alice
            { message := some "Bonjour", conversationId := none }).2).2.world "c1" = []
    ∧ (openaiWorker.run sampleApi
        (handleChat hexObjectId none emptyChatSystem 5 "c1" "1" alice
          { message := some "Bonjour", conversationId := none }).2).2.queue.jobs = []
    ∧ (∀ (api : OpenAiApi) (sys : ChatSystem), (openaiWorker.run api sys).2.world = sys.world) := by
  refine ⟨by decide, by decide, rfl, by decide, by decide, ?_⟩
  intro api sys
  unfold openaiWorker.run
  cases sys.queue.jobs <;> rfl

/-- C25 (the code departs from it): with a missing conversation id, and with a malformed
one, `handleChat` creates a conversation and answers 202 with its id. With a well-formed
id that no conversation has, it answers 202 with that id and creates nothing: the
history lookup returns an empty array, which is truthy, so the branch that would create
the conversation is never taken, and the id returned identifies no conversation. In
general a well-formed id is answered back as it is and no conversation is created,
whatever the store holds. -/
theorem handleChat_returns_unknown_conversation_id :
    ((handleChat hexObjectId none emptyChatSystem 5 "c1" "1" alice
          { message := some "Bonjour", conversationId := none }).1
        = .accepted "Votre message est en cours de traitement." "1" "c1"
      ∧ (handleChat hexObjectId none emptyChatSystem 5 "c1" "1" alice
          { message := some "Bonjour", conversationId := none }).2.world.conversations.map
            (fun c => (c.id, c.userId, c.tenantId)) = [("c1", "alice", some "tenantA")])
    ∧ (hexObjectId "abc" = false
      ∧ (handleChat hexObjectId none emptyChatSystem 5 "c1" "1" alice
          { message := some "Bonjour", conversationId := some "abc" }).1
        = .accepted "Votre message est en cours de traitement." "1" "c1"
      ∧ (handleChat hexObjectId none emptyChatSystem 5 "c1" "1" alice
          { message := some "Bonjour", conversationId := some "abc" }).2.world.conversations.map
            (fun c => (c.id, c.userId, c.tenantId)) = [("c1", "alice", some "tenantA")])
    ∧ (hexObjectId "64b7f0c2a1d3e4f5a6b7c8d9" = true
      ∧ (handleChat hexObjectId none emptyChatSystem 5 "c1" "1" alice
          { message := some "Bonjour", conversationId := some "64b7f0c2a1d3e4f5a6b7c8d9" }).1
        = .accepted "Votre message est en cours de traitement." "1" "64b7f0c2a1d3e4f5a6b7c8d9"
      ∧ (handleChat hexObjectId none emptyChatSystem 5 "c1" "1" alice
          { message := some "Bonjour", conversationId := some "64b7f0c2a1d3e4f5a6b7c8d9" }
          ).2.world.conversations = [])
    ∧ (∀ (isValid : String → Bool) (slot : Slot) (sys : ChatSystem) (now : Nat)
        (newId jobId : String) (user : ChatUser) (message id : String),
        message ≠ "" → id ≠ "" → isValid id = true →
        (handleChat isValid slot sys now newId jobId user
            { message := some message, conversationId := some id }).2.world.conversations
          = sys.world.conversations
        ∧ (sys.queue.up = true →
            (handleChat isValid slot sys now newId jobId user
              { message := some message, conversationId := some id }).1
              = .accepted "Votre message est en cours de traitement." jobId id)) := by
  refine ⟨⟨by decide, by decide⟩, ⟨by decide, by decide, by decide⟩,
    ⟨by decide, by decide, by decide⟩, ?_⟩
  intro isValid slot sys now newId jobId user message id hmessage hid hvalid
  exact handleChat_keeps_valid_id isValid slot sys now newId jobId user message id hmessage hid
    hvalid

theorem handleChat_returns_unknown_conversation_id_witness :
    (handleChat hexObjectId none emptyChatSystem 5 "c1" "1" alice
        { message := some "Bonjour", conversationId := some "64b7f0c2a1d3e4f5a6b7c8d9" }
        ).2.world.conversations = emptyChatSystem.world.conversations
    ∧ (emptyChatSystem.queue.up = true →
        (handleChat hexObjectId none emptyChatSystem 5 "c1" "1" alice
          { message := some "Bonjour", conversationId := some "64b7f0c2a1d3e4f5a6b7c8d9" }).1
          = .accepted "Votre message est en cours de traitement." "1"
              "64b7f0c2a1d3e4f5a6b7c8d9") :=
  handleChat_returns_unknown_conversation_id.2.2.2 hexObjectId none emptyChatSystem 5 "c1" "1"
    alice "Bonjour" "64b7f0c2a1d3e4f5a6b7c8d9" (by decide) (by decide) (by decide)

/-! ### `getScheduleConflicts` -/

theorem adjacentConflicts_nil (empId : String) (schedules : List Schedule) :
    adjacentConflicts empId schedules = [] := by
  induction schedules with
  | nil => rfl
  | cons s1 rest ih =>
      cases rest with
      | nil => rfl
      | cons s2 rest =>
          simp only [adjacentConflicts, Schedule.endDate, Schedule.startDate, jsGreater]
          simpa using ih

theorem findConflicts_nil (schedules : List Schedule) : findConflicts schedules = [] := by
  simp [findConflicts, List.flatMap, adjacentConflicts_nil]

/-- C29 (the code departs from it): `getScheduleConflicts` reports no conflict at all.
Its overlap test reads `endDate` and `startDate`, which the schedule schema does not
declare, so it compares `undefined` with `undefined` and never holds: every answer is
the 400 for a missing date, an error handed to `next`, or the empty list. Marie has on
one day a long shift from 8 to 18, a meeting from 9 to 10 and a training from 11 to 12;
the long shift overlaps the two others, and neither pair is reported. -/
theorem getScheduleConflicts_misses_overlap :
    (∀ (env : ScheduleEnv) (tenantId : Option String) (query : ConflictsQuery),
        (∃ message, getScheduleConflicts env tenantId query = .badRequest message)
        ∨ (∃ error, getScheduleConflicts env tenantId query = .passedToNext error)
        ∨ getScheduleConflicts env tenantId query = .json [])
    ∧ intervalsOverlap longShift morningMeeting = true
    ∧ intervalsOverlap longShift training = true
    ∧ getScheduleConflicts marieEnv (some "tenantA")
        { startDate := some "2026-01-05", endDate := some "2026-01-06", employeeId := none }
      = .json []
    ∧ reportedIn
        (getScheduleConflicts marieEnv (some "tenantA")
          { startDate := some "2026-01-05", endDate := some "2026-01-06", employeeId := none })
        longShift morningMeeting = false
    ∧ reportedIn
        (getScheduleConflicts marieEnv (some "tenantA")
          { startDate := some "2026-01-05", endDate := some "2026-01-06", employeeId := none })
        longShift training = false := by
  refine ⟨?_, by decide, by decide, by decide, by decide, by decide⟩
  intro env tenantId query
  unfold getScheduleConflicts
  by_cases hq : (!truthy query.startDate || !truthy query.endDate) = true
  · exact Or.inl ⟨_, by rw [if_pos hq]⟩
  · rw [if_neg hq]
    right
    have hdups : ([] : List String).eraseDups = [] := rfl
    simp only [findConflicts_nil, List.map_nil, hdups]
    cases hs : env.findSchedules tenantId (query.startDate.getD "") (query.endDate.getD "")
        (if truthy query.employeeId = true then query.employeeId else none) with
    | error e => exact Or.inl ⟨e, by simp [bind, Except.bind]⟩
    | ok schedules =>
        cases he : env.findEmployees [] with
        | error e => exact Or.inl ⟨e, by simp [bind, Except.bind, he]⟩
        | ok employees => exact Or.inr (by simp [bind, Except.bind, he, pure, Except.pure])

/-! ### `createSale` -/

/-- The sale `createSale` builds never passes the validation of `saleModel`: its `userId`
is `req.user._id`, which is `undefined`, and the path is required. -/
theorem save_without_userId (env : SaleEnv) (tenantId : Option String)
    (items : List SaleItem) (totalAmount : Amount) :
    ∃ error, Sale.save env (Sale.mk tenantId none items totalAmount) = .error error
      ∧ error.name = "ValidationError" := by
  have hne : Sale.invalidPaths env (Sale.mk tenantId none items totalAmount) ≠ [] := by
    unfold Sale.invalidPaths
    cases tenantId <;> simp
  refine ⟨validationError (Sale.invalidPaths env (Sale.mk tenantId none items totalAmount)),
    ?_, rfl⟩
  simp [Sale.save, hne, throw, throwThe, MonadExceptOf.throw]

/-- The loop over the items never ends a request with a 201. -/
theorem checkItems_error_not_created (env : SaleEnv) (tenantId : Option String)
    (products : List Product) :
    ∀ (items : List SaleItem) (response : SaleResponse) (sale : Sale),
      checkItems env tenantId products items = .error response → response ≠ .created sale := by
  intro items
  induction items with
  | nil => intro response sale h; simp [checkItems, pure, Except.pure] at h
  | cons item rest ih =>
      intro response sale h
      unfold checkItems at h
      by_cases hv : (!env.isValid item.productId) = true
      · rw [if_pos hv] at h
        simp only [throw, throwThe, MonadExceptOf.throw, Except.error.injEq] at h
        rw [← h]
        intro hc
        cases hc
      · rw [if_neg hv] at h
        cases hp : Product.findOne env products item.productId tenantId with
        | none =>
            simp only [hp, throw, throwThe, MonadExceptOf.throw, Except.error.injEq] at h
            rw [← h]
            intro hc
            cases hc
        | some product =>
            simp only [hp] at h
            by_cases hs : product.stock < item.quantity
            · rw [if_pos hs] at h
              simp only [throw, throwThe, MonadExceptOf.throw, Except.error.injEq] at h
              rw [← h]
              intro hc
              cases hc
            · rw [if_neg hs] at h
              cases ho : checkItems env tenantId products rest with
              | error e =>
                  simp only [ho, bind, Except.bind, Except.error.injEq] at h
                  rw [← h]
                  exact ih e sale ho
              | ok others => simp [ho, bind, Except.bind, pure, Except.pure] at h

/-- No request gets as far as the stock update: `createSale` never answers 201 and always
leaves the database as it was. -/
theorem createSale_never_commits (env : SaleEnv) (shop : Shop) (user : AuthUser)
    (body : SaleBody) :
    (createSale env shop user body).2 = shop
    ∧ ∀ sale, (createSale env shop user body).1 ≠ .created sale := by
  unfold createSale
  simp only [AuthUser._id]
  by_cases hjoi : (!createSaleSchema.accepts body) = true
  · rw [if_pos hjoi]
    exact ⟨rfl, fun _ h => by cases h⟩
  · rw [if_neg hjoi]
    by_cases htotal :
        env.totalMismatch (body.items.map fun item => item.totalPrice) body.totalAmount = true
    · rw [if_pos htotal]
      exact ⟨rfl, fun _ h => by cases h⟩
    · rw [if_neg htotal]
      cases hcheck : checkItems env user.tenantId shop.products body.items with
      | error response =>
          exact ⟨rfl, fun sale => checkItems_error_not_created env _ _ _ response sale hcheck⟩
      | ok stockUpdates =>
          obtain ⟨error, he, _⟩ :=
            save_without_userId env user.tenantId body.items body.totalAmount
          rw [he]
          exact ⟨rfl, fun _ h => by cases h⟩

/-- What the stock check and the bulk write would do to a sale that names one product
twice, taken on their own: with five units in stock, two items of three units pass the
check, each against the full stock, and the two decrements leave the stock at -1. In
`createSale` the bulk write is never reached. -/
theorem stock_check_on_repeated_product :
    checkItems openSaleEnv (some "64b7f0c2a1d3e4f5a6b7c8d0") coffeeShop.products
        [threeCoffees, threeCoffees]
      = .ok [{ productId := "64b7f0c2a1d3e4f5a6b7c8d1",
               tenantId := some "64b7f0c2a1d3e4f5a6b7c8d0", inc := -3 },
             { productId := "64b7f0c2a1d3e4f5a6b7c8d1",
               tenantId := some "64b7f0c2a1d3e4f5a6b7c8d0", inc := -3 }]
    ∧ Product.bulkWrite openSaleEnv coffeeShop.products
        [{ productId := "64b7f0c2a1d3e4f5a6b7c8d1",
           tenantId := some "64b7f0c2a1d3e4f5a6b7c8d0", inc := -3 },
         { productId := "64b7f0c2a1d3e4f5a6b7c8d1",
           tenantId := some "64b7f0c2a1d3e4f5a6b7c8d0", inc := -3 }]
      = [{ id := "64b7f0c2a1d3e4f5a6b7c8d1", tenantId := some "64b7f0c2a1d3e4f5a6b7c8d0",
           name := "Café", stock := -1 }] := by
  refine ⟨rfl, by decide⟩

/-- C30: `createSale` keeps the stock of every product non-negative. Starting from stocks
that are all at least 0, after any request every stock is still at least 0, and a request
that is not answered 201 changes no stock. In fact no request changes the database: the
sale document is built with `userId: req.user._id`, which is `undefined` on the object
`protect` puts in `req.user`, so the save of the sale is refused (the path is required)
before the stock updates are applied, the transaction is aborted and no request is
answered 201, whatever its items, a product named twice included. -/
theorem createSale_keeps_stock_nonneg (env : SaleEnv) (shop : Shop) (user : AuthUser)
    (body : SaleBody) (hnn : ∀ p ∈ shop.products, 0 ≤ p.stock) :
    (∀ p ∈ (createSale env shop user body).2.products, 0 ≤ p.stock)
    ∧ ((∀ sale, (createSale env shop user body).1 ≠ .created sale) →
        (createSale env shop user body).2.products = shop.products)
    ∧ (createSale env shop user body).2 = shop
    ∧ ∀ sale, (createSale env shop user body).1 ≠ .created sale := by
  obtain ⟨h1, h2⟩ := createSale_never_commits env shop user body
  refine ⟨?_, fun _ => by rw [h1], h1, h2⟩
  rw [h1]
  exact hnn

/-- Witness for C30: a sale naming the coffee twice, three units each, with five units in
stock. The request is handed to `next` with the `ValidationError` of the save and the
stock is still 5. -/
theorem createSale_keeps_stock_nonneg_witness :
    (∀ p ∈ (createSale openSaleEnv coffeeShop cashier
        { items := [threeCoffees, threeCoffees],
          totalAmount := { mantissa := 1500, exponent := -2 }, otherFieldsValid := true }).2.products, 0 ≤ p.stock)
    ∧ (createSale openSaleEnv coffeeShop cashier
        { items := [threeCoffees, threeCoffees],
          totalAmount := { mantissa := 1500, exponent := -2 }, otherFieldsValid := true }).1
      = .passedToNext { name := "ValidationError", message := "Validation failed: userId" }
    ∧ (createSale openSaleEnv coffeeShop cashier
        { items := [threeCoffees, threeCoffees],
          totalAmount := { mantissa := 1500, exponent := -2 }, otherFieldsValid := true }).2 = coffeeShop :=
  ⟨(createSale_keeps_stock_nonneg openSaleEnv coffeeShop cashier
      { items := [threeCoffees, threeCoffees],
        totalAmount := { mantissa := 1500, exponent := -2 }, otherFieldsValid := true }
      (by decide)).1,
   by decide, by decide⟩

end Branda
